import Mathlib

/-!
# AMx8x5 real-time-clock driver: register transaction and encoding layer

A shallow embedding of `src/amx8x5.cpp` / `src/amx8x5.h` and theorems about it.

Conventions of the embedding

* C integers are `Nat`; a value stored into a `uint8_t` object is reduced with `u8`
  (`% 256`) at the place the C code stores it.
* A pointer that the C code tests against `NULL` is an `Option` (or, for a destination
  buffer whose initial content does not matter, a `Bool` telling whether it is present).
* The transport callbacks of the handle act on an external world of type `σ` (what the
  opaque `pHandle` stands for); every driver function passes that world along explicitly.
* The process-wide `stcSysTime` is the `stcSysTime` field of `World`.
-/

namespace Amx8x5

/-! ## Types of `amx8x5.h` -/

/-- The generic error codes `en_result_t`. -/
inductive en_result_t where
  | Ok
  | Error
  | ErrorAddressAlignment
  | ErrorAccessRights
  | ErrorInvalidParameter
  | ErrorOperationInProgress
  | ErrorInvalidMode
  | ErrorUninitialized
  | ErrorBufferFull
  | ErrorTimeout
  | ErrorNotReady
  | OperationInProgress
  deriving DecidableEq, Repr

/-- The communication mode `en_amx8x5_communication_mode_t`. -/
inductive en_amx8x5_communication_mode_t where
  | AMx8x5ModeSPI
  | AMx8x5ModeI2C
  deriving DecidableEq, Repr

/-- The time record `stc_amx8x5_time_t` (all fields are `uint8_t` in C). -/
structure stc_amx8x5_time_t where
  u8Hundredth : Nat
  u8Second : Nat
  u8Minute : Nat
  u8Hour : Nat
  u8Date : Nat
  u8Weekday : Nat
  u8Month : Nat
  u8Year : Nat
  u8Century : Nat
  u8Mode : Nat
  deriving DecidableEq, Repr

/-- The type of the write callbacks `pfn_spi_write_register` / `pfn_i2c_write_register`:
selector (chip select or I2C address), register, bytes to write (the buffer, cut to the
length passed), world; returns the `int` status and the new world. -/
abbrev pfn_write_register (σ : Type) := Nat → Nat → List Nat → σ → Int × σ

/-- The type of the read callbacks `pfn_spi_read_register` / `pfn_i2c_read_register`:
selector, register, length, world; returns the `int` status, the bytes the callback stored
in the buffer, and the new world. -/
abbrev pfn_read_register (σ : Type) := Nat → Nat → Nat → σ → Int × List Nat × σ

/-- The handle `stc_amx8x5_handle_t`. The three anonymous unions of the C struct share
storage, so each is one field here; the C member names are the accessors below. -/
structure stc_amx8x5_handle_t (σ : Type) where
  enMode : en_amx8x5_communication_mode_t
  enRtcType : Nat
  u32Address : Nat
  pfnWrite : Option (pfn_write_register σ)
  pfnRead : Option (pfn_read_register σ)

/-- Union member `u32ChipSelect` (same storage as `u32Address`). -/
def stc_amx8x5_handle_t.u32ChipSelect {σ : Type} (h : stc_amx8x5_handle_t σ) : Nat :=
  h.u32Address

/-- Union member `pfnWriteSpi`. -/
def stc_amx8x5_handle_t.pfnWriteSpi {σ : Type} (h : stc_amx8x5_handle_t σ) :
    Option (pfn_write_register σ) := h.pfnWrite

/-- Union member `pfnWriteI2C`. -/
def stc_amx8x5_handle_t.pfnWriteI2C {σ : Type} (h : stc_amx8x5_handle_t σ) :
    Option (pfn_write_register σ) := h.pfnWrite

/-- Union member `pfnReadSpi`. -/
def stc_amx8x5_handle_t.pfnReadSpi {σ : Type} (h : stc_amx8x5_handle_t σ) :
    Option (pfn_read_register σ) := h.pfnRead

/-- Union member `pfnReadI2C`. -/
def stc_amx8x5_handle_t.pfnReadI2C {σ : Type} (h : stc_amx8x5_handle_t σ) :
    Option (pfn_read_register σ) := h.pfnRead

/-- Everything the driver can change: the external world behind the transport and the
process-wide cached time record `stcSysTime`. -/
structure World (σ : Type) where
  dev : σ
  stcSysTime : stc_amx8x5_time_t

/-! ## Constants and macros of `amx8x5.h` -/

/-- Conversion to `uint8_t`. -/
def u8 (x : Nat) : Nat := x % 256

def AMX8X5_REG_HUNDREDTHS : Nat := 0x00
def AMX8X5_REG_HOURS : Nat := 0x03
def AMX8X5_REG_STATUS : Nat := 0x0F
def AMX8X5_REG_STATUS_CB_MSK : Nat := 1 <<< 7
def AMX8X5_REG_CONTROL_1 : Nat := 0x10
def AMX8X5_REG_CONTROL_1_STOP_MSK : Nat := 1 <<< 7
def AMX8X5_REG_CONTROL_1_12_24_MSK : Nat := 1 <<< 6
def AMX8X5_REG_CONTROL_1_WRTC_MSK : Nat := 1 <<< 0
def AMX8X5_12HR_MODE : Nat := 0x01
def AMX8X5_24HR_MODE : Nat := 0x02

def AMX8X5_REG_ALARM_HUNDRS : Nat := 0x08
def AMX8X5_REG_CONTROL_2 : Nat := 0x11
def AMX8X5_REG_CONTROL_2_OUT2S_POS : Nat := 2
def AMX8X5_REG_CONTROL_2_OUT2S_MSK : Nat := 0x7 <<< AMX8X5_REG_CONTROL_2_OUT2S_POS
def AMX8X5_REG_CONTROL_2_OUT1S_POS : Nat := 0
def AMX8X5_REG_CONTROL_2_OUT1S_MSK : Nat := 0x3 <<< AMX8X5_REG_CONTROL_2_OUT1S_POS
def AMX8X5_REG_INT_MASK : Nat := 0x12
def AMX8X5_REG_INT_MASK_IM_POS : Nat := 5
def AMX8X5_REG_INT_MASK_IM_MSK : Nat := 0x3 <<< AMX8X5_REG_INT_MASK_IM_POS
def AMX8X5_REG_INT_MASK_AIE_POS : Nat := 2
def AMX8X5_REG_INT_MASK_AIE_MSK : Nat := 0x1 <<< AMX8X5_REG_INT_MASK_AIE_POS
def AMX8X5_REG_CAL_XT : Nat := 0x14
def AMX8X5_REG_CAL_RC_HI : Nat := 0x15
def AMX8X5_REG_CAL_RC_LOW : Nat := 0x16
def AMX8X5_REG_TIMER_CTRL : Nat := 0x18
def AMX8X5_REG_TIMER_CTRL_RPT_POS : Nat := 2
def AMX8X5_REG_OSC_STATUS : Nat := 0x1D

def AMX8X5_REG_STATUS_WDT_POS : Nat := 5
def AMX8X5_REG_STATUS_WDT_MSK : Nat := 1 <<< AMX8X5_REG_STATUS_WDT_POS
def AMX8X5_REG_STATUS_TIM_POS : Nat := 3
def AMX8X5_REG_STATUS_TIM_MSK : Nat := 1 <<< AMX8X5_REG_STATUS_TIM_POS
def AMX8X5_REG_INT_MASK_TIE_POS : Nat := 3
def AMX8X5_REG_INT_MASK_TIE_MSK : Nat := 0x1 <<< AMX8X5_REG_INT_MASK_TIE_POS
def AMX8X5_REG_SQW : Nat := 0x13
def AMX8X5_REG_SLEEP_CTRL : Nat := 0x17
def AMX8X5_REG_TIMER : Nat := 0x19
def AMX8X5_REG_TIMER_INITIAL : Nat := 0x1A
def AMX8X5_REG_WDT : Nat := 0x1B
def AMX8X5_REG_OSC_CONTROL : Nat := 0x1C
def AMX8X5_REG_OSC_STATUS_OMODE_POS : Nat := 4
def AMX8X5_REG_OSC_STATUS_OMODE_MSK : Nat := 1 <<< AMX8X5_REG_OSC_STATUS_OMODE_POS
def AMX8X5_REG_CONFIG_KEY : Nat := 0x1F
def AMX8X5_REG_TRICKLE : Nat := 0x20
def AMX8X5_REG_TRICKLE_TCS_ENABLE_VALUE : Nat := 0xA
def AMX8X5_REG_TRICKLE_TCS_POS : Nat := 4
def AMX8X5_REG_TRICKLE_DIODE_POS : Nat := 2
def AMX8X5_REG_TRICKLE_ROUT_POS : Nat := 0
def AMX8X5_REG_BREF_CTRL : Nat := 0x21
def AMX8X5_REG_ID0 : Nat := 0x28
def AMX8X5_REG_EXTENDED_ADDR : Nat := 0x3F
def AMX8X5_CONFIG_KEY_VAL : Nat := 0xA1

/-! The enumerations whose values the driver switches on are `Nat` selectors: a C `enum`
parameter can carry any integer, and the `default:` branches of the source decide what
happens to the values that are no enumerator. -/

def AMx8x5ModeCalibrateXT : Nat := 0
def AMx8x5ModeCalibrateRC : Nat := 1

def AMx8x5AlarmDisabled : Nat := 0
def AMx8x5AlarmYear : Nat := 1
def AMx8x5AlarmMonth : Nat := 2
def AMx8x5AlarmWeek : Nat := 3
def AMx8x5AlarmDay : Nat := 4
def AMx8x5AlarmHour : Nat := 5
def AMx8x5AlarmMinute : Nat := 6
def AMx8x5AlarmSecond : Nat := 7
def AMx8x5Alarm10thSecond : Nat := 8
def AMx8x5Alarm100thSecond : Nat := 9

def AMx8x5InterruptModeLevel : Nat := 0
def AMx8x5InterruptModePulseShort : Nat := 1
def AMx8x5InterruptModePulseMedium : Nat := 2
def AMx8x5InterruptModePulseLong : Nat := 3

def AMx8x5InterruptPinInternal : Nat := 0
def AMx8x5InterruptIrq : Nat := 1
def AMx8x5InterruptIrq2 : Nat := 2

def AMx8x5Out1nIRQAtIrqElseOut : Nat := 0
def AMx8x5Out1SwqIfSqweElseOut : Nat := 1
def AMx8x5Out1SwqIfSqweElsenIRQAtIrqElseOut : Nat := 2
def AMx8x5Out1nAIRQIfAieElseOut : Nat := 3

def AMx8x5Out2nIRQAtIrqElseOutB : Nat := 0
def AMx8x5Out2SwqIfSqweElseOutB : Nat := 1
def AMx8x5Out2nAIRQIfAieElseOutB : Nat := 3
def AMx8x5Out2TIRQIfTieElseOutB : Nat := 4
def AMx8x5Out2nTIRQIfTieElseOutB : Nat := 5
def AMx8x5Out2Sleep : Nat := 6
def AMx8x5Out2OutB : Nat := 7

def AMx8x5Type0805 : Nat := 0x0805
def AMx8x5Type0815 : Nat := 0x0815
def AMx8x5Type1805 : Nat := 0x1805
def AMx8x5Type1815 : Nat := 0x1815

def AMx8x5nRstLowInSleep : Nat := 0
def AMx8x5PswIrq2HighInSleep : Nat := 1
def AMx8x5nRstLoPswIrq2HighInSleep : Nat := 2

def AMx8x5Xt32KHzNoSwitch : Nat := 0
def AMx8x5Xt32KHzSwitchRcOnBat : Nat := 1
def AMx8x5nRc128Hz : Nat := 2

def AMx8x5PeriodeUs : Nat := 0
def AMx8x5PeriodeSeconds : Nat := 1

def AMx8x5RepeatModeSingleLevel : Nat := 0
def AMx8x5RepeatModeRepeatedPulseShort : Nat := 1
def AMx8x5RepeatModeSinglePulseShort : Nat := 2
def AMx8x5RepeatModeRepeatedPulseMedium : Nat := 3
def AMx8x5RepeatModeSinglePulseMedium : Nat := 4
def AMx8x5RepeatModeRepeatedPulseLong : Nat := 5
def AMx8x5RepeatModeSinglePulseLong : Nat := 6

def AMx8x5CountdownInterruptPinDisable : Nat := 0
def AMx8x5CountdownInterruptPinnTIRQLow : Nat := 1
def AMx8x5CountdownInterruptPinFOUTnIRQLownTIRQLow : Nat := 2
def AMx8x5CountdownInterruptPinPSWnIRQ2LownTIRQLow : Nat := 3
def AMx8x5CountdownInterruptPinCLKOUTnIRQ3LownTIRQLow : Nat := 4
def AMx8x5CountdownInterruptPinCLKOUTnIRQ3HighnTIRQLow : Nat := 5

def AMx8x5WatchdogInterruptPinDisable : Nat := 0
def AMx8x5WatchdogInterruptPinFOUTnIRQ : Nat := 1
def AMx8x5WatchdogInterruptPinPSWnIRQ2 : Nat := 2
def AMx8x5WatchdogInterruptPinnRST : Nat := 3

def AMx8x5AutoCalibrationPeriodDisable : Nat := 0
def AMx8x5AutoCalibrationPeriodSingleCycle : Nat := 1
def AMx8x5AutoCalibrationPeriodCycleSecods1024 : Nat := 2
def AMx8x5AutoCalibrationPeriodCycleSecods512 : Nat := 3

def AMx8x5TrickleDiodeDisabled : Nat := 0
def AMx8x5TrickleDiodeSchottky : Nat := 1
def AMx8x5TrickleDiodeNormal : Nat := 2

def AMx8x5TrickleResistorDisabled : Nat := 0
def AMx8x5TrickleResistor3K : Nat := 1
def AMx8x5TrickleResistor6K : Nat := 2
def AMx8x5TrickleResistor11K : Nat := 3

def AMx8x5BatReferenceFalling25V_Rising30V : Nat := 0x7
def AMx8x5BatReferenceFalling21V_Rising25V : Nat := 0xB
def AMx8x5BatReferenceFalling18V_Rising22V : Nat := 0xD
def AMx8x5BatReferenceFalling14V_Rising16V : Nat := 0xF

/-- The macro `AMX8X5_BCD_TO_DEC(x)`. -/
def AMX8X5_BCD_TO_DEC (x : Nat) : Nat := ((0xF0 &&& x) >>> 4) * 10 + (0x0F &&& x)

/-- The macro `AMX8X5_DEC_TO_BCD(x)`. -/
def AMX8X5_DEC_TO_BCD (x : Nat) : Nat := (0xF0 &&& ((x / 10) <<< 4)) ||| (0x0F &&& (x % 10))

/-! ## Register access (`amx8x5.cpp`) -/

/-- `Amx8x5_ReadBytes`. `pu8Data` tells whether the destination buffer is present; the
result carries the bytes the buffer holds after the call. -/
def Amx8x5_ReadBytes {σ : Type} (pstcHandle : Option (stc_amx8x5_handle_t σ))
    (u8Register : Nat) (pu8Data : Bool) (u32Length : Nat) (s : σ) :
    en_result_t × List Nat × σ :=
  match pstcHandle with
  | none => (.ErrorUninitialized, [], s)
  | some h =>
    if pu8Data = false then (.ErrorInvalidParameter, [], s)
    else if h.enMode = .AMx8x5ModeI2C then
      match h.pfnReadI2C with
      | some f =>
        let r := f h.u32Address u8Register u32Length s
        if r.1 ≠ 0 then (.Error, [], r.2.2)
        else (.Ok, (r.2.1.take u32Length).map u8, r.2.2)
      | none => (.ErrorUninitialized, [], s)
    else
      match h.pfnReadSpi with
      | some f =>
        let r := f h.u32ChipSelect u8Register u32Length s
        if r.1 ≠ 0 then (.Error, [], r.2.2)
        else (.Ok, (r.2.1.take u32Length).map u8, r.2.2)
      | none => (.ErrorUninitialized, [], s)

/-- `Amx8x5_ReadByte`. A byte the callback did not store reads as 0. -/
def Amx8x5_ReadByte {σ : Type} (pstcHandle : Option (stc_amx8x5_handle_t σ))
    (u8Register : Nat) (pu8Value : Bool) (s : σ) : en_result_t × Nat × σ :=
  match pstcHandle with
  | none => (.ErrorUninitialized, 0, s)
  | some h =>
    if pu8Value = false then (.ErrorInvalidParameter, 0, s)
    else if h.enMode = .AMx8x5ModeI2C then
      match h.pfnReadI2C with
      | some f =>
        let r := f h.u32Address u8Register 1 s
        if r.1 ≠ 0 then (.Error, 0, r.2.2)
        else (.Ok, u8 (r.2.1.headD 0), r.2.2)
      | none => (.ErrorUninitialized, 0, s)
    else
      match h.pfnReadSpi with
      | some f =>
        let r := f h.u32ChipSelect u8Register 1 s
        if r.1 ≠ 0 then (.Error, 0, r.2.2)
        else (.Ok, u8 (r.2.1.headD 0), r.2.2)
      | none => (.ErrorUninitialized, 0, s)

/-- `Amx8x5_WriteBytes`. `pu8Data` is the source buffer (`none` for `NULL`). -/
def Amx8x5_WriteBytes {σ : Type} (pstcHandle : Option (stc_amx8x5_handle_t σ))
    (u8Register : Nat) (pu8Data : Option (List Nat)) (u32Length : Nat) (s : σ) :
    en_result_t × σ :=
  match pstcHandle with
  | none => (.ErrorUninitialized, s)
  | some h =>
    match pu8Data with
    | none => (.ErrorInvalidParameter, s)
    | some data =>
      if h.enMode = .AMx8x5ModeI2C then
        match h.pfnWriteI2C with
        | some f =>
          let r := f h.u32Address u8Register (data.take u32Length) s
          if r.1 ≠ 0 then (.Error, r.2) else (.Ok, r.2)
        | none => (.ErrorUninitialized, s)
      else
        match h.pfnWriteSpi with
        | some f =>
          let r := f h.u32ChipSelect u8Register (data.take u32Length) s
          if r.1 ≠ 0 then (.Error, r.2) else (.Ok, r.2)
        | none => (.ErrorUninitialized, s)

/-- `Amx8x5_WriteByte`. -/
def Amx8x5_WriteByte {σ : Type} (pstcHandle : Option (stc_amx8x5_handle_t σ))
    (u8Register : Nat) (u8Value : Nat) (s : σ) : en_result_t × σ :=
  match pstcHandle with
  | none => (.ErrorUninitialized, s)
  | some h =>
    if h.enMode = .AMx8x5ModeI2C then
      match h.pfnWriteI2C with
      | some f =>
        let r := f h.u32Address u8Register [u8 u8Value] s
        if r.1 ≠ 0 then (.Error, r.2) else (.Ok, r.2)
      | none => (.ErrorUninitialized, s)
    else
      match h.pfnWriteSpi with
      | some f =>
        let r := f h.u32ChipSelect u8Register [u8 u8Value] s
        if r.1 ≠ 0 then (.Error, r.2) else (.Ok, r.2)
      | none => (.ErrorUninitialized, s)

/-- `Amx8x5_ClearRegister`: read, `u8Temp &= ~u8Mask`, write back. -/
def Amx8x5_ClearRegister {σ : Type} (pstcHandle : Option (stc_amx8x5_handle_t σ))
    (u8Address : Nat) (u8Mask : Nat) (s : σ) : en_result_t × σ :=
  let r := Amx8x5_ReadByte pstcHandle u8Address true s
  if r.1 ≠ .Ok then (r.1, r.2.2)
  else
    let u8Temp := r.2.1 &&& (0xFF ^^^ u8 u8Mask)
    Amx8x5_WriteByte pstcHandle u8Address u8Temp r.2.2

/-- `Amx8x5_SetRegister`: read, `u8Temp |= u8Mask`, write back. -/
def Amx8x5_SetRegister {σ : Type} (pstcHandle : Option (stc_amx8x5_handle_t σ))
    (u8Address : Nat) (u8Mask : Nat) (s : σ) : en_result_t × σ :=
  let r := Amx8x5_ReadByte pstcHandle u8Address true s
  if r.1 ≠ .Ok then (r.1, r.2.2)
  else
    let u8Temp := r.2.1 ||| u8 u8Mask
    Amx8x5_WriteByte pstcHandle u8Address u8Temp r.2.2

/-! ## Time (`amx8x5.cpp`) -/

/-- `Amx8x5_GetTime`. `ppstcTime` tells whether the out-pointer is present; the second
component is the record `*ppstcTime` refers to after the call (it is only assigned on
success, and then points at `stcSysTime`). The fields of `stcSysTime` are assigned in
place, in the order of the source, between the reads. -/
def Amx8x5_GetTime {σ : Type} (pstcHandle : Option (stc_amx8x5_handle_t σ))
    (ppstcTime : Bool) (w : World σ) :
    en_result_t × Option stc_amx8x5_time_t × World σ :=
  match pstcHandle with
  | none => (.ErrorUninitialized, none, w)
  | some _ =>
    let r1 := Amx8x5_ReadBytes pstcHandle AMX8X5_REG_HUNDREDTHS true 8 w.dev
    if r1.1 ≠ .Ok then (r1.1, none, { dev := r1.2.2, stcSysTime := w.stcSysTime })
    else
      let pu8Buffer := r1.2.1
      let t1 : stc_amx8x5_time_t :=
        { w.stcSysTime with
          u8Hundredth := u8 (AMX8X5_BCD_TO_DEC (pu8Buffer.getD 0 0))
          u8Second := u8 (AMX8X5_BCD_TO_DEC (pu8Buffer.getD 1 0))
          u8Minute := u8 (AMX8X5_BCD_TO_DEC (pu8Buffer.getD 2 0))
          u8Hour := pu8Buffer.getD 3 0
          u8Date := u8 (AMX8X5_BCD_TO_DEC (pu8Buffer.getD 4 0))
          u8Month := u8 (AMX8X5_BCD_TO_DEC (pu8Buffer.getD 5 0))
          u8Year := u8 (AMX8X5_BCD_TO_DEC (pu8Buffer.getD 6 0))
          u8Weekday := u8 (AMX8X5_BCD_TO_DEC (pu8Buffer.getD 7 0)) }
      let r2 := Amx8x5_ReadByte pstcHandle AMX8X5_REG_CONTROL_1 true r1.2.2
      if r2.1 ≠ .Ok then (r2.1, none, { dev := r2.2.2, stcSysTime := t1 })
      else
        let u8Temp := r2.2.1
        let t2 : stc_amx8x5_time_t :=
          if u8Temp &&& 0x40 = 0 then
            { t1 with u8Mode := 2, u8Hour := t1.u8Hour &&& 0x3F }
          else
            { t1 with
              u8Mode := if t1.u8Hour &&& 0x20 ≠ 0 then 1 else 0
              u8Hour := t1.u8Hour &&& 0x1F }
        let t3 : stc_amx8x5_time_t := { t2 with u8Hour := u8 (AMX8X5_BCD_TO_DEC t2.u8Hour) }
        let r3 := Amx8x5_ReadByte pstcHandle AMX8X5_REG_STATUS true r2.2.2
        if r3.1 ≠ .Ok then (r3.1, none, { dev := r3.2.2, stcSysTime := t3 })
        else
          let u8Temp := r3.2.1
          let t4 : stc_amx8x5_time_t :=
            { t3 with u8Century := if u8Temp &&& AMX8X5_REG_STATUS_CB_MSK ≠ 0 then 1 else 0 }
          (.Ok, if ppstcTime then some t4 else none, { dev := r3.2.2, stcSysTime := t4 })

/-- The 8-byte buffer `pu8Buffer` of `Amx8x5_SetTime` at the time of the burst write
(lines 826-833 and the `|= 0x20` of the 12-hour PM branch). -/
def SetTime_buffer (t : stc_amx8x5_time_t) : List Nat :=
  [ u8 (AMX8X5_DEC_TO_BCD t.u8Hundredth),
    u8 (AMX8X5_DEC_TO_BCD t.u8Second),
    u8 (AMX8X5_DEC_TO_BCD t.u8Minute),
    (if t.u8Mode = AMX8X5_24HR_MODE then u8 (AMX8X5_DEC_TO_BCD t.u8Hour)
     else if t.u8Mode = AMX8X5_12HR_MODE then u8 (AMX8X5_DEC_TO_BCD t.u8Hour) ||| 0x20
     else u8 (AMX8X5_DEC_TO_BCD t.u8Hour)),
    u8 (AMX8X5_DEC_TO_BCD t.u8Date),
    u8 (AMX8X5_DEC_TO_BCD t.u8Month),
    u8 (AMX8X5_DEC_TO_BCD t.u8Year),
    u8 (AMX8X5_DEC_TO_BCD t.u8Weekday) ]

/-- `Amx8x5_SetTime`. `pstcTime` is `none` for a `NULL` time pointer. -/
def Amx8x5_SetTime {σ : Type} (pstcHandle : Option (stc_amx8x5_handle_t σ))
    (pstcTime : Option stc_amx8x5_time_t) (bProtect : Bool) (w : World σ) :
    en_result_t × World σ :=
  match pstcHandle with
  | none => (.ErrorUninitialized, w)
  | some _ =>
    match pstcTime with
    | none => (.ErrorInvalidParameter, w)
    | some t =>
      let pu8Buffer := SetTime_buffer t
      let r1 :=
        if t.u8Mode = AMX8X5_24HR_MODE then
          Amx8x5_ClearRegister pstcHandle AMX8X5_REG_CONTROL_1 AMX8X5_REG_CONTROL_1_12_24_MSK w.dev
        else if t.u8Mode = AMX8X5_12HR_MODE then
          Amx8x5_SetRegister pstcHandle AMX8X5_REG_CONTROL_1 AMX8X5_REG_CONTROL_1_12_24_MSK w.dev
        else
          Amx8x5_SetRegister pstcHandle AMX8X5_REG_CONTROL_1 AMX8X5_REG_CONTROL_1_12_24_MSK w.dev
      if r1.1 ≠ .Ok then (r1.1, { dev := r1.2, stcSysTime := w.stcSysTime })
      else
        let r2 := Amx8x5_SetRegister pstcHandle AMX8X5_REG_CONTROL_1
          AMX8X5_REG_CONTROL_1_WRTC_MSK r1.2
        if r2.1 ≠ .Ok then (r2.1, { dev := r2.2, stcSysTime := w.stcSysTime })
        else
          let r3 :=
            if t.u8Century = 0 then
              Amx8x5_ClearRegister pstcHandle AMX8X5_REG_STATUS AMX8X5_REG_STATUS_CB_MSK r2.2
            else
              Amx8x5_SetRegister pstcHandle AMX8X5_REG_STATUS AMX8X5_REG_STATUS_CB_MSK r2.2
          if r3.1 ≠ .Ok then (r3.1, { dev := r3.2, stcSysTime := w.stcSysTime })
          else
            let r4 := Amx8x5_WriteBytes pstcHandle AMX8X5_REG_HUNDREDTHS (some pu8Buffer) 8 r3.2
            if r4.1 ≠ .Ok then (r4.1, { dev := r4.2, stcSysTime := w.stcSysTime })
            else
              let r5 := Amx8x5_ReadByte pstcHandle AMX8X5_REG_CONTROL_1 true r4.2
              if r5.1 ≠ .Ok then (r5.1, { dev := r5.2.2, stcSysTime := w.stcSysTime })
              else
                let u8Temp := r5.2.1 &&& 0x7E
                let u8Temp :=
                  if bProtect = false then u8Temp ||| AMX8X5_REG_CONTROL_1_WRTC_MSK
                  else u8Temp
                let r6 := Amx8x5_WriteByte pstcHandle AMX8X5_REG_CONTROL_1 u8Temp r5.2.2
                if r6.1 ≠ .Ok then (r6.1, { dev := r6.2, stcSysTime := w.stcSysTime })
                else (.Ok, { dev := r6.2, stcSysTime := t })

/-! ## Output pins and interrupt enables (`amx8x5.cpp`) -/

/-- `Amx8x5_SetOut1Mode`: clear the OUT1S field of CONTROL_2, then OR in the mode code. -/
def Amx8x5_SetOut1Mode {σ : Type} (pstcHandle : Option (stc_amx8x5_handle_t σ))
    (enMode : Nat) (s : σ) : en_result_t × σ :=
  match pstcHandle with
  | none => (.ErrorUninitialized, s)
  | some _ =>
    let r := Amx8x5_ClearRegister pstcHandle AMX8X5_REG_CONTROL_2
      AMX8X5_REG_CONTROL_2_OUT1S_MSK s
    if r.1 ≠ .Ok then (r.1, r.2)
    else if enMode = AMx8x5Out1nIRQAtIrqElseOut then (.Ok, r.2)
    else if enMode = AMx8x5Out1SwqIfSqweElseOut then
      let r1 := Amx8x5_SetRegister pstcHandle AMX8X5_REG_CONTROL_2
        (0x1 <<< AMX8X5_REG_CONTROL_2_OUT1S_POS) r.2
      if r1.1 ≠ .Ok then (r1.1, r1.2) else (.Ok, r1.2)
    else if enMode = AMx8x5Out1SwqIfSqweElsenIRQAtIrqElseOut then
      let r1 := Amx8x5_SetRegister pstcHandle AMX8X5_REG_CONTROL_2
        (0x2 <<< AMX8X5_REG_CONTROL_2_OUT1S_POS) r.2
      if r1.1 ≠ .Ok then (r1.1, r1.2) else (.Ok, r1.2)
    else if enMode = AMx8x5Out1nAIRQIfAieElseOut then
      let r1 := Amx8x5_SetRegister pstcHandle AMX8X5_REG_CONTROL_2
        (0x3 <<< AMX8X5_REG_CONTROL_2_OUT1S_POS) r.2
      if r1.1 ≠ .Ok then (r1.1, r1.2) else (.Ok, r1.2)
    else (.ErrorInvalidParameter, r.2)

/-- `Amx8x5_SetOut2Mode`: clear the OUT2S field of CONTROL_2, then OR in the mode code. -/
def Amx8x5_SetOut2Mode {σ : Type} (pstcHandle : Option (stc_amx8x5_handle_t σ))
    (enMode : Nat) (s : σ) : en_result_t × σ :=
  match pstcHandle with
  | none => (.ErrorUninitialized, s)
  | some _ =>
    let r := Amx8x5_ClearRegister pstcHandle AMX8X5_REG_CONTROL_2
      AMX8X5_REG_CONTROL_2_OUT2S_MSK s
    if r.1 ≠ .Ok then (r.1, r.2)
    else if enMode = AMx8x5Out2nIRQAtIrqElseOutB then (.Ok, r.2)
    else if enMode = AMx8x5Out2SwqIfSqweElseOutB then
      let r1 := Amx8x5_SetRegister pstcHandle AMX8X5_REG_CONTROL_2
        (0x1 <<< AMX8X5_REG_CONTROL_2_OUT2S_POS) r.2
      if r1.1 ≠ .Ok then (r1.1, r1.2) else (.Ok, r1.2)
    else if enMode = AMx8x5Out2nAIRQIfAieElseOutB then
      let r1 := Amx8x5_SetRegister pstcHandle AMX8X5_REG_CONTROL_2
        (0x3 <<< AMX8X5_REG_CONTROL_2_OUT2S_POS) r.2
      if r1.1 ≠ .Ok then (r1.1, r1.2) else (.Ok, r1.2)
    else if enMode = AMx8x5Out2TIRQIfTieElseOutB then
      let r1 := Amx8x5_SetRegister pstcHandle AMX8X5_REG_CONTROL_2
        (0x4 <<< AMX8X5_REG_CONTROL_2_OUT2S_POS) r.2
      if r1.1 ≠ .Ok then (r1.1, r1.2) else (.Ok, r1.2)
    else if enMode = AMx8x5Out2nTIRQIfTieElseOutB then
      let r1 := Amx8x5_SetRegister pstcHandle AMX8X5_REG_CONTROL_2
        (0x5 <<< AMX8X5_REG_CONTROL_2_OUT2S_POS) r.2
      if r1.1 ≠ .Ok then (r1.1, r1.2) else (.Ok, r1.2)
    else if enMode = AMx8x5Out2Sleep then
      let r1 := Amx8x5_SetRegister pstcHandle AMX8X5_REG_CONTROL_2
        (0x6 <<< AMX8X5_REG_CONTROL_2_OUT2S_POS) r.2
      if r1.1 ≠ .Ok then (r1.1, r1.2) else (.Ok, r1.2)
    else if enMode = AMx8x5Out2OutB then
      let r1 := Amx8x5_SetRegister pstcHandle AMX8X5_REG_CONTROL_2
        (0x7 <<< AMX8X5_REG_CONTROL_2_OUT2S_POS) r.2
      if r1.1 ≠ .Ok then (r1.1, r1.2) else (.Ok, r1.2)
    else (.ErrorInvalidParameter, r.2)

/-- `Amx8x5_EnableIrqAlarm`: set or clear the AIE bit of INT_MASK. -/
def Amx8x5_EnableIrqAlarm {σ : Type} (pstcHandle : Option (stc_amx8x5_handle_t σ))
    (bEnabled : Bool) (s : σ) : en_result_t × σ :=
  match pstcHandle with
  | none => (.ErrorUninitialized, s)
  | some _ =>
    if bEnabled = true then
      Amx8x5_SetRegister pstcHandle AMX8X5_REG_INT_MASK AMX8X5_REG_INT_MASK_AIE_MSK s
    else
      Amx8x5_ClearRegister pstcHandle AMX8X5_REG_INT_MASK AMX8X5_REG_INT_MASK_AIE_MSK s

/-! ## Alarm (`amx8x5.cpp`) -/

/-- The 7-byte buffer `pu8Buffer` of `Amx8x5_SetAlarm` after lines 997-1015: the BCD
fields, with `|= 0x20` on the hour byte for 12-hour PM. -/
def SetAlarm_buffer (t : stc_amx8x5_time_t) : List Nat :=
  [ u8 (AMX8X5_DEC_TO_BCD t.u8Hundredth),
    u8 (AMX8X5_DEC_TO_BCD t.u8Second),
    u8 (AMX8X5_DEC_TO_BCD t.u8Minute),
    (if t.u8Mode = AMX8X5_12HR_MODE then u8 (AMX8X5_DEC_TO_BCD t.u8Hour) ||| 0x20
     else u8 (AMX8X5_DEC_TO_BCD t.u8Hour)),
    u8 (AMX8X5_DEC_TO_BCD t.u8Date),
    u8 (AMX8X5_DEC_TO_BCD t.u8Month),
    u8 (AMX8X5_DEC_TO_BCD t.u8Weekday) ]

/-- The `switch(enModePin)` of `Amx8x5_SetAlarm` (lines 1040-1105): the result is `Ok`
when the switch is left by `break`, otherwise the code returned. -/
def SetAlarm_pin {σ : Type} (pstcHandle : Option (stc_amx8x5_handle_t σ))
    (enModePin : Nat) (s : σ) : en_result_t × σ :=
  if enModePin = AMx8x5InterruptIrq then
    let r := Amx8x5_ReadByte pstcHandle AMX8X5_REG_CONTROL_2 true s
    if r.1 ≠ .Ok then (r.1, r.2.2)
    else
      let u8Temp := r.2.1 &&& AMX8X5_REG_CONTROL_2_OUT1S_MSK
      if u8Temp ≠ 0 then
        let r1 := Amx8x5_SetOut1Mode pstcHandle AMx8x5Out1nAIRQIfAieElseOut r.2.2
        if r1.1 ≠ .Ok then (r1.1, r1.2) else (.Ok, r1.2)
      else (.Ok, r.2.2)
  else if enModePin = AMx8x5InterruptIrq2 then
    let r := Amx8x5_ReadByte pstcHandle AMX8X5_REG_CONTROL_2 true s
    if r.1 ≠ .Ok then (r.1, r.2.2)
    else
      let u8Temp := r.2.1 &&& AMX8X5_REG_CONTROL_2_OUT2S_MSK
      if u8Temp ≠ 0 then
        let r1 := Amx8x5_SetOut2Mode pstcHandle AMx8x5Out2nAIRQIfAieElseOutB r.2.2
        if r1.1 ≠ .Ok then (r1.1, r1.2) else (.Ok, r1.2)
      else (.Ok, r.2.2)
  else (.ErrorInvalidParameter, s)

/-- The `switch(enModeIrq)` of `Amx8x5_SetAlarm` (lines 1139-1164). -/
def SetAlarm_irq {σ : Type} (pstcHandle : Option (stc_amx8x5_handle_t σ))
    (enModeIrq : Nat) (s : σ) : en_result_t × σ :=
  if enModeIrq = AMx8x5InterruptModePulseShort then
    Amx8x5_SetRegister pstcHandle AMX8X5_REG_INT_MASK (0x01 <<< AMX8X5_REG_INT_MASK_IM_POS) s
  else if enModeIrq = AMx8x5InterruptModePulseMedium then
    Amx8x5_SetRegister pstcHandle AMX8X5_REG_INT_MASK (0x02 <<< AMX8X5_REG_INT_MASK_IM_POS) s
  else if enModeIrq = AMx8x5InterruptModePulseLong then
    Amx8x5_SetRegister pstcHandle AMX8X5_REG_INT_MASK (0x03 <<< AMX8X5_REG_INT_MASK_IM_POS) s
  else (.ErrorInvalidParameter, s)

/-- The `switch(enModeRepeat)` of `Amx8x5_SetAlarm` (lines 1166-1219). -/
def SetAlarm_rpt {σ : Type} (pstcHandle : Option (stc_amx8x5_handle_t σ))
    (enModeRepeat : Nat) (s : σ) : en_result_t × σ :=
  if enModeRepeat = AMx8x5AlarmYear then
    Amx8x5_SetRegister pstcHandle AMX8X5_REG_TIMER_CTRL
      (0x01 <<< AMX8X5_REG_TIMER_CTRL_RPT_POS) s
  else if enModeRepeat = AMx8x5AlarmMonth then
    Amx8x5_SetRegister pstcHandle AMX8X5_REG_TIMER_CTRL
      (0x02 <<< AMX8X5_REG_TIMER_CTRL_RPT_POS) s
  else if enModeRepeat = AMx8x5AlarmWeek then
    Amx8x5_SetRegister pstcHandle AMX8X5_REG_TIMER_CTRL
      (0x03 <<< AMX8X5_REG_TIMER_CTRL_RPT_POS) s
  else if enModeRepeat = AMx8x5AlarmDay then
    Amx8x5_SetRegister pstcHandle AMX8X5_REG_TIMER_CTRL
      (0x04 <<< AMX8X5_REG_TIMER_CTRL_RPT_POS) s
  else if enModeRepeat = AMx8x5AlarmHour then
    Amx8x5_SetRegister pstcHandle AMX8X5_REG_TIMER_CTRL
      (0x05 <<< AMX8X5_REG_TIMER_CTRL_RPT_POS) s
  else if enModeRepeat = AMx8x5AlarmMinute then
    Amx8x5_SetRegister pstcHandle AMX8X5_REG_TIMER_CTRL
      (0x06 <<< AMX8X5_REG_TIMER_CTRL_RPT_POS) s
  else if enModeRepeat = AMx8x5AlarmSecond then
    Amx8x5_SetRegister pstcHandle AMX8X5_REG_TIMER_CTRL
      (0x07 <<< AMX8X5_REG_TIMER_CTRL_RPT_POS) s
  else (.ErrorInvalidParameter, s)

/-- `Amx8x5_SetAlarm`. The three `switch` statements are `SetAlarm_pin`, `SetAlarm_irq`
and `SetAlarm_rpt`; a result other than `Ok` of any step is returned at once. -/
def Amx8x5_SetAlarm {σ : Type} (pstcHandle : Option (stc_amx8x5_handle_t σ))
    (pstcTime : Option stc_amx8x5_time_t) (enModeRepeat enModeIrq enModePin : Nat) (s : σ) :
    en_result_t × σ :=
  match pstcHandle with
  | none => (.ErrorUninitialized, s)
  | some _ =>
    match pstcTime with
    | none => (.ErrorInvalidParameter, s)
    | some t =>
      let pu8Buffer := SetAlarm_buffer t
      let r1 := Amx8x5_ClearRegister pstcHandle AMX8X5_REG_TIMER_CTRL 0x1C s
      if r1.1 ≠ .Ok then (r1.1, r1.2)
      else
        let r2 := Amx8x5_ClearRegister pstcHandle AMX8X5_REG_INT_MASK 0x64 r1.2
        if r2.1 ≠ .Ok then (r2.1, r2.2)
        else
          let r3 := Amx8x5_ClearRegister pstcHandle AMX8X5_REG_STATUS 0x04 r2.2
          if r3.1 ≠ .Ok then (r3.1, r3.2)
          else
            let r4 := SetAlarm_pin pstcHandle enModePin r3.2
            if r4.1 ≠ .Ok then (r4.1, r4.2)
            else
              let pu8Buffer1 :=
                if enModeRepeat = AMx8x5Alarm10thSecond then
                  pu8Buffer.set 0 (pu8Buffer.getD 0 0 ||| 0xF0)
                else pu8Buffer
              let enModeRepeat1 :=
                if enModeRepeat = AMx8x5Alarm10thSecond then AMx8x5AlarmSecond
                else enModeRepeat
              let pu8Buffer2 :=
                if enModeRepeat1 = AMx8x5Alarm100thSecond then pu8Buffer1.set 0 0xFF
                else pu8Buffer1
              let enModeRepeat2 :=
                if enModeRepeat1 = AMx8x5Alarm100thSecond then AMx8x5AlarmSecond
                else enModeRepeat1
              if enModeRepeat2 ≠ AMx8x5AlarmDisabled then
                let r5 := Amx8x5_ClearRegister pstcHandle AMX8X5_REG_INT_MASK
                  AMX8X5_REG_INT_MASK_IM_MSK r4.2
                if r5.1 ≠ .Ok then (r5.1, r5.2)
                else
                  let r6 := SetAlarm_irq pstcHandle enModeIrq r5.2
                  if r6.1 ≠ .Ok then (r6.1, r6.2)
                  else
                    let r7 := SetAlarm_rpt pstcHandle enModeRepeat2 r6.2
                    if r7.1 ≠ .Ok then (r7.1, r7.2)
                    else
                      let r8 := Amx8x5_WriteBytes pstcHandle AMX8X5_REG_ALARM_HUNDRS
                        (some pu8Buffer2) 7 r7.2
                      if r8.1 ≠ .Ok then (r8.1, r8.2)
                      else
                        let r9 := Amx8x5_EnableIrqAlarm pstcHandle true r8.2
                        if r9.1 ≠ .Ok then (r9.1, r9.2) else (.Ok, r9.2)
              else
                let r5 := Amx8x5_SetRegister pstcHandle AMX8X5_REG_INT_MASK 0x60 r4.2
                if r5.1 ≠ .Ok then (r5.1, r5.2) else (.Ok, r5.2)

/-! ## Calibration (`amx8x5.cpp`) -/

/-- Wrap-around to `int32_t`. -/
def i32 (x : Int) : Int := (x + 2147483648) % 4294967296 - 2147483648

/-- The 32-bit two's-complement bit pattern of an `int32_t` value, as a natural number:
what the C operators `&` and `|` with a non-negative constant, and the conversion to
`uint8_t`, act on. -/
def bits32 (x : Int) : Nat := (x % 4294967296).toNat

/-- Lines 1288-1296 of `Amx8x5_SetCalibrationValue`: the internal adjustment unit
`iAdjint`. The C division truncates toward zero (`Int.tdiv`). -/
def SetCalibrationValue_iAdjint (iAdjust : Int) : Int :=
  Int.tdiv
    (if iAdjust < 0 then i32 (i32 (iAdjust * 1000) - 953)
     else i32 (i32 (iAdjust * 1000) + 953))
    1907

/-- Lines 1303-1356 of `Amx8x5_SetCalibrationValue`: the pair (`u8XTcal`, `u8Adjreg`) of
the XT branch. `>>` on a negative `int32_t` is the arithmetic shift; `iAdjint` is a
quotient by 1907, so the additions cannot overflow. -/
def SetCalibrationValue_XT (iAdjint : Int) : Nat × Nat :=
  if iAdjint > 63 then (0, u8 ((bits32 (iAdjint >>> 1) &&& 0x3F) ||| 0x80))
  else if iAdjint > -65 then (0, u8 (bits32 iAdjint &&& 0x7F))
  else if iAdjint > -129 then (1, u8 (bits32 (iAdjint + 64) &&& 0x7F))
  else if iAdjint > -193 then (2, u8 (bits32 (iAdjint + 128) &&& 0x7F))
  else if iAdjint > -257 then (3, u8 (bits32 (iAdjint + 192) &&& 0x7F))
  else (3, u8 (bits32 ((iAdjint + 192) >>> 1) &&& 0xFF))

/-- Lines 1396-1475 of `Amx8x5_SetCalibrationValue`: the pair (`u8Adjregu`, `u8Adjreg`)
of the RC branch. -/
def SetCalibrationValue_RC (iAdjint : Int) : Nat × Nat :=
  if iAdjint > 32767 then
    (u8 (bits32 (iAdjint >>> 11) ||| 0xC0), u8 (bits32 (iAdjint >>> 3) &&& 0xFF))
  else if iAdjint > 16383 then
    (u8 (bits32 (iAdjint >>> 10) ||| 0x80), u8 (bits32 (iAdjint >>> 2) &&& 0xFF))
  else if iAdjint > 8191 then
    (u8 (bits32 (iAdjint >>> 9) ||| 0x40), u8 (bits32 (iAdjint >>> 1) &&& 0xFF))
  else if iAdjint ≥ 0 then
    (u8 (bits32 (iAdjint >>> 8)), u8 (bits32 iAdjint &&& 0xFF))
  else if iAdjint > -8193 then
    (u8 (bits32 (iAdjint >>> 8) &&& 0x3F), u8 (bits32 iAdjint &&& 0xFF))
  else if iAdjint > -16385 then
    (u8 (bits32 (iAdjint >>> 9) &&& 0x7F), u8 (bits32 (iAdjint >>> 1) &&& 0xFF))
  else if iAdjint > -32769 then
    (u8 (bits32 (iAdjint >>> 10) &&& 0xBF), u8 (bits32 (iAdjint >>> 2) &&& 0xFF))
  else
    (u8 (bits32 (iAdjint >>> 11) &&& 0xFF), u8 (bits32 (iAdjint >>> 3) &&& 0xFF))

/-- `Amx8x5_SetCalibrationValue`. -/
def Amx8x5_SetCalibrationValue {σ : Type} (pstcHandle : Option (stc_amx8x5_handle_t σ))
    (enMode : Nat) (iAdjust : Int) (s : σ) : en_result_t × σ :=
  let iAdjint := SetCalibrationValue_iAdjint iAdjust
  if enMode = AMx8x5ModeCalibrateXT then
    let u8XTcal := (SetCalibrationValue_XT iAdjint).1
    let u8Adjreg := (SetCalibrationValue_XT iAdjint).2
    let r1 := Amx8x5_WriteByte pstcHandle AMX8X5_REG_CAL_XT u8Adjreg s
    if r1.1 ≠ .Ok then (r1.1, r1.2)
    else
      let r2 := Amx8x5_ReadByte pstcHandle AMX8X5_REG_OSC_STATUS true r1.2
      if r2.1 ≠ .Ok then (r2.1, r2.2.2)
      else
        let u8Adjreg := r2.2.1 &&& 0x3F
        let u8Adjreg := u8 (u8Adjreg ||| (u8XTcal <<< 6))
        let r3 := Amx8x5_WriteByte pstcHandle AMX8X5_REG_OSC_STATUS u8Adjreg r2.2.2
        if r3.1 ≠ .Ok then (r3.1, r3.2) else (.Ok, r3.2)
  else
    let u8Adjregu := (SetCalibrationValue_RC iAdjint).1
    let u8Adjreg := (SetCalibrationValue_RC iAdjint).2
    let r1 := Amx8x5_WriteByte pstcHandle AMX8X5_REG_CAL_RC_HI u8Adjregu s
    if r1.1 ≠ .Ok then (r1.1, r1.2)
    else
      let r2 := Amx8x5_WriteByte pstcHandle AMX8X5_REG_CAL_RC_LOW u8Adjreg r1.2
      if r2.1 ≠ .Ok then (r2.1, r2.2) else (.Ok, r2.2)

/-! ## Reset and identification (`amx8x5.cpp`) -/

/-- `Amx8x5_Reset` (lines 599-609): one `Amx8x5_WriteByte` whose register argument is the
macro `AMX8X5_CONFIG_KEY_VAL` and whose value is 0x3C. -/
def Amx8x5_Reset {σ : Type} (pstcHandle : Option (stc_amx8x5_handle_t σ)) (s : σ) :
    en_result_t × σ :=
  match pstcHandle with
  | none => (.ErrorUninitialized, s)
  | some _ => Amx8x5_WriteByte pstcHandle AMX8X5_CONFIG_KEY_VAL 0x3C s

/-- `Amx8x5_Init` (lines 652-699). The two identity bytes are read into the first two
bytes of the zeroed `uint32_t u32Temp`; on a little-endian host its value is then
`ID0 + 256 * ID1`. A byte the callback did not store stays 0. -/
def Amx8x5_Init {σ : Type} (pstcHandle : Option (stc_amx8x5_handle_t σ)) (s : σ) :
    en_result_t × σ :=
  match pstcHandle with
  | none => (.ErrorUninitialized, s)
  | some h =>
    let r := Amx8x5_ReadBytes pstcHandle AMX8X5_REG_ID0 true 2 s
    if r.1 ≠ .Ok then (r.1, r.2.2)
    else
      let u32Temp := r.2.1.getD 0 0 + 256 * r.2.1.getD 1 0
      if h.enRtcType = AMx8x5Type0805 then
        if u32Temp &&& 0xFFFF = 0x000508 then (.Ok, r.2.2) else (.ErrorInvalidMode, r.2.2)
      else if h.enRtcType = AMx8x5Type0815 then
        if u32Temp &&& 0xFFFF = 0x001508 then (.Ok, r.2.2) else (.ErrorInvalidMode, r.2.2)
      else if h.enRtcType = AMx8x5Type1805 then
        if u32Temp &&& 0xFFFF = 0x000518 then (.Ok, r.2.2) else (.ErrorInvalidMode, r.2.2)
      else if h.enRtcType = AMx8x5Type1815 then
        if u32Temp &&& 0xFFFF = 0x001518 then (.Ok, r.2.2) else (.ErrorInvalidMode, r.2.2)
      else (.Error, r.2.2)

/-! ## Trickle charger, battery reference, square wave (`amx8x5.cpp`) -/

/-- The byte `u8Tmp` that `Amx8x5_EnableTrickleCharger` assembles (lines 2199-2244). Both
`switch` statements shift their code by `AMX8X5_REG_TRICKLE_DIODE_POS`. -/
def EnableTrickleCharger_u8Tmp (enDiode enResistor : Nat) (bEnable : Bool) : Nat :=
  let u8Tmp0 : Nat := 0
  let u8Tmp1 :=
    if bEnable = true then
      u8 (u8Tmp0 ||| (AMX8X5_REG_TRICKLE_TCS_ENABLE_VALUE <<< AMX8X5_REG_TRICKLE_TCS_POS))
    else u8Tmp0
  let u8Tmp2 :=
    if enDiode = AMx8x5TrickleDiodeSchottky then
      u8 (u8Tmp1 ||| (0x1 <<< AMX8X5_REG_TRICKLE_DIODE_POS))
    else if enDiode = AMx8x5TrickleDiodeNormal then
      u8 (u8Tmp1 ||| (0x2 <<< AMX8X5_REG_TRICKLE_DIODE_POS))
    else
      u8Tmp1 &&&
        (0xFF ^^^ u8 (AMX8X5_REG_TRICKLE_TCS_ENABLE_VALUE <<< AMX8X5_REG_TRICKLE_TCS_POS))
  if enResistor = AMx8x5TrickleResistor3K then
    u8 (u8Tmp2 ||| (0x1 <<< AMX8X5_REG_TRICKLE_DIODE_POS))
  else if enResistor = AMx8x5TrickleResistor6K then
    u8 (u8Tmp2 ||| (0x2 <<< AMX8X5_REG_TRICKLE_DIODE_POS))
  else if enResistor = AMx8x5TrickleResistor11K then
    u8 (u8Tmp2 ||| (0x3 <<< AMX8X5_REG_TRICKLE_DIODE_POS))
  else
    u8Tmp2 &&&
      (0xFF ^^^ u8 (AMX8X5_REG_TRICKLE_TCS_ENABLE_VALUE <<< AMX8X5_REG_TRICKLE_TCS_POS))

/-- `Amx8x5_EnableTrickleCharger` (lines 2197-2259). -/
def Amx8x5_EnableTrickleCharger {σ : Type} (pstcHandle : Option (stc_amx8x5_handle_t σ))
    (enDiode enResistor : Nat) (bEnable : Bool) (s : σ) : en_result_t × σ :=
  match pstcHandle with
  | none => (.ErrorUninitialized, s)
  | some _ =>
    let u8Tmp := EnableTrickleCharger_u8Tmp enDiode enResistor bEnable
    let r := Amx8x5_WriteByte pstcHandle AMX8X5_REG_CONFIG_KEY 0x9D s
    if r.1 ≠ .Ok then (r.1, r.2)
    else Amx8x5_WriteByte pstcHandle AMX8X5_REG_TRICKLE u8Tmp r.2

/-- `Amx8x5_SetBatteryReferenceVoltage` (lines 2282-2327). -/
def Amx8x5_SetBatteryReferenceVoltage {σ : Type}
    (pstcHandle : Option (stc_amx8x5_handle_t σ)) (enBref : Nat) (s : σ) : en_result_t × σ :=
  match pstcHandle with
  | none => (.ErrorUninitialized, s)
  | some _ =>
    let r := Amx8x5_WriteByte pstcHandle AMX8X5_REG_CONFIG_KEY 0x9D s
    if r.1 ≠ .Ok then (r.1, r.2)
    else if enBref = AMx8x5BatReferenceFalling25V_Rising30V then
      Amx8x5_WriteByte pstcHandle AMX8X5_REG_BREF_CTRL 0x70 r.2
    else if enBref = AMx8x5BatReferenceFalling21V_Rising25V then
      Amx8x5_WriteByte pstcHandle AMX8X5_REG_BREF_CTRL 0xB0 r.2
    else if enBref = AMx8x5BatReferenceFalling18V_Rising22V then
      Amx8x5_WriteByte pstcHandle AMX8X5_REG_BREF_CTRL 0xD0 r.2
    else if enBref = AMx8x5BatReferenceFalling14V_Rising16V then
      Amx8x5_WriteByte pstcHandle AMX8X5_REG_BREF_CTRL 0xF0 r.2
    else (.Error, r.2)

/-- `Amx8x5_SetSquareWaveOutput` (lines 2348-2421). `u8SQFS` and `u8PinMsk` are `uint8_t`
parameters. -/
def Amx8x5_SetSquareWaveOutput {σ : Type} (pstcHandle : Option (stc_amx8x5_handle_t σ))
    (u8SQFS u8PinMsk : Nat) (s : σ) : en_result_t × σ :=
  let r := Amx8x5_ReadByte pstcHandle AMX8X5_REG_SQW true s
  if r.1 ≠ .Ok then (r.1, r.2.2)
  else
    let u8Temp0 := u8 ((r.2.1 &&& 0x70) ||| u8 u8SQFS ||| 0x80)
    let u8Temp := if u8 u8PinMsk = 0 then u8Temp0 &&& 0x7F else u8Temp0
    let r1 :=
      if u8 u8PinMsk &&& 0x1 ≠ 0 then
        let a := Amx8x5_ClearRegister pstcHandle AMX8X5_REG_CONTROL_2 0x03 r.2.2
        if a.1 ≠ .Ok then (a.1, a.2)
        else Amx8x5_SetRegister pstcHandle AMX8X5_REG_CONTROL_2 0x01 a.2
      else (.Ok, r.2.2)
    if r1.1 ≠ .Ok then (r1.1, r1.2)
    else
      let r2 :=
        if u8 u8PinMsk &&& 0x2 ≠ 0 then
          let a := Amx8x5_ClearRegister pstcHandle AMX8X5_REG_CONTROL_2 0x1C r1.2
          if a.1 ≠ .Ok then (a.1, a.2)
          else Amx8x5_SetRegister pstcHandle AMX8X5_REG_CONTROL_2 0x04 a.2
        else (.Ok, r1.2)
      if r2.1 ≠ .Ok then (r2.1, r2.2)
      else
        let r3 := Amx8x5_WriteByte pstcHandle AMX8X5_REG_SQW u8Temp r2.2
        if r3.1 ≠ .Ok then (r3.1, r3.2) else (.Ok, r3.2)

/-! ## Sleep mode and oscillator selection (`amx8x5.cpp`) -/

/-- `Amx8x5_SetSleepMode` (lines 2444-2555). `u8SLRES` is assigned on every path before it
is used: 0 when `enMode` is `AMx8x5PswIrq2HighInSleep`, otherwise 1. -/
def Amx8x5_SetSleepMode {σ : Type} (pstcHandle : Option (stc_amx8x5_handle_t σ))
    (u8Timeout enMode : Nat) (s : σ) : en_result_t × σ :=
  match pstcHandle with
  | none => (.ErrorUninitialized, s)
  | some h =>
    if h.enRtcType ≠ AMx8x5Type1805 ∧ h.enRtcType ≠ AMx8x5Type1815 then (.Error, s)
    else
      let r1 :=
        if enMode ≠ AMx8x5nRstLowInSleep then
          let a := Amx8x5_ReadByte pstcHandle AMX8X5_REG_CONTROL_2 true s
          if a.1 ≠ .Ok then (a.1, a.2.2)
          else
            Amx8x5_WriteByte pstcHandle AMX8X5_REG_CONTROL_2 ((a.2.1 &&& 0xE3) ||| 0x18) a.2.2
        else (.Ok, s)
      if r1.1 ≠ .Ok then (r1.1, r1.2)
      else
        let u8SLRES : Nat := if enMode ≠ AMx8x5PswIrq2HighInSleep then 1 else 0
        let u8Temp0 := u8 (u8 u8Timeout ||| (u8SLRES <<< 6) ||| 0x80)
        let r2 := Amx8x5_WriteByte pstcHandle AMX8X5_REG_SLEEP_CTRL u8Temp0 r1.2
        if r2.1 ≠ .Ok then (r2.1, r2.2)
        else
          let r3 := Amx8x5_ReadByte pstcHandle AMX8X5_REG_SLEEP_CTRL true r2.2
          if r3.1 ≠ .Ok then (r3.1, r3.2.2)
          else if r3.2.1 &&& 0x80 = 0 then
            let r4 := Amx8x5_ReadByte pstcHandle AMX8X5_REG_INT_MASK true r3.2.2
            if r4.1 ≠ .Ok then (r4.1, r4.2.2)
            else
              let u8Temp0 := r4.2.1 &&& 0x0F
              let r5 := Amx8x5_ReadByte pstcHandle AMX8X5_REG_WDT true r4.2.2
              if r5.1 ≠ .Ok then (r5.1, r5.2.2)
              else
                let u8Temp1 := r5.2.1
                if u8Temp0 = 0 ∧ (u8Temp1 &&& 0x7C = 0 ∨ u8Temp1 &&& 0x80 = 0x80) then
                  (.ErrorInvalidMode, r5.2.2)
                else (.OperationInProgress, r5.2.2)
          else (.Ok, r3.2.2)

/-- The `for (i = 0; i < 100; i++)` loop of `Amx8x5_SelectOscillatorMode` (lines
2646-2674) with `n` rounds left, and the `return Error` after it. The busy wait makes no
transport call. -/
def SelectOscillatorMode_wait {σ : Type} (pstcHandle : Option (stc_amx8x5_handle_t σ))
    (enSelect : Nat) : Nat → σ → en_result_t × σ
  | 0, s => (.Error, s)
  | n + 1, s =>
    let r := Amx8x5_ReadByte pstcHandle AMX8X5_REG_OSC_STATUS true s
    if r.1 ≠ .Ok then (r.1, r.2.2)
    else if (r.2.1 &&& 0x10) >>> 4 = u8 enSelect >>> 1 then (.Ok, r.2.2)
    else SelectOscillatorMode_wait pstcHandle enSelect n r.2.2

/-- `Amx8x5_SelectOscillatorMode` (lines 2573-2680). -/
def Amx8x5_SelectOscillatorMode {σ : Type} (pstcHandle : Option (stc_amx8x5_handle_t σ))
    (enSelect : Nat) (s : σ) : en_result_t × σ :=
  let r := Amx8x5_ReadByte pstcHandle AMX8X5_REG_OSC_CONTROL true s
  if r.1 ≠ .Ok then (r.1, r.2.2)
  else
    let u8Temp := r.2.1 &&& 0x67
    let r1 := Amx8x5_WriteByte pstcHandle AMX8X5_REG_CONFIG_KEY AMX8X5_CONFIG_KEY_VAL r.2.2
    if r1.1 ≠ .Ok then (r1.1, r1.2)
    else
      let r2 :=
        if enSelect = AMx8x5Xt32KHzNoSwitch then
          Amx8x5_WriteByte pstcHandle AMX8X5_REG_OSC_CONTROL u8Temp r1.2
        else if enSelect = AMx8x5Xt32KHzSwitchRcOnBat then
          Amx8x5_WriteByte pstcHandle AMX8X5_REG_OSC_CONTROL (u8Temp ||| 0x10) r1.2
        else if enSelect = AMx8x5nRc128Hz then
          Amx8x5_WriteByte pstcHandle AMX8X5_REG_OSC_CONTROL (u8Temp ||| 0x80) r1.2
        else (.ErrorInvalidParameter, r1.2)
      if r2.1 ≠ .Ok then (r2.1, r2.2)
      else SelectOscillatorMode_wait pstcHandle enSelect 100 r2.2

/-! ## Watchdog and autocalibration (`amx8x5.cpp`) -/

/-- The clock code `u8WRB` chosen by `Amx8x5_SetWatchdog` (lines 2729-2760). The bounds
`31000 / 16` and `31000 / 4` are integer quotients. -/
def SetWatchdog_WRB (u32Period : Nat) : Nat :=
  if u32Period < 31000 / 16 then 0
  else if u32Period < 31000 / 4 then 1
  else if u32Period < 31000 then 2
  else 3

/-- The counter value `u8BMB` computed by `Amx8x5_SetWatchdog` (lines 2729-2760), a
`uint8_t`. Under the guards the `uint32_t` products cannot wrap around. -/
def SetWatchdog_BMB (u32Period : Nat) : Nat :=
  if u32Period < 31000 / 16 then u8 ((u32Period * 16) / 1000)
  else if u32Period < 31000 / 4 then u8 ((u32Period * 4) / 1000)
  else if u32Period < 31000 then u8 (u32Period / 1000)
  else u8 (u32Period / 4000)

/-- The value `u8WDTreg` of `Amx8x5_SetWatchdog` (line 2820), after the `switch (enPin)`
has set `u8WDS` and, for the pin `AMx8x5WatchdogInterruptPinDisable`, cleared `u8BMB`. -/
def SetWatchdog_u8WDTreg (u32Period enPin : Nat) : Nat :=
  let u8WDS : Nat :=
    if enPin = AMx8x5WatchdogInterruptPinDisable then 0
    else if enPin = AMx8x5WatchdogInterruptPinFOUTnIRQ then 0
    else if enPin = AMx8x5WatchdogInterruptPinPSWnIRQ2 then 0
    else 1
  let u8BMB :=
    if enPin = AMx8x5WatchdogInterruptPinDisable then 0 else SetWatchdog_BMB u32Period
  u8 (u8WDS * 0x80 + u8BMB * 0x4 + SetWatchdog_WRB u32Period)

/-- `Amx8x5_SetWatchdog` (lines 2701-2828). The last transport operation is
`Amx8x5_ClearRegister(pstcHandle, AMX8X5_REG_WDT, u8WDTreg)` (line 2822). -/
def Amx8x5_SetWatchdog {σ : Type} (pstcHandle : Option (stc_amx8x5_handle_t σ))
    (u32Period enPin : Nat) (s : σ) : en_result_t × σ :=
  let r1 := Amx8x5_WriteByte pstcHandle AMX8X5_REG_WDT 0 s
  if r1.1 ≠ .Ok then (r1.1, r1.2)
  else
    let r2 := Amx8x5_ClearRegister pstcHandle AMX8X5_REG_STATUS AMX8X5_REG_STATUS_WDT_MSK r1.2
    if r2.1 ≠ .Ok then (r2.1, r2.2)
    else
      let r3 :=
        if enPin = AMx8x5WatchdogInterruptPinDisable then (.Ok, r2.2)
        else if enPin = AMx8x5WatchdogInterruptPinFOUTnIRQ then
          Amx8x5_SetOut1Mode pstcHandle AMx8x5Out1nIRQAtIrqElseOut r2.2
        else if enPin = AMx8x5WatchdogInterruptPinPSWnIRQ2 then
          Amx8x5_SetOut2Mode pstcHandle AMx8x5Out2nIRQAtIrqElseOutB r2.2
        else (.Ok, r2.2)
      if r3.1 ≠ .Ok then (r3.1, r3.2)
      else
        let u8WDTreg := SetWatchdog_u8WDTreg u32Period enPin
        let r4 := Amx8x5_ClearRegister pstcHandle AMX8X5_REG_WDT u8WDTreg r3.2
        if r4.1 ≠ .Ok then (r4.1, r4.2) else (.Ok, r4.2)

/-- `Amx8x5_SetAutocalibration` (lines 2846-2956). The `switch (enPeriod)` has no
`default`: any other value writes nothing more and returns `Ok`. -/
def Amx8x5_SetAutocalibration {σ : Type} (pstcHandle : Option (stc_amx8x5_handle_t σ))
    (enPeriod : Nat) (s : σ) : en_result_t × σ :=
  let r := Amx8x5_ReadByte pstcHandle AMX8X5_REG_OSC_CONTROL true s
  if r.1 ≠ .Ok then (r.1, r.2.2)
  else
    let u8Temp := r.2.1 &&& 0x9F
    let r1 := Amx8x5_WriteByte pstcHandle AMX8X5_REG_CONFIG_KEY AMX8X5_CONFIG_KEY_VAL r.2.2
    if r1.1 ≠ .Ok then (r1.1, r1.2)
    else if enPeriod = AMx8x5AutoCalibrationPeriodDisable then
      let r2 := Amx8x5_WriteByte pstcHandle AMX8X5_REG_OSC_CONTROL u8Temp r1.2
      if r2.1 ≠ .Ok then (r2.1, r2.2) else (.Ok, r2.2)
    else if enPeriod = AMx8x5AutoCalibrationPeriodSingleCycle then
      let u8Temp1 := u8Temp ||| 0x40
      let r2 := Amx8x5_WriteByte pstcHandle AMX8X5_REG_OSC_CONTROL u8Temp1 r1.2
      if r2.1 ≠ .Ok then (r2.1, r2.2)
      else
        let r3 :=
          Amx8x5_WriteByte pstcHandle AMX8X5_REG_CONFIG_KEY AMX8X5_CONFIG_KEY_VAL r2.2
        if r3.1 ≠ .Ok then (r3.1, r3.2)
        else
          let r4 := Amx8x5_WriteByte pstcHandle AMX8X5_REG_OSC_CONTROL (u8Temp1 &&& 0x9F) r3.2
          if r4.1 ≠ .Ok then (r4.1, r4.2) else (.Ok, r4.2)
    else if enPeriod = AMx8x5AutoCalibrationPeriodCycleSecods1024 then
      let r2 := Amx8x5_WriteByte pstcHandle AMX8X5_REG_OSC_CONTROL (u8Temp ||| 0x40) r1.2
      if r2.1 ≠ .Ok then (r2.1, r2.2) else (.Ok, r2.2)
    else if enPeriod = AMx8x5AutoCalibrationPeriodCycleSecods512 then
      let r2 := Amx8x5_WriteByte pstcHandle AMX8X5_REG_OSC_CONTROL (u8Temp ||| 0x60) r1.2
      if r2.1 ≠ .Ok then (r2.1, r2.2) else (.Ok, r2.2)
    else (.Ok, r1.2)

/-! ## Countdown timer (`amx8x5.cpp`) -/

/-- The locals of `Amx8x5_SetCountdown` that lines 3020-3181 compute. `u8Timer` is
declared `int32_t`. -/
structure SetCountdown_locals where
  u8TM : Nat
  u8TRPT : Nat
  u8TFS : Nat
  u8TE : Nat
  u8Timer : Int
  deriving DecidableEq, Repr

/-- `u8Timer = (iPeriod * hz); u8Timer /= 1000000; u8Timer = u8Timer - 1;` in `int32_t`
arithmetic; the C division truncates toward zero. -/
def SetCountdown_ticks (iPeriod hz : Int) : Int :=
  i32 (Int.tdiv (i32 (iPeriod * hz)) 1000000 - 1)

/-- Lines 3020-3181 of `Amx8x5_SetCountdown`: the timer mode, repeat bit, frequency code,
enable bit and counter value, from the oscillator in use and the arguments. -/
def SetCountdown_compute (enOMODE enRange : Nat) (iPeriod : Int) (enRepeat enPin : Nat) :
    SetCountdown_locals :=
  if enPin = AMx8x5CountdownInterruptPinDisable then
    { u8TM := 0, u8TRPT := 0, u8TFS := 0, u8TE := 0, u8Timer := 0 }
  else if enRepeat = AMx8x5RepeatModeSingleLevel then
    if enRange = AMx8x5PeriodeUs then
      if enOMODE = AMx8x5ModeCalibrateXT then
        if iPeriod ≤ 62500 then
          { u8TM := 1, u8TRPT := 0, u8TFS := 0, u8TE := 1,
            u8Timer := SetCountdown_ticks iPeriod 4096 }
        else if iPeriod ≤ 16384000 then
          { u8TM := 1, u8TRPT := 0, u8TFS := 1, u8TE := 1,
            u8Timer := SetCountdown_ticks iPeriod 64 }
        else
          { u8TM := 1, u8TRPT := 0, u8TFS := 2, u8TE := 1,
            u8Timer := i32 (Int.tdiv iPeriod 1000000 - 1) }
      else
        if iPeriod ≤ 2000000 then
          { u8TM := 1, u8TRPT := 0, u8TFS := 0, u8TE := 1,
            u8Timer := SetCountdown_ticks iPeriod 128 }
        else if iPeriod ≤ 4000000 then
          { u8TM := 1, u8TRPT := 0, u8TFS := 1, u8TE := 1,
            u8Timer := SetCountdown_ticks iPeriod 64 }
        else
          { u8TM := 1, u8TRPT := 0, u8TFS := 2, u8TE := 1,
            u8Timer := i32 (Int.tdiv iPeriod 1000000 - 1) }
    else
      if iPeriod ≤ 256 then
        { u8TM := 1, u8TRPT := 0, u8TFS := 2, u8TE := 1, u8Timer := i32 (iPeriod - 1) }
      else
        { u8TM := 1, u8TRPT := 0, u8TFS := 3, u8TE := 1,
          u8Timer := i32 (Int.tdiv iPeriod 60 - 1) }
  else
    let u8TRPT := u8 enRepeat &&& 0x01
    if u8 enRepeat < 3 then
      if enOMODE = AMx8x5ModeCalibrateXT then
        { u8TM := 0, u8TRPT := u8TRPT, u8TFS := 0, u8TE := 1,
          u8Timer := SetCountdown_ticks iPeriod 4096 }
      else
        { u8TM := 0, u8TRPT := u8TRPT, u8TFS := 0, u8TE := 1,
          u8Timer := SetCountdown_ticks iPeriod 128 }
    else if u8 enRepeat < 5 then
      { u8TM := 0, u8TRPT := u8TRPT, u8TFS := 1, u8TE := 1,
        u8Timer := SetCountdown_ticks iPeriod 128 }
    else if iPeriod ≤ 256 then
      { u8TM := 0, u8TRPT := u8TRPT, u8TFS := 2, u8TE := 1, u8Timer := i32 (iPeriod - 1) }
    else
      { u8TM := 0, u8TRPT := u8TRPT, u8TFS := 3, u8TE := 1,
        u8Timer := i32 (Int.tdiv iPeriod 60 - 1) }

/-- The merged control value of line 3202, from the byte `u8TCTRL` (already masked with
0x1C) and the computed locals. -/
def SetCountdown_merge (u8TCTRL : Nat) (v : SetCountdown_locals) : Nat :=
  u8 (u8TCTRL ||| (v.u8TE * 0x80) ||| (v.u8TM * 0x40) ||| (v.u8TRPT * 0x20) ||| v.u8TFS)

/-- Lines 3204-3279 of `Amx8x5_SetCountdown`: the pin routing. At most one of the four
`if` statements applies, since each compares `enPin` with a different enumerator. -/
def SetCountdown_route {σ : Type} (pstcHandle : Option (stc_amx8x5_handle_t σ))
    (enPin : Nat) (s : σ) : en_result_t × σ :=
  if enPin = AMx8x5CountdownInterruptPinFOUTnIRQLownTIRQLow then
    Amx8x5_SetOut1Mode pstcHandle AMx8x5Out1nIRQAtIrqElseOut s
  else if enPin = AMx8x5CountdownInterruptPinPSWnIRQ2LownTIRQLow then
    let a := Amx8x5_ReadByte pstcHandle AMX8X5_REG_CONTROL_2 true s
    if a.1 ≠ .Ok then (a.1, a.2.2)
    else
      let u8Temp := if a.2.1 &&& 0x1C ≠ 0 then (a.2.1 &&& 0xE3) ||| 0x14 else a.2.1
      Amx8x5_WriteByte pstcHandle AMX8X5_REG_CONTROL_2 u8Temp a.2.2
  else if enPin = AMx8x5CountdownInterruptPinCLKOUTnIRQ3LownTIRQLow then
    Amx8x5_WriteByte pstcHandle AMX8X5_REG_SQW 0x9B s
  else if enPin = AMx8x5CountdownInterruptPinCLKOUTnIRQ3HighnTIRQLow then
    Amx8x5_WriteByte pstcHandle AMX8X5_REG_SQW 0x9A s
  else (.Ok, s)

/-- `Amx8x5_SetCountdown` (lines 2989-3317). The `int32_t u8Timer` is converted to
`uint8_t` where it is passed to `Amx8x5_WriteByte`. -/
def Amx8x5_SetCountdown {σ : Type} (pstcHandle : Option (stc_amx8x5_handle_t σ))
    (enRange : Nat) (iPeriod : Int) (enRepeat enPin : Nat) (s : σ) : en_result_t × σ :=
  let r0 := Amx8x5_ReadByte pstcHandle AMX8X5_REG_OSC_STATUS true s
  if r0.1 ≠ .Ok then (r0.1, r0.2.2)
  else
    let enOMODE :=
      if r0.2.1 &&& AMX8X5_REG_OSC_STATUS_OMODE_MSK ≠ 0 then AMx8x5ModeCalibrateRC
      else AMx8x5ModeCalibrateXT
    let v := SetCountdown_compute enOMODE enRange iPeriod enRepeat enPin
    let r1 := Amx8x5_ReadByte pstcHandle AMX8X5_REG_TIMER_CTRL true r0.2.2
    if r1.1 ≠ .Ok then (r1.1, r1.2.2)
    else
      let u8TCTRL0 := r1.2.1 &&& 0x1C
      let r2 := Amx8x5_WriteByte pstcHandle AMX8X5_REG_TIMER_CTRL u8TCTRL0 r1.2.2
      if r2.1 ≠ .Ok then (r2.1, r2.2)
      else
        let u8TCTRL := SetCountdown_merge u8TCTRL0 v
        let r3 := SetCountdown_route pstcHandle enPin r2.2
        if r3.1 ≠ .Ok then (r3.1, r3.2)
        else if enPin ≠ AMx8x5CountdownInterruptPinDisable then
          let r4 := Amx8x5_ClearRegister pstcHandle AMX8X5_REG_STATUS
            AMX8X5_REG_STATUS_TIM_MSK r3.2
          if r4.1 ≠ .Ok then (r4.1, r4.2)
          else
            let r5 := Amx8x5_SetRegister pstcHandle AMX8X5_REG_INT_MASK
              AMX8X5_REG_INT_MASK_TIE_MSK r4.2
            if r5.1 ≠ .Ok then (r5.1, r5.2)
            else
              let r6 := Amx8x5_WriteByte pstcHandle AMX8X5_REG_TIMER
                (bits32 v.u8Timer) r5.2
              if r6.1 ≠ .Ok then (r6.1, r6.2)
              else
                let r7 := Amx8x5_WriteByte pstcHandle AMX8X5_REG_TIMER_INITIAL
                  (bits32 v.u8Timer) r6.2
                if r7.1 ≠ .Ok then (r7.1, r7.2)
                else
                  let r8 := Amx8x5_WriteByte pstcHandle AMX8X5_REG_TIMER_CTRL u8TCTRL r7.2
                  if r8.1 ≠ .Ok then (r8.1, r8.2) else (.Ok, r8.2)
        else (.Ok, r3.2)

/-! ## RAM access (`amx8x5.cpp`) -/

/-- The bank code `u8Xadd` of `Amx8x5_GetExtensionAddress` (lines 3358-3373), from the
`uint8_t` parameter `u8Address`. -/
def GetExtensionAddress_u8Xadd (u8Address : Nat) : Nat :=
  if u8 u8Address < 64 then 0x8
  else if u8 u8Address < 128 then 0x9
  else if u8 u8Address < 192 then 0xA
  else 0xB

/-- The register argument `(u8Address & 0x3F) | 0x40` of the data access in
`Amx8x5_RamRead` (line 3424) and `Amx8x5_RamWrite` (line 3474). -/
def RamAccess_register (u8Address : Nat) : Nat :=
  u8 ((u8 u8Address &&& 0x3F) ||| 0x40)

/-- `Amx8x5_GetExtensionAddress` (lines 3334-3380). The result carries the byte stored
through `pu8ExtensionAddress`. -/
def Amx8x5_GetExtensionAddress {σ : Type} (pstcHandle : Option (stc_amx8x5_handle_t σ))
    (u8Address : Nat) (pu8ExtensionAddress : Bool) (s : σ) : en_result_t × Nat × σ :=
  match pstcHandle with
  | none => (.ErrorUninitialized, 0, s)
  | some _ =>
    if pu8ExtensionAddress = false then (.ErrorInvalidParameter, 0, s)
    else
      let r := Amx8x5_ReadByte pstcHandle AMX8X5_REG_EXTENDED_ADDR true s
      if r.1 ≠ .Ok then (r.1, 0, r.2.2)
      else
        let u8Temp := r.2.1 &&& 0xC0
        let u8Xadd := GetExtensionAddress_u8Xadd u8Address
        (.Ok, u8 (u8Xadd ||| u8Temp), r.2.2)

/-- `Amx8x5_RamRead` (lines 3396-3431). The result carries the byte read into `pu8Data`
(`pu8Data` tells whether that destination is present). -/
def Amx8x5_RamRead {σ : Type} (pstcHandle : Option (stc_amx8x5_handle_t σ))
    (u8Address : Nat) (pu8Data : Bool) (s : σ) : en_result_t × Nat × σ :=
  let r := Amx8x5_GetExtensionAddress pstcHandle u8Address true s
  if r.1 ≠ .Ok then (r.1, 0, r.2.2)
  else
    let r1 := Amx8x5_WriteByte pstcHandle AMX8X5_REG_EXTENDED_ADDR r.2.1 r.2.2
    if r1.1 ≠ .Ok then (r1.1, 0, r1.2)
    else
      let r2 := Amx8x5_ReadByte pstcHandle (RamAccess_register u8Address) pu8Data r1.2
      if r2.1 ≠ .Ok then (r2.1, 0, r2.2.2) else (.Ok, r2.2.1, r2.2.2)

/-- `Amx8x5_RamWrite` (lines 3446-3481). -/
def Amx8x5_RamWrite {σ : Type} (pstcHandle : Option (stc_amx8x5_handle_t σ))
    (u8Address u8Data : Nat) (s : σ) : en_result_t × σ :=
  let r := Amx8x5_GetExtensionAddress pstcHandle u8Address true s
  if r.1 ≠ .Ok then (r.1, r.2.2)
  else
    let r1 := Amx8x5_WriteByte pstcHandle AMX8X5_REG_EXTENDED_ADDR r.2.1 r.2.2
    if r1.1 ≠ .Ok then (r1.1, r1.2)
    else
      let r2 := Amx8x5_WriteByte pstcHandle (RamAccess_register u8Address) u8Data r1.2
      if r2.1 ≠ .Ok then (r2.1, r2.2) else (.Ok, r2.2)

/-! ## Devices behind the transport

Two worlds the callbacks can act on. Both keep a log of the transport calls made, in
order. -/

/-- One transport call, as the callback sees it: the register, and the length (read) or
the bytes (write). -/
inductive Call where
  | read (u8Register : Nat) (u32Len : Nat)
  | write (u8Register : Nat) (data : List Nat)
  deriving DecidableEq, Repr

/-- The answers of an arbitrary transport, call by call: `status n` is the `int` the
n-th call (counted from 0) returns and `data n` the bytes it stores if it is a read. -/
structure Script where
  status : Nat → Int
  data : Nat → List Nat

/-- Read callback of the scripted transport; the world is the log of calls so far. -/
def Script.read (sc : Script) : pfn_read_register (List Call) :=
  fun _ u8Register u32Len log =>
    (sc.status log.length, sc.data log.length, log ++ [Call.read u8Register u32Len])

/-- Write callback of the scripted transport. -/
def Script.write (sc : Script) : pfn_write_register (List Call) :=
  fun _ u8Register data log =>
    (sc.status log.length, log ++ [Call.write u8Register data])

/-- A handle on the scripted transport. -/
def Script.handle (sc : Script) (enMode : en_amx8x5_communication_mode_t)
    (enRtcType u32Address : Nat) : stc_amx8x5_handle_t (List Call) :=
  { enMode := enMode, enRtcType := enRtcType, u32Address := u32Address,
    pfnWrite := some sc.write, pfnRead := some sc.read }

/-- The byte the n-th call of the scripted transport delivers if it is a 1-byte read. -/
def Script.byte (sc : Script) (n : Nat) : Nat := u8 ((sc.data n).headD 0)

/-- Whether a call writes the register at address `a`: a write of `data` at `reg` covers
the addresses `reg .. reg + data.length - 1`. -/
def Call.writes (c : Call) (a : Nat) : Bool :=
  match c with
  | Call.read _ _ => false
  | Call.write reg data => decide (reg ≤ a ∧ a < reg + data.length)

/-- Whether a call leaves the registers `lo .. hi` alone: it is a read, or a write whose
addresses `reg .. reg + data.length - 1` lie outside that range. -/
def Call.avoids (c : Call) (lo hi : Nat) : Bool :=
  match c with
  | Call.read _ _ => true
  | Call.write reg data => decide (hi < reg ∨ reg + data.length ≤ lo)

/-- A register file: the byte held at every address. -/
abbrev RegFile := Nat → Nat

/-- Store bytes at consecutive addresses from `reg` on. -/
def RegFile.store (m : RegFile) (reg : Nat) : List Nat → RegFile
  | [] => m
  | b :: bs => RegFile.store (fun a => if a = reg then b else m a) (reg + 1) bs

/-- The bytes at `len` consecutive addresses from `reg` on. -/
def RegFile.load (m : RegFile) (reg : Nat) : Nat → List Nat
  | 0 => []
  | len + 1 => m reg :: RegFile.load m (reg + 1) len

/-- A device that is a plain register file, with a log of the calls made to it. -/
structure RegDev where
  regs : RegFile
  log : List Call

/-- Read callback of the register-file device. The call numbered `n` (from 0) reports
`fault n`; a call that reports non-zero has no effect on the registers and stores
nothing. With `fault = fun _ => 0` the transport always succeeds. -/
def RegDev.read (fault : Nat → Int) : pfn_read_register RegDev :=
  fun _ u8Register u32Len d =>
    if fault d.log.length = 0 then
      (0, RegFile.load d.regs u8Register u32Len,
        { regs := d.regs, log := d.log ++ [Call.read u8Register u32Len] })
    else
      (fault d.log.length, [],
        { regs := d.regs, log := d.log ++ [Call.read u8Register u32Len] })

/-- Write callback of the register-file device. -/
def RegDev.write (fault : Nat → Int) : pfn_write_register RegDev :=
  fun _ u8Register data d =>
    if fault d.log.length = 0 then
      (0, { regs := RegFile.store d.regs u8Register data,
            log := d.log ++ [Call.write u8Register data] })
    else
      (fault d.log.length,
        { regs := d.regs, log := d.log ++ [Call.write u8Register data] })

/-- A handle on the register-file device. -/
def RegDev.handle (fault : Nat → Int) (enMode : en_amx8x5_communication_mode_t)
    (enRtcType u32Address : Nat) : stc_amx8x5_handle_t RegDev :=
  { enMode := enMode, enRtcType := enRtcType, u32Address := u32Address,
    pfnWrite := some (RegDev.write fault), pfnRead := some (RegDev.read fault) }

/-- The fault schedule of a transport that always succeeds. -/
def noFault : Nat → Int := fun _ => 0

/-- The registers after the writes among `calls` have been applied to `m`, in order. -/
def RegFile.replay (m : RegFile) : List Call → RegFile
  | [] => m
  | Call.read _ _ :: cs => RegFile.replay m cs
  | Call.write reg data :: cs => RegFile.replay (RegFile.store m reg data) cs

/-! ## Reference descriptions used by the statements

Written from the behaviour the statements describe, not from the driver functions above;
the theorems compare the driver with them. -/

/-- The transport calls of a complete `Amx8x5_SetTime`, in order. `c1`, `c2`, `st`, `c3`
are the bytes returned by the four reads (CONTROL_1, CONTROL_1, STATUS, CONTROL_1). -/
def SetTime_calls (t : stc_amx8x5_time_t) (bProtect : Bool) (c1 c2 st c3 : Nat) : List Call :=
  [ Call.read 0x10 1,
    Call.write 0x10 [if t.u8Mode = 2 then c1 &&& 0xBF else c1 ||| 0x40],
    Call.read 0x10 1,
    Call.write 0x10 [c2 ||| 0x01],
    Call.read 0x0F 1,
    Call.write 0x0F [if t.u8Century = 0 then st &&& 0x7F else st ||| 0x80],
    Call.write 0x00
      [ AMX8X5_DEC_TO_BCD t.u8Hundredth,
        AMX8X5_DEC_TO_BCD t.u8Second,
        AMX8X5_DEC_TO_BCD t.u8Minute,
        (if t.u8Mode = 1 then AMX8X5_DEC_TO_BCD t.u8Hour ||| 0x20
         else AMX8X5_DEC_TO_BCD t.u8Hour),
        AMX8X5_DEC_TO_BCD t.u8Date,
        AMX8X5_DEC_TO_BCD t.u8Month,
        AMX8X5_DEC_TO_BCD t.u8Year,
        AMX8X5_DEC_TO_BCD t.u8Weekday ],
    Call.read 0x10 1,
    Call.write 0x10 [if bProtect then c3 &&& 0x7E else (c3 &&& 0x7E) ||| 0x01] ]

/-- The calls of `Amx8x5_SetTime` on a register file `m`: every read returns the byte
last written (or the initial content). -/
def SetTime_calls_on (t : stc_amx8x5_time_t) (bProtect : Bool) (m : RegFile) : List Call :=
  let c1 := u8 (m 0x10)
  let c2 := if t.u8Mode = 2 then c1 &&& 0xBF else c1 ||| 0x40
  SetTime_calls t bProtect c1 c2 (u8 (m 0x0F)) (c2 ||| 0x01)

/-- The time record as a function of the register bytes `reg a`: BCD counters at
0x00..0x07, the 12/24 bit 0x40 of CONTROL_1 (0x10), the AM/PM bit 0x20 of the hour
byte, the century bit 0x80 of STATUS (0x0F). -/
def GetTime_record (reg : Nat → Nat) : stc_amx8x5_time_t :=
  { u8Hundredth := AMX8X5_BCD_TO_DEC (reg 0x00)
    u8Second := AMX8X5_BCD_TO_DEC (reg 0x01)
    u8Minute := AMX8X5_BCD_TO_DEC (reg 0x02)
    u8Hour :=
      if reg 0x10 &&& 0x40 = 0 then AMX8X5_BCD_TO_DEC (reg 0x03 &&& 0x3F)
      else AMX8X5_BCD_TO_DEC (reg 0x03 &&& 0x1F)
    u8Date := AMX8X5_BCD_TO_DEC (reg 0x04)
    u8Month := AMX8X5_BCD_TO_DEC (reg 0x05)
    u8Year := AMX8X5_BCD_TO_DEC (reg 0x06)
    u8Weekday := AMX8X5_BCD_TO_DEC (reg 0x07)
    u8Century := if reg 0x0F &&& 0x80 = 0 then 0 else 1
    u8Mode :=
      if reg 0x10 &&& 0x40 = 0 then 2
      else if reg 0x03 &&& 0x20 = 0 then 0 else 1 }

/-- The byte a register file holds at an address. -/
def RegFile.byte (m : RegFile) (a : Nat) : Nat := u8 (m a)

/-- The three reads of `Amx8x5_GetTime`. -/
def GetTime_calls : List Call :=
  [Call.read 0x00 8, Call.read 0x10 1, Call.read 0x0F 1]

/-- The calls with which `Amx8x5_SetAlarm` clears the RPT field of TIMER_CTRL (0x18), the
IM field and the AIE bit of INT_MASK (0x12) and the ALM flag of STATUS (0x0F), on a
register file `m`. -/
def SetAlarm_clear_calls (m : RegFile) : List Call :=
  [ Call.read 0x18 1, Call.write 0x18 [u8 (m 0x18) &&& 0xE3],
    Call.read 0x12 1, Call.write 0x12 [u8 (m 0x12) &&& 0x9B],
    Call.read 0x0F 1, Call.write 0x0F [u8 (m 0x0F) &&& 0xFB] ]

/-- The calls with which `Amx8x5_SetAlarm` routes the alarm interrupt to a pin: it reads
CONTROL_2 (0x11) and, only if the output field of the pin (OUT1S, bits 1:0, for FOUT/nIRQ;
OUT2S, bits 4:2, for PSW/nIRQ2) is not 0, clears the field and then sets it to 3. -/
def SetAlarm_pin_calls (enModePin : Nat) (m : RegFile) : List Call :=
  if enModePin = 1 then
    Call.read 0x11 1 ::
      (if u8 (m 0x11) &&& 0x03 = 0 then []
       else [ Call.read 0x11 1, Call.write 0x11 [u8 (m 0x11) &&& 0xFC],
              Call.read 0x11 1, Call.write 0x11 [u8 (m 0x11) &&& 0xFC ||| 0x03] ])
  else if enModePin = 2 then
    Call.read 0x11 1 ::
      (if u8 (m 0x11) &&& 0x1C = 0 then []
       else [ Call.read 0x11 1, Call.write 0x11 [u8 (m 0x11) &&& 0xE3],
              Call.read 0x11 1, Call.write 0x11 [u8 (m 0x11) &&& 0xE3 ||| 0x0C] ])
  else []

/-- The calls of a complete `Amx8x5_SetAlarm` with repeat = disabled and a pin in
{FOUT/nIRQ, PSW/nIRQ2}: the clears, the pin routing, and the read-modify-write that puts
the IM field of INT_MASK back to 0b11. -/
def SetAlarm_disabled_calls (enModePin : Nat) (m : RegFile) : List Call :=
  SetAlarm_clear_calls m ++ SetAlarm_pin_calls enModePin m ++
    [ Call.read 0x12 1, Call.write 0x12 [u8 (m 0x12) &&& 0x9B ||| 0x60] ]

/-- The 7-byte alarm block for a repeat code: the BCD hundredth, second, minute, hour (with
0x20 OR-ed in for 12-hour PM), date, month, weekday; for repeat code 8 (tenths) the first
byte has 0xF0 OR-ed in, for repeat code 9 (hundredths) the first byte is 0xFF. -/
def SetAlarm_block (t : stc_amx8x5_time_t) (enModeRepeat : Nat) : List Nat :=
  [ (if enModeRepeat = 8 then AMX8X5_DEC_TO_BCD t.u8Hundredth ||| 0xF0
     else if enModeRepeat = 9 then 0xFF
     else AMX8X5_DEC_TO_BCD t.u8Hundredth),
    AMX8X5_DEC_TO_BCD t.u8Second,
    AMX8X5_DEC_TO_BCD t.u8Minute,
    (if t.u8Mode = 1 then AMX8X5_DEC_TO_BCD t.u8Hour ||| 0x20
     else AMX8X5_DEC_TO_BCD t.u8Hour),
    AMX8X5_DEC_TO_BCD t.u8Date,
    AMX8X5_DEC_TO_BCD t.u8Month,
    AMX8X5_DEC_TO_BCD t.u8Weekday ]

/-- The RPT code programmed for a repeat code: the code itself for 1..7, and 7 (by
second) for the codes 8 and 9. -/
def SetAlarm_rpt_code (enModeRepeat : Nat) : Nat :=
  if enModeRepeat = 8 ∨ enModeRepeat = 9 then 7 else enModeRepeat

/-- The calls of a complete `Amx8x5_SetAlarm` for a repeat code in 1..9, an interrupt mode
in 1..3 and a pin in {FOUT/nIRQ, PSW/nIRQ2}, on a register file `m`: the clears, the pin
routing, the IM field (clear, then set to the mode code), the RPT field, the 7-byte alarm
block at 0x08, and the set of AIE. -/
def SetAlarm_enabled_calls (t : stc_amx8x5_time_t) (enModeRepeat enModeIrq enModePin : Nat)
    (m : RegFile) : List Call :=
  SetAlarm_clear_calls m ++ SetAlarm_pin_calls enModePin m ++
    [ Call.read 0x12 1, Call.write 0x12 [u8 (m 0x12) &&& 0x9B &&& 0x9F],
      Call.read 0x12 1,
      Call.write 0x12 [u8 (m 0x12) &&& 0x9B &&& 0x9F ||| enModeIrq <<< 5],
      Call.read 0x18 1,
      Call.write 0x18 [u8 (m 0x18) &&& 0xE3 ||| SetAlarm_rpt_code enModeRepeat <<< 2],
      Call.write 0x08 (SetAlarm_block t enModeRepeat),
      Call.read 0x12 1,
      Call.write 0x12 [u8 (m 0x12) &&& 0x9B &&& 0x9F ||| enModeIrq <<< 5 ||| 0x04] ]

/-- The calls of `Amx8x5_SetAlarm` up to the point where it rejects the interrupt mode:
the clears, the pin routing, and the clear of the IM field. -/
def SetAlarm_rejected_irq_calls (enModePin : Nat) (m : RegFile) : List Call :=
  SetAlarm_clear_calls m ++
    (if enModePin = 1 ∨ enModePin = 2 then
      SetAlarm_pin_calls enModePin m ++
        [ Call.read 0x12 1, Call.write 0x12 [u8 (m 0x12) &&& 0x9B &&& 0x9F] ]
     else [])

/-- The CMDX bit (bit 7) of a CAL_XT byte. -/
def CAL_XT_CMDX (c : Nat) : Nat := (c >>> 7) &&& 1

/-- The OFFSETX field (bits 6:0) of a CAL_XT byte, read as a 7-bit two's-complement
number (-64..63). -/
def CAL_XT_OFFSETX (c : Nat) : Int :=
  if c &&& 0x40 = 0 then ((c &&& 0x7F : Nat) : Int) else ((c &&& 0x7F : Nat) : Int) - 128

/-- The XTCAL field (bits 7:6) of an OSC_STATUS byte. -/
def OSC_STATUS_XTCAL (c : Nat) : Nat := (c >>> 6) &&& 3

/-- The adjustment (in internal units) that a CAL_XT byte `c` and an XTCAL field `x`
stand for: OFFSETX steps, doubled in coarse mode (CMDX = 1), less 64 per XTCAL step. -/
def decodeXT (c x : Nat) : Int :=
  CAL_XT_OFFSETX c * (if CAL_XT_CMDX c = 1 then 2 else 1) - 64 * (x : Int)

/-- The calls of `Amx8x5_SetWatchdog` on a register file `m` when every call succeeds: the
write of 0 to WDT (0x1B), the clear of the WDT flag 0x20 of STATUS (0x0F), the clear of
the output-mode field of CONTROL_2 (0x11) that the pin asks for, and a read of WDT
followed by a write of 0 to it (what was read, 0 after the first write, with some bits
cleared). -/
def SetWatchdog_calls (enPin : Nat) (m : RegFile) : List Call :=
  [ Call.write 0x1B [0], Call.read 0x0F 1, Call.write 0x0F [u8 (m 0x0F) &&& 0xDF] ] ++
  (if enPin = 1 then [Call.read 0x11 1, Call.write 0x11 [u8 (m 0x11) &&& 0xFC]]
   else if enPin = 2 then [Call.read 0x11 1, Call.write 0x11 [u8 (m 0x11) &&& 0xE3]]
   else []) ++
  [ Call.read 0x1B 1,
    Call.write 0x1B [0] ]

/-- The number of ticks of the watchdog clock with code `wrb` (16 Hz, 4 Hz, 1 Hz, 1/4 Hz)
in `period` milliseconds, rounded down. -/
def WDT_ticks (wrb period : Nat) : Nat :=
  if wrb = 0 then period * 16 / 1000
  else if wrb = 1 then period * 4 / 1000
  else if wrb = 2 then period / 1000
  else period / 4000

/-- The code of the highest watchdog frequency whose tick count for `period` does not
exceed the 5-bit maximum 31 (the code 3 of the lowest frequency if there is none). -/
def WDT_fastest (period : Nat) : Nat :=
  if WDT_ticks 0 period ≤ 31 then 0
  else if WDT_ticks 1 period ≤ 31 then 1
  else if WDT_ticks 2 period ≤ 31 then 2
  else 3

/-- The pin-routing calls of `Amx8x5_SetCountdown` on the scripted transport when they
start as call number 3: a read-modify-write of CONTROL_2 (0x11) for the pins FOUT/nIRQ (2)
and PSW/nIRQ2 (3), a write of SQW (0x13) for CLKOUT/nIRQ3 (4, 5), nothing otherwise. -/
def SetCountdown_route_calls (sc : Script) (enPin : Nat) : List Call :=
  if enPin = 2 then [Call.read 0x11 1, Call.write 0x11 [sc.byte 3 &&& 0xFC]]
  else if enPin = 3 then
    [ Call.read 0x11 1,
      Call.write 0x11
        [if sc.byte 3 &&& 0x1C = 0 then sc.byte 3 else (sc.byte 3 &&& 0xE3) ||| 0x14] ]
  else if enPin = 4 then [Call.write 0x13 [0x9B]]
  else if enPin = 5 then [Call.write 0x13 [0x9A]]
  else []

/-- The calls of a complete `Amx8x5_SetCountdown` with a pin other than "disabled" on the
scripted transport, in order: the reads of OSC_STATUS (0x1D) and TIMER_CTRL (0x18), the
write of TIMER_CTRL with everything but RPT cleared, the pin routing, the clear of the TIM
flag 0x08 of STATUS (0x0F), the set of TIE 0x08 in INT_MASK (0x12), the counter value `t`
to TIMER (0x19) and TIMER_INITIAL (0x1A), and the control value `ctl` to TIMER_CTRL. -/
def SetCountdown_calls (sc : Script) (enPin t ctl : Nat) : List Call :=
  let n := 3 + (SetCountdown_route_calls sc enPin).length
  [ Call.read 0x1D 1, Call.read 0x18 1, Call.write 0x18 [sc.byte 1 &&& 0x1C] ] ++
  SetCountdown_route_calls sc enPin ++
  [ Call.read 0x0F 1, Call.write 0x0F [sc.byte n &&& 0xF7],
    Call.read 0x12 1, Call.write 0x12 [sc.byte (n + 2) ||| 0x08],
    Call.write 0x19 [t], Call.write 0x1A [t], Call.write 0x18 [ctl] ]

/-- The unlock key a transport call needs in the configuration-key register just before
it: 0x9D for a write that covers TRICKLE (0x20) or BREF_CTRL (0x21), 0xA1 for a write that
covers OSC_CONTROL (0x1C), none for any other call. -/
def Call.key (c : Call) : Option Nat :=
  if c.writes 0x20 || c.writes 0x21 then some 0x9D
  else if c.writes 0x1C then some 0xA1
  else none

/-- Whether, in a trace that follows the call `prev` (`none` at the start of a trace),
every write to a key-protected register comes directly after the 1-byte write of its key
to the configuration-key register 0x1F. -/
def keyedAfter (prev : Option Call) : List Call → Bool
  | [] => true
  | c :: cs =>
    (match c.key with
     | none => true
     | some k => decide (prev = some (Call.write 0x1F [k]))) && keyedAfter (some c) cs

/-- Field CMDR of the RC calibration: bits 7:6 of CAL_RC_HI. -/
def CAL_RC_CMDR (hi : Nat) : Nat := hi >>> 6

/-- Field OFFSETR of the RC calibration: the 14-bit two's-complement number whose bits
13:8 are bits 5:0 of CAL_RC_HI and whose bits 7:0 are CAL_RC_LOW. -/
def CAL_RC_OFFSETR (hi lo : Nat) : Int :=
  let v := ((hi &&& 0x3F) <<< 8) ||| lo
  if v < 8192 then (v : Int) else (v : Int) - 16384

/-- The adjustment a pair of RC calibration bytes stands for: OFFSETR * 2 ^ CMDR. -/
def decodeRC (hi lo : Nat) : Int := CAL_RC_OFFSETR hi lo * 2 ^ CAL_RC_CMDR hi

/-- The calls with which `Amx8x5_SetSleepMode` routes the sleep signal to PSW/nIRQ2 on the
scripted transport: none for the mode `AMx8x5nRstLowInSleep` (0), otherwise a read of
CONTROL_2 (0x11) and the write-back with the OUT2S field set to 6. -/
def SetSleepMode_route_calls (sc : Script) (enMode : Nat) : List Call :=
  if enMode = 0 then []
  else [Call.read 0x11 1, Call.write 0x11 [(sc.byte 0 &&& 0xE3) ||| 0x18]]

/-- The sleep request byte for SLEEP_CTRL (0x17): the timeout, SLRES (bit 6) unless the
mode is `AMx8x5PswIrq2HighInSleep` (1), and SLP (bit 7). -/
def SetSleepMode_request (u8Timeout enMode : Nat) : Nat :=
  u8 u8Timeout ||| ((if enMode = 1 then 0 else 1) <<< 6) ||| 0x80

/-! ## Sample inputs -/

/-- A register file with every bit of every register set. -/
def RegFile.allOnes : RegFile := fun _ => 0xFF

/-- A register file with every register cleared. -/
def RegFile.zero : RegFile := fun _ => 0

/-- 23:59:59.99 on 31.12.(1)99, weekday 6, 24-hour mode. -/
def sampleTime24 : stc_amx8x5_time_t :=
  { u8Hundredth := 99, u8Second := 59, u8Minute := 59, u8Hour := 23, u8Date := 31,
    u8Weekday := 6, u8Month := 12, u8Year := 99, u8Century := 1, u8Mode := 2 }

/-- 12:34:56.78 PM on 15.06.24, weekday 3, 12-hour mode PM. -/
def sampleTimePM : stc_amx8x5_time_t :=
  { u8Hundredth := 78, u8Second := 56, u8Minute := 34, u8Hour := 12, u8Date := 15,
    u8Weekday := 3, u8Month := 6, u8Year := 24, u8Century := 0, u8Mode := 1 }

/-- A cache content different from every sample time. -/
def sampleCache : stc_amx8x5_time_t :=
  { u8Hundredth := 1, u8Second := 2, u8Minute := 3, u8Hour := 4, u8Date := 5,
    u8Weekday := 6, u8Month := 7, u8Year := 8, u8Century := 0, u8Mode := 0 }

/-- The fault schedule in which call `k` (counted from 0) reports status 1 and every
other call succeeds. -/
def faultAt (k : Nat) : Nat → Int := fun n => if n = k then 1 else 0

/-- Registers holding 07:56:34.12 on 08.09.10, weekday 2, in BCD; all others cleared. -/
def sampleRegs : RegFile := fun a =>
  if a = 0 then 0x12 else if a = 1 then 0x34 else if a = 2 then 0x56 else if a = 3 then 0x07
  else if a = 4 then 0x08 else if a = 5 then 0x09 else if a = 6 then 0x10 else if a = 7 then 0x02
  else 0

/-- The scripted transport on which every call succeeds and every read delivers 0xFF. -/
def Script.allOk : Script := { status := fun _ => 0, data := fun _ => [0xFF] }

/-- 12:34:56.78 on 15.06., weekday 3, 24-hour mode: an alarm time. -/
def sampleAlarm : stc_amx8x5_time_t :=
  { u8Hundredth := 78, u8Second := 56, u8Minute := 34, u8Hour := 12, u8Date := 15,
    u8Weekday := 3, u8Month := 6, u8Year := 0, u8Century := 0, u8Mode := 2 }

/-- A register file whose SQW register (0x13) holds 0x10 and every other register 0. -/
def sampleSqwRegs : RegFile := fun a => if a = 0x13 then 0x10 else 0

/-- A register file that identifies as an AM1805: ID0 (0x28) = 0x18, ID1 (0x29) = 0x05. -/
def sampleIdRegs : RegFile := fun a => if a = 0x28 then 0x18 else if a = 0x29 then 0x05 else 0

/-- A transport whose calls all succeed and whose reads all deliver 0. -/
def Script.zeros : Script := { status := fun _ => 0, data := fun _ => [0] }

/-! # Theorems -/

/-! ## Bytes -/

theorem u8_lt (x : Nat) : u8 x < 256 := by unfold u8; omega

theorem u8_of_lt {x : Nat} (h : x < 256) : u8 x = x := by unfold u8; omega

theorem and_lt_256 {a : Nat} (b : Nat) (h : a < 256) : a &&& b < 256 :=
  lt_of_le_of_lt Nat.and_le_left h

theorem or_lt_256 {a b : Nat} (ha : a < 256) (hb : b < 256) : a ||| b < 256 :=
  Nat.or_lt_two_pow (n := 8) ha hb

theorem u8_u8 (x : Nat) : u8 (u8 x) = u8 x := by simp [u8]

theorem u8_and (a b : Nat) : u8 (a &&& b) = u8 a &&& u8 b := by
  unfold u8
  apply Nat.eq_of_testBit_eq
  intro i
  have h : (256 : Nat) = 2 ^ 8 := by norm_num
  simp only [h, Nat.testBit_mod_two_pow, Nat.testBit_and]
  cases decide (i < 8) <;> simp

theorem u8_or (a b : Nat) : u8 (a ||| b) = u8 a ||| u8 b := by
  unfold u8
  apply Nat.eq_of_testBit_eq
  intro i
  have h : (256 : Nat) = 2 ^ 8 := by norm_num
  simp only [h, Nat.testBit_mod_two_pow, Nat.testBit_or]
  cases decide (i < 8) <;> simp

theorem dec_to_bcd_lt (x : Nat) : AMX8X5_DEC_TO_BCD x < 256 := by
  unfold AMX8X5_DEC_TO_BCD
  exact or_lt_256 (and_lt_256 _ (by norm_num)) (and_lt_256 _ (by norm_num))

set_option maxRecDepth 100000 in
theorem bcd_to_dec_lt_aux : ∀ x < 256, AMX8X5_BCD_TO_DEC x < 256 := by decide

theorem bcd_to_dec_lt {x : Nat} (h : x < 256) : AMX8X5_BCD_TO_DEC x < 256 :=
  bcd_to_dec_lt_aux x h

theorem u8_dec_to_bcd (x : Nat) : u8 (AMX8X5_DEC_TO_BCD x) = AMX8X5_DEC_TO_BCD x :=
  u8_of_lt (dec_to_bcd_lt x)

theorem u8_bcd_to_dec_u8 (x : Nat) :
    u8 (AMX8X5_BCD_TO_DEC (u8 x)) = AMX8X5_BCD_TO_DEC (u8 x) :=
  u8_of_lt (bcd_to_dec_lt (u8_lt x))

theorem u8_bcd_to_dec_u8_and (x k : Nat) :
    u8 (AMX8X5_BCD_TO_DEC (u8 x &&& k)) = AMX8X5_BCD_TO_DEC (u8 x &&& k) :=
  u8_of_lt (bcd_to_dec_lt (and_lt_256 k (u8_lt x)))

/-- The values of the register addresses, masks and mode codes. -/
theorem consts : AMX8X5_REG_HUNDREDTHS = 0 ∧ AMX8X5_REG_STATUS = 15
    ∧ AMX8X5_REG_STATUS_CB_MSK = 128 ∧ AMX8X5_REG_CONTROL_1 = 16
    ∧ AMX8X5_REG_CONTROL_1_12_24_MSK = 64 ∧ AMX8X5_REG_CONTROL_1_WRTC_MSK = 1
    ∧ AMX8X5_12HR_MODE = 1 ∧ AMX8X5_24HR_MODE = 2 := by
  decide

theorem masks : 255 ^^^ u8 64 = 191 ∧ 255 ^^^ u8 128 = 127 ∧ u8 64 = 64 ∧ u8 128 = 128
    ∧ u8 1 = 1 ∧ u8 191 = 191 ∧ u8 127 = 127 ∧ u8 126 = 126 ∧ u8 32 = 32 := by
  decide

set_option maxRecDepth 100000 in
theorem bcd_roundtrip_aux : ∀ n < 100, AMX8X5_BCD_TO_DEC (AMX8X5_DEC_TO_BCD n) = n := by
  decide

theorem bcd_roundtrip {n : Nat} (h : n ≤ 99) : AMX8X5_BCD_TO_DEC (AMX8X5_DEC_TO_BCD n) = n :=
  bcd_roundtrip_aux n (by omega)

set_option maxRecDepth 100000 in
theorem hour24_roundtrip_aux :
    ∀ n < 24, AMX8X5_BCD_TO_DEC (AMX8X5_DEC_TO_BCD n &&& 63) = n := by
  decide

set_option maxRecDepth 100000 in
theorem hour12_pm_aux : ∀ n < 13, 1 ≤ n →
    (AMX8X5_DEC_TO_BCD n ||| 32) &&& 32 = 32 ∧
    AMX8X5_BCD_TO_DEC ((AMX8X5_DEC_TO_BCD n ||| 32) &&& 31) = n := by
  decide

set_option maxRecDepth 100000 in
theorem control_bits_aux : ∀ c < 256,
    ((c &&& 191 ||| 1) &&& 126) &&& 64 = 0 ∧ ((c &&& 191 ||| 1) &&& 126 ||| 1) &&& 64 = 0
    ∧ ((c ||| 64 ||| 1) &&& 126) &&& 64 = 64 ∧ ((c ||| 64 ||| 1) &&& 126 ||| 1) &&& 64 = 64 := by
  decide

set_option maxRecDepth 100000 in
theorem status_bits_aux : ∀ c < 256, (c &&& 127) &&& 128 = 0 ∧ (c ||| 128) &&& 128 = 128 := by
  decide

set_option maxRecDepth 100000 in
theorem wrtc_bits_aux : ∀ c < 256,
    (c &&& 126) &&& 1 = 0 ∧ (c &&& 126 ||| 1) &&& 1 = 1 ∧ (c ||| 1) &&& 1 = 1 := by
  decide

/-! ## The register-file device -/

theorem RegDev_ReadByte (fault : Nat → Int) (m : en_amx8x5_communication_mode_t)
    (ty addr reg : Nat) (d : RegDev) :
    Amx8x5_ReadByte (some (RegDev.handle fault m ty addr)) reg true d =
      if fault d.log.length = 0 then
        (.Ok, u8 (d.regs reg), { regs := d.regs, log := d.log ++ [Call.read reg 1] })
      else (.Error, 0, { regs := d.regs, log := d.log ++ [Call.read reg 1] }) := by
  cases m <;>
    simp [Amx8x5_ReadByte, RegDev.handle, stc_amx8x5_handle_t.pfnReadI2C,
      stc_amx8x5_handle_t.pfnReadSpi, RegDev.read, RegFile.load] <;>
    split <;> simp_all

theorem RegDev_ReadBytes (fault : Nat → Int) (m : en_amx8x5_communication_mode_t)
    (ty addr reg len : Nat) (d : RegDev) :
    Amx8x5_ReadBytes (some (RegDev.handle fault m ty addr)) reg true len d =
      if fault d.log.length = 0 then
        (.Ok, ((RegFile.load d.regs reg len).take len).map u8,
          { regs := d.regs, log := d.log ++ [Call.read reg len] })
      else (.Error, [], { regs := d.regs, log := d.log ++ [Call.read reg len] }) := by
  cases m <;>
    simp [Amx8x5_ReadBytes, RegDev.handle, stc_amx8x5_handle_t.pfnReadI2C,
      stc_amx8x5_handle_t.pfnReadSpi, RegDev.read] <;>
    split <;> simp_all

theorem RegDev_WriteByte (fault : Nat → Int) (m : en_amx8x5_communication_mode_t)
    (ty addr reg v : Nat) (d : RegDev) :
    Amx8x5_WriteByte (some (RegDev.handle fault m ty addr)) reg v d =
      if fault d.log.length = 0 then
        (.Ok, { regs := RegFile.store d.regs reg [u8 v],
                log := d.log ++ [Call.write reg [u8 v]] })
      else (.Error, { regs := d.regs, log := d.log ++ [Call.write reg [u8 v]] }) := by
  cases m <;>
    simp [Amx8x5_WriteByte, RegDev.handle, stc_amx8x5_handle_t.pfnWriteI2C,
      stc_amx8x5_handle_t.pfnWriteSpi, RegDev.write] <;>
    split <;> simp_all

theorem RegDev_WriteBytes (fault : Nat → Int) (m : en_amx8x5_communication_mode_t)
    (ty addr reg len : Nat) (data : List Nat) (d : RegDev) :
    Amx8x5_WriteBytes (some (RegDev.handle fault m ty addr)) reg (some data) len d =
      if fault d.log.length = 0 then
        (.Ok, { regs := RegFile.store d.regs reg (data.take len),
                log := d.log ++ [Call.write reg (data.take len)] })
      else (.Error, { regs := d.regs, log := d.log ++ [Call.write reg (data.take len)] }) := by
  cases m <;>
    simp [Amx8x5_WriteBytes, RegDev.handle, stc_amx8x5_handle_t.pfnWriteI2C,
      stc_amx8x5_handle_t.pfnWriteSpi, RegDev.write] <;>
    split <;> simp_all

theorem RegFile_load_8 (m : RegFile) (r : Nat) :
    RegFile.load m r 8 =
      [m r, m (r + 1), m (r + 2), m (r + 3), m (r + 4), m (r + 5), m (r + 6), m (r + 7)] :=
  rfl

/-- A complete `Amx8x5_SetTime` on the register-file device with a transport that always
succeeds: it returns `Ok`, has made exactly the calls `SetTime_calls_on`, the registers
are the initial ones with those writes applied, and the cache holds the input. -/
theorem SetTime_RegDev_ok (m : en_amx8x5_communication_mode_t) (ty addr : Nat)
    (t : stc_amx8x5_time_t) (b : Bool) (regs : RegFile) (l : List Call)
    (cache : stc_amx8x5_time_t) :
    Amx8x5_SetTime (some (RegDev.handle noFault m ty addr)) (some t) b
        { dev := { regs := regs, log := l }, stcSysTime := cache } =
      (.Ok,
        { dev := { regs := RegFile.replay regs (SetTime_calls_on t b regs),
                   log := l ++ SetTime_calls_on t b regs },
          stcSysTime := t }) := by
  by_cases hm : t.u8Mode = 2 <;> by_cases hm1 : t.u8Mode = 1 <;>
    by_cases hc : t.u8Century = 0 <;> cases b <;>
    first
    | omega
    | simp [Amx8x5_SetTime, Amx8x5_ClearRegister, Amx8x5_SetRegister, RegDev_ReadByte,
        RegDev_WriteByte, RegDev_WriteBytes, noFault, consts, masks, hm, hm1, hc,
        RegFile.store, SetTime_buffer, SetTime_calls, SetTime_calls_on, RegFile.replay,
        u8_u8, u8_and, u8_or, u8_dec_to_bcd]

/-- `Amx8x5_GetTime` on the register-file device when its three reads succeed. -/
theorem GetTime_RegDev_ok (fault : Nat → Int) (m : en_amx8x5_communication_mode_t)
    (ty addr : Nat) (pp : Bool) (d : RegDev) (cache : stc_amx8x5_time_t)
    (h0 : fault d.log.length = 0) (h1 : fault (d.log.length + 1) = 0)
    (h2 : fault (d.log.length + 2) = 0) :
    Amx8x5_GetTime (some (RegDev.handle fault m ty addr)) pp
        { dev := d, stcSysTime := cache } =
      (.Ok, (if pp then some (GetTime_record (RegFile.byte d.regs)) else none),
        { dev := { regs := d.regs, log := d.log ++ GetTime_calls },
          stcSysTime := GetTime_record (RegFile.byte d.regs) }) := by
  by_cases hb : u8 (d.regs 16) &&& 64 = 0 <;>
    simp [Amx8x5_GetTime, RegDev_ReadBytes, RegDev_ReadByte, h0, h1, h2, consts,
      RegFile_load_8, GetTime_record, GetTime_calls, RegFile.byte, hb,
      u8_bcd_to_dec_u8, u8_bcd_to_dec_u8_and, u8_u8]

/-! ## The scripted transport -/

theorem Script_ReadByte (sc : Script) (m : en_amx8x5_communication_mode_t)
    (ty addr reg : Nat) (log : List Call) :
    Amx8x5_ReadByte (some (sc.handle m ty addr)) reg true log =
      if sc.status log.length = 0 then
        (.Ok, u8 ((sc.data log.length).headD 0), log ++ [Call.read reg 1])
      else (.Error, 0, log ++ [Call.read reg 1]) := by
  cases m <;>
    simp [Amx8x5_ReadByte, Script.handle, stc_amx8x5_handle_t.pfnReadI2C,
      stc_amx8x5_handle_t.pfnReadSpi, Script.read]

theorem Script_WriteByte (sc : Script) (m : en_amx8x5_communication_mode_t)
    (ty addr reg v : Nat) (log : List Call) :
    Amx8x5_WriteByte (some (sc.handle m ty addr)) reg v log =
      if sc.status log.length = 0 then (.Ok, log ++ [Call.write reg [u8 v]])
      else (.Error, log ++ [Call.write reg [u8 v]]) := by
  cases m <;>
    simp [Amx8x5_WriteByte, Script.handle, stc_amx8x5_handle_t.pfnWriteI2C,
      stc_amx8x5_handle_t.pfnWriteSpi, Script.write]

theorem Script_WriteBytes (sc : Script) (m : en_amx8x5_communication_mode_t)
    (ty addr reg len : Nat) (data : List Nat) (log : List Call) :
    Amx8x5_WriteBytes (some (sc.handle m ty addr)) reg (some data) len log =
      if sc.status log.length = 0 then (.Ok, log ++ [Call.write reg (data.take len)])
      else (.Error, log ++ [Call.write reg (data.take len)]) := by
  cases m <;>
    simp [Amx8x5_WriteBytes, Script.handle, stc_amx8x5_handle_t.pfnWriteI2C,
      stc_amx8x5_handle_t.pfnWriteSpi, Script.write]

/-! ## The cache of `Amx8x5_SetTime` -/

/-- The two ways `Amx8x5_SetTime` can end, for any handle and any transport: `Ok` with the
input in the cache, or an error with the cache untouched. -/
theorem SetTime_result {σ : Type} (pstcHandle : Option (stc_amx8x5_handle_t σ))
    (pstcTime : Option stc_amx8x5_time_t) (bProtect : Bool) (w : World σ) :
    (∃ d t, pstcTime = some t ∧
        Amx8x5_SetTime pstcHandle pstcTime bProtect w = (.Ok, { dev := d, stcSysTime := t })) ∨
    (∃ e d, e ≠ en_result_t.Ok ∧
        Amx8x5_SetTime pstcHandle pstcTime bProtect w =
          (e, { dev := d, stcSysTime := w.stcSysTime })) := by
  unfold Amx8x5_SetTime
  cases pstcHandle with
  | none => exact Or.inr ⟨_, _, by decide, rfl⟩
  | some h =>
    cases pstcTime with
    | none => exact Or.inr ⟨_, _, by decide, rfl⟩
    | some t =>
      simp only []
      generalize (if t.u8Mode = AMX8X5_24HR_MODE then
          Amx8x5_ClearRegister (some h) AMX8X5_REG_CONTROL_1 AMX8X5_REG_CONTROL_1_12_24_MSK w.dev
        else if t.u8Mode = AMX8X5_12HR_MODE then
          Amx8x5_SetRegister (some h) AMX8X5_REG_CONTROL_1 AMX8X5_REG_CONTROL_1_12_24_MSK w.dev
        else
          Amx8x5_SetRegister (some h) AMX8X5_REG_CONTROL_1 AMX8X5_REG_CONTROL_1_12_24_MSK
            w.dev) = r1
      by_cases h1 : r1.1 = .Ok
      swap
      · exact Or.inr ⟨r1.1, r1.2, h1, by simp [h1]⟩
      simp only [h1, ne_eq, not_true_eq_false, if_false]
      generalize Amx8x5_SetRegister (some h) AMX8X5_REG_CONTROL_1
        AMX8X5_REG_CONTROL_1_WRTC_MSK r1.2 = r2
      by_cases h2 : r2.1 = .Ok
      swap
      · exact Or.inr ⟨r2.1, r2.2, h2, by simp [h2]⟩
      simp only [h2, ne_eq, not_true_eq_false, if_false]
      generalize (if t.u8Century = 0 then
          Amx8x5_ClearRegister (some h) AMX8X5_REG_STATUS AMX8X5_REG_STATUS_CB_MSK r2.2
        else
          Amx8x5_SetRegister (some h) AMX8X5_REG_STATUS AMX8X5_REG_STATUS_CB_MSK r2.2) = r3
      by_cases h3 : r3.1 = .Ok
      swap
      · exact Or.inr ⟨r3.1, r3.2, h3, by simp [h3]⟩
      simp only [h3, ne_eq, not_true_eq_false, if_false]
      generalize Amx8x5_WriteBytes (some h) AMX8X5_REG_HUNDREDTHS (some (SetTime_buffer t)) 8
        r3.2 = r4
      by_cases h4 : r4.1 = .Ok
      swap
      · exact Or.inr ⟨r4.1, r4.2, h4, by simp [h4]⟩
      simp only [h4, ne_eq, not_true_eq_false, if_false]
      generalize Amx8x5_ReadByte (some h) AMX8X5_REG_CONTROL_1 true r4.2 = r5
      by_cases h5 : r5.1 = .Ok
      swap
      · exact Or.inr ⟨r5.1, r5.2.2, h5, by simp [h5]⟩
      simp only [h5, ne_eq, not_true_eq_false, if_false]
      generalize Amx8x5_WriteByte (some h) AMX8X5_REG_CONTROL_1
        (if bProtect = false then r5.2.1 &&& 0x7E ||| AMX8X5_REG_CONTROL_1_WRTC_MSK
          else r5.2.1 &&& 0x7E) r5.2.2 = r6
      by_cases h6 : r6.1 = .Ok
      swap
      · exact Or.inr ⟨r6.1, r6.2, h6, by simp [h6]⟩
      simp only [h6, ne_eq, not_true_eq_false, if_false]
      exact Or.inl ⟨r6.2, t, rfl, rfl⟩

/-! ## C1, C2: set time, then get time -/

/-- C1: on the register-file device with a transport that always succeeds, for every time
record `t` with 24-hour mode, hour in 0..23, the other counters in 0..99 and century in
0..1, and either value of `bProtect`, `Amx8x5_SetTime(t)` followed by `Amx8x5_GetTime`
returns `Ok` and a record equal to `t` in every field (so the hour is unchanged and the
mode is 24-hour). -/
theorem SetTime_GetTime_24h (m : en_amx8x5_communication_mode_t) (ty addr : Nat)
    (t : stc_amx8x5_time_t) (bProtect : Bool) (regs : RegFile) (l : List Call)
    (cache : stc_amx8x5_time_t)
    (hmode : t.u8Mode = AMX8X5_24HR_MODE) (hhour : t.u8Hour ≤ 23)
    (hhundredth : t.u8Hundredth ≤ 99) (hsecond : t.u8Second ≤ 99)
    (hminute : t.u8Minute ≤ 99) (hdate : t.u8Date ≤ 99) (hmonth : t.u8Month ≤ 99)
    (hyear : t.u8Year ≤ 99) (hweekday : t.u8Weekday ≤ 99) (hcentury : t.u8Century ≤ 1) :
    (Amx8x5_SetTime (some (RegDev.handle noFault m ty addr)) (some t) bProtect
        { dev := { regs := regs, log := l }, stcSysTime := cache }).1 = .Ok ∧
    (Amx8x5_GetTime (some (RegDev.handle noFault m ty addr)) true
        (Amx8x5_SetTime (some (RegDev.handle noFault m ty addr)) (some t) bProtect
          { dev := { regs := regs, log := l }, stcSysTime := cache }).2).1 = .Ok ∧
    (Amx8x5_GetTime (some (RegDev.handle noFault m ty addr)) true
        (Amx8x5_SetTime (some (RegDev.handle noFault m ty addr)) (some t) bProtect
          { dev := { regs := regs, log := l }, stcSysTime := cache }).2).2.1 = some t := by
  rw [SetTime_RegDev_ok, GetTime_RegDev_ok noFault m ty addr true _ _ rfl rfl rfl]
  refine ⟨rfl, rfl, ?_⟩
  obtain ⟨hu, se, mi, ho, da, wd, mo, ye, ce, md⟩ := t
  simp only [consts] at hmode
  simp only at hhour hhundredth hsecond hminute hdate hmonth hyear hweekday hcentury
  subst hmode
  obtain ⟨c1, c2, -, -⟩ := control_bits_aux (u8 (regs 16)) (u8_lt _)
  obtain ⟨s1, s2⟩ := status_bits_aux (u8 (regs 15)) (u8_lt _)
  have hh := hour24_roundtrip_aux ho (by omega)
  interval_cases ce <;> cases bProtect <;>
    simp [GetTime_record, RegFile.byte, RegFile.replay, SetTime_calls_on, SetTime_calls,
      RegFile.store, u8_u8, u8_and, u8_or, u8_dec_to_bcd, masks, bcd_roundtrip, c1, c2, s1, s2,
      hh, hhundredth, hsecond, hminute, hdate, hmonth, hyear, hweekday]

/-- C1 at 23:59:59.99, century 1, on a register file with all bits set. -/
theorem SetTime_GetTime_24h_witness :
    (Amx8x5_GetTime (some (RegDev.handle noFault .AMx8x5ModeI2C 0x1805 0x69)) true
        (Amx8x5_SetTime (some (RegDev.handle noFault .AMx8x5ModeI2C 0x1805 0x69))
          (some sampleTime24) true
          { dev := { regs := RegFile.allOnes, log := [] }, stcSysTime := sampleCache }).2).2.1
      = some sampleTime24 :=
  (SetTime_GetTime_24h .AMx8x5ModeI2C 0x1805 0x69 sampleTime24 true RegFile.allOnes []
    sampleCache (by decide) (by decide) (by decide) (by decide) (by decide) (by decide)
    (by decide) (by decide) (by decide) (by decide)).2.2

/-- C2: on the register-file device with a transport that always succeeds, for every time
record `t` with 12-hour PM mode (`AMX8X5_12HR_MODE`) and hour in 1..12, `Amx8x5_SetTime(t)`
returns `Ok`, leaves in register 0x03 an hour byte with the AM/PM bit 0x20 set and in
CONTROL_1 (0x10) the 12/24 bit 0x40 set, and a following `Amx8x5_GetTime` returns `Ok` and
a record with mode PM (1) and the same hour. -/
theorem SetTime_GetTime_12h_PM (m : en_amx8x5_communication_mode_t) (ty addr : Nat)
    (t : stc_amx8x5_time_t) (bProtect : Bool) (regs : RegFile) (l : List Call)
    (cache : stc_amx8x5_time_t)
    (hmode : t.u8Mode = AMX8X5_12HR_MODE) (hlo : 1 ≤ t.u8Hour) (hhi : t.u8Hour ≤ 12) :
    (Amx8x5_SetTime (some (RegDev.handle noFault m ty addr)) (some t) bProtect
        { dev := { regs := regs, log := l }, stcSysTime := cache }).1 = .Ok ∧
    RegFile.byte (Amx8x5_SetTime (some (RegDev.handle noFault m ty addr)) (some t) bProtect
        { dev := { regs := regs, log := l }, stcSysTime := cache }).2.dev.regs 0x03 &&& 0x20
      = 0x20 ∧
    RegFile.byte (Amx8x5_SetTime (some (RegDev.handle noFault m ty addr)) (some t) bProtect
        { dev := { regs := regs, log := l }, stcSysTime := cache }).2.dev.regs 0x10 &&& 0x40
      = 0x40 ∧
    (Amx8x5_GetTime (some (RegDev.handle noFault m ty addr)) true
        (Amx8x5_SetTime (some (RegDev.handle noFault m ty addr)) (some t) bProtect
          { dev := { regs := regs, log := l }, stcSysTime := cache }).2).1 = .Ok ∧
    ∃ r, (Amx8x5_GetTime (some (RegDev.handle noFault m ty addr)) true
        (Amx8x5_SetTime (some (RegDev.handle noFault m ty addr)) (some t) bProtect
          { dev := { regs := regs, log := l }, stcSysTime := cache }).2).2.1 = some r ∧
      r.u8Mode = 1 ∧ r.u8Hour = t.u8Hour := by
  rw [SetTime_RegDev_ok, GetTime_RegDev_ok noFault m ty addr true _ _ rfl rfl rfl]
  obtain ⟨hu, se, mi, ho, da, wd, mo, ye, ce, md⟩ := t
  simp only [consts] at hmode hlo hhi
  subst hmode
  obtain ⟨-, -, c3, c4⟩ := control_bits_aux (u8 (regs 16)) (u8_lt _)
  obtain ⟨h1, h2⟩ := hour12_pm_aux ho (by omega) hlo
  cases bProtect <;>
    simp [GetTime_record, RegFile.byte, RegFile.replay, SetTime_calls_on, SetTime_calls,
      RegFile.store, u8_u8, u8_and, u8_or, u8_dec_to_bcd, masks, c3, c4, h1, h2]

/-- C2 at 12:34:56.78 PM on a cleared register file: the hour byte left in register 0x03
has the AM/PM bit set. -/
theorem SetTime_GetTime_12h_PM_witness :
    RegFile.byte (Amx8x5_SetTime (some (RegDev.handle noFault .AMx8x5ModeSPI 0x1815 0))
        (some sampleTimePM) false
        { dev := { regs := RegFile.zero, log := [] }, stcSysTime := sampleCache }).2.dev.regs
        0x03 &&& 0x20 = 0x20 :=
  (SetTime_GetTime_12h_PM .AMx8x5ModeSPI 0x1815 0 sampleTimePM false RegFile.zero []
    sampleCache (by decide) (by decide) (by decide)).2.1

/-! ## C3, C4: BCD conversion -/

/-- C3: for every byte `x` whose two nibbles are both at most 9 (a valid BCD byte),
`AMX8X5_DEC_TO_BCD(AMX8X5_BCD_TO_DEC(x)) == x`. -/
theorem dec_to_bcd_of_bcd_to_dec (x : Nat) (hx : x < 256) (hhi : x / 16 ≤ 9)
    (hlo : x % 16 ≤ 9) : AMX8X5_DEC_TO_BCD (AMX8X5_BCD_TO_DEC x) = x := by
  have key : ∀ y < 256, y / 16 ≤ 9 → y % 16 ≤ 9 →
      AMX8X5_DEC_TO_BCD (AMX8X5_BCD_TO_DEC y) = y := by
    set_option maxRecDepth 100000 in decide
  exact key x hx hhi hlo

/-- C3 at the byte 0x59. -/
theorem dec_to_bcd_of_bcd_to_dec_witness :
    (0x59 < 256 ∧ 0x59 / 16 ≤ 9 ∧ 0x59 % 16 ≤ 9) ∧
      AMX8X5_DEC_TO_BCD (AMX8X5_BCD_TO_DEC 0x59) = 0x59 :=
  ⟨by decide, dec_to_bcd_of_bcd_to_dec 0x59 (by decide) (by decide) (by decide)⟩

/-- C4: for every integer `n` in 0..99, `AMX8X5_BCD_TO_DEC(AMX8X5_DEC_TO_BCD(n)) == n`. -/
theorem bcd_to_dec_of_dec_to_bcd (n : Nat) (hn : n ≤ 99) :
    AMX8X5_BCD_TO_DEC (AMX8X5_DEC_TO_BCD n) = n :=
  bcd_roundtrip hn

/-- C4 at 99. -/
theorem bcd_to_dec_of_dec_to_bcd_witness :
    99 ≤ 99 ∧ AMX8X5_BCD_TO_DEC (AMX8X5_DEC_TO_BCD 99) = 99 :=
  ⟨by decide, bcd_to_dec_of_dec_to_bcd 99 (by decide)⟩

/-! ## C5: what `Amx8x5_GetTime` returns -/

/-- C5: when its three reads succeed, `Amx8x5_GetTime` returns `Ok` and the record
`GetTime_record` of the device registers: hundredth, second, minute, date, month, year,
weekday are the BCD decodings of registers 0x00, 0x01, 0x02, 0x04, 0x05, 0x06, 0x07; if
bit 0x40 of CONTROL_1 (0x10) is clear the mode is 2 and the hour decodes `reg[3] & 0x3F`,
otherwise the mode is 1 or 0 as bit 0x20 of the raw hour byte is set or not and the hour
decodes `reg[3] & 0x1F`; the century is 1 or 0 as bit 0x80 of STATUS (0x0F) is set or not.
The same record is in the cache, and the reads are the only calls made. -/
theorem GetTime_decodes_registers (fault : Nat → Int) (m : en_amx8x5_communication_mode_t)
    (ty addr : Nat) (ppstcTime : Bool) (d : RegDev) (cache : stc_amx8x5_time_t)
    (h0 : fault d.log.length = 0) (h1 : fault (d.log.length + 1) = 0)
    (h2 : fault (d.log.length + 2) = 0) :
    Amx8x5_GetTime (some (RegDev.handle fault m ty addr)) ppstcTime
        { dev := d, stcSysTime := cache } =
      (.Ok, (if ppstcTime then some (GetTime_record (RegFile.byte d.regs)) else none),
        { dev := { regs := d.regs, log := d.log ++ GetTime_calls },
          stcSysTime := GetTime_record (RegFile.byte d.regs) }) :=
  GetTime_RegDev_ok fault m ty addr ppstcTime d cache h0 h1 h2

/-- C5 on the sample registers (12-hour mode off, 07:56:34.12 on 08.09.10, weekday 2). -/
theorem GetTime_decodes_registers_witness :
    Amx8x5_GetTime (some (RegDev.handle noFault .AMx8x5ModeI2C 0x1805 0x69)) true
        { dev := { regs := sampleRegs, log := [] }, stcSysTime := sampleCache } =
      (.Ok, (if true then some (GetTime_record (RegFile.byte sampleRegs)) else none),
        { dev := { regs := sampleRegs, log := [] ++ GetTime_calls },
          stcSysTime := GetTime_record (RegFile.byte sampleRegs) }) ∧
    GetTime_record (RegFile.byte sampleRegs) =
      { u8Hundredth := 12, u8Second := 34, u8Minute := 56, u8Hour := 7, u8Date := 8,
        u8Weekday := 2, u8Month := 9, u8Year := 10, u8Century := 0, u8Mode := 2 } :=
  ⟨GetTime_decodes_registers noFault .AMx8x5ModeI2C 0x1805 0x69 true
      { regs := sampleRegs, log := [] } sampleCache rfl rfl rfl, by decide⟩

/-! ## C6, C7: the calls of `Amx8x5_SetTime` -/

/-- C6: when every transport call succeeds (any transport: the scripted one, whose reads
deliver arbitrary bytes), `Amx8x5_SetTime` returns `Ok` and the calls it makes are exactly
`SetTime_calls`, in this order: read CONTROL_1 (0x10) and write it back with bit 0x40
cleared (24-hour) or set (12-hour); read CONTROL_1 and write it back with WRTC (0x01) set;
read STATUS (0x0F) and write it back with bit 0x80 cleared or set according to
`u8Century`; one 8-byte write at 0x00 of the BCD hundredth, second, minute, hour (with
0x20 OR-ed in for 12-hour PM), date, month, year, weekday; one read and one write of
CONTROL_1. None of the first four calls writes a counter register 0x00..0x07, and the
fourth call is the write that sets WRTC. -/
theorem SetTime_trace (sc : Script) (m : en_amx8x5_communication_mode_t) (ty addr : Nat)
    (t : stc_amx8x5_time_t) (bProtect : Bool) (cache : stc_amx8x5_time_t)
    (hok : ∀ n < 9, sc.status n = 0) :
    Amx8x5_SetTime (some (sc.handle m ty addr)) (some t) bProtect
        { dev := [], stcSysTime := cache } =
      (.Ok,
        { dev := SetTime_calls t bProtect (sc.byte 0) (sc.byte 2) (sc.byte 4) (sc.byte 7),
          stcSysTime := t }) ∧
    (∀ c ∈ (SetTime_calls t bProtect (sc.byte 0) (sc.byte 2) (sc.byte 4) (sc.byte 7)).take 4,
      ∀ a < 8, c.writes a = false) ∧
    (SetTime_calls t bProtect (sc.byte 0) (sc.byte 2) (sc.byte 4) (sc.byte 7)).get? 3
      = some (Call.write 0x10 [sc.byte 2 ||| 0x01]) ∧
    (sc.byte 2 ||| 0x01) &&& 0x01 = 0x01 := by
  have h0 := hok 0 (by norm_num)
  have h1 := hok 1 (by norm_num)
  have h2 := hok 2 (by norm_num)
  have h3 := hok 3 (by norm_num)
  have h4 := hok 4 (by norm_num)
  have h5 := hok 5 (by norm_num)
  have h6 := hok 6 (by norm_num)
  have h7 := hok 7 (by norm_num)
  have h8 := hok 8 (by norm_num)
  refine ⟨?_, ?_, ?_, (wrtc_bits_aux _ (u8_lt _)).2.2⟩
  · by_cases hm : t.u8Mode = 2 <;> by_cases hm1 : t.u8Mode = 1 <;>
      by_cases hc : t.u8Century = 0 <;> cases bProtect <;>
      first
      | omega
      | simp [Amx8x5_SetTime, Amx8x5_ClearRegister, Amx8x5_SetRegister, Script_ReadByte,
          Script_WriteByte, Script_WriteBytes, consts, masks, hm, hm1, hc,
          SetTime_buffer, SetTime_calls, Script.byte, h0, h1, h2, h3, h4, h5, h6, h7, h8,
          u8_u8, u8_and, u8_or, u8_dec_to_bcd]
  · simp only [SetTime_calls, List.take, List.mem_cons, List.mem_nil_iff, or_false]
    rintro c (rfl | rfl | rfl | rfl) a ha <;> simp [Call.writes] <;> omega
  · simp [SetTime_calls]

/-- C6 on a transport whose reads all deliver 0xFF: the calls for the 12-hour PM sample,
leaving the counters writable. -/
theorem SetTime_trace_witness :
    (Amx8x5_SetTime (some (Script.allOk.handle .AMx8x5ModeI2C 0x1805 0x69))
        (some sampleTimePM) false { dev := [], stcSysTime := sampleCache }).2.dev =
      [ Call.read 0x10 1, Call.write 0x10 [0xFF],
        Call.read 0x10 1, Call.write 0x10 [0xFF],
        Call.read 0x0F 1, Call.write 0x0F [0x7F],
        Call.write 0x00 [0x78, 0x56, 0x34, 0x32, 0x15, 0x06, 0x24, 0x03],
        Call.read 0x10 1, Call.write 0x10 [0x7F] ] := by
  rw [(SetTime_trace Script.allOk .AMx8x5ModeI2C 0x1805 0x69 sampleTimePM false sampleCache
    (fun _ _ => rfl)).1]
  decide

/-- C7: on the register-file device with a transport that always succeeds,
`Amx8x5_SetTime` returns `Ok` and leaves the WRTC bit (bit 0) of CONTROL_1 (0x10) at 0
when `bProtect` is true and at 1 when it is false. -/
theorem SetTime_WRTC (m : en_amx8x5_communication_mode_t) (ty addr : Nat)
    (t : stc_amx8x5_time_t) (bProtect : Bool) (regs : RegFile) (l : List Call)
    (cache : stc_amx8x5_time_t) :
    (Amx8x5_SetTime (some (RegDev.handle noFault m ty addr)) (some t) bProtect
        { dev := { regs := regs, log := l }, stcSysTime := cache }).1 = .Ok ∧
    RegFile.byte (Amx8x5_SetTime (some (RegDev.handle noFault m ty addr)) (some t) bProtect
        { dev := { regs := regs, log := l }, stcSysTime := cache }).2.dev.regs 0x10 &&& 0x01
      = (if bProtect = true then 0 else 1) := by
  rw [SetTime_RegDev_ok]
  have hc : ∀ c, c < 256 → c ||| 1 < 256 := fun c h => or_lt_256 h (by norm_num)
  have k1 := wrtc_bits_aux _ (hc _ (and_lt_256 191 (u8_lt (regs 16))))
  have k2 := wrtc_bits_aux _ (hc _ (or_lt_256 (u8_lt (regs 16)) (show 64 < 256 by norm_num)))
  by_cases hm : t.u8Mode = 2 <;> cases bProtect <;>
    simp [RegFile.byte, RegFile.replay, SetTime_calls_on, SetTime_calls,
      RegFile.store, u8_u8, u8_and, u8_or, masks, hm, k1, k2]

/-! ## C8: a failing transport call in `Amx8x5_SetTime` -/

/-- C8: on the register-file device, for every `k` in 0..8 (the calls counted from 0), if
call `k` of `Amx8x5_SetTime` is the first one that reports failure, then `Amx8x5_SetTime`
returns `Error` (the code of the failing sub-step), the calls made are exactly the first
`k + 1` calls of the complete sequence (none after the failing one), the registers are
the initial ones with the writes among the first `k` calls applied (nothing is rolled
back), and the cache is unchanged. -/
theorem SetTime_first_failure (fault : Nat → Int) (m : en_amx8x5_communication_mode_t)
    (ty addr : Nat) (t : stc_amx8x5_time_t) (bProtect : Bool) (regs : RegFile)
    (cache : stc_amx8x5_time_t) (k : Nat) (hk : k < 9)
    (hprev : ∀ j < k, fault j = 0) (hfail : fault k ≠ 0) :
    Amx8x5_SetTime (some (RegDev.handle fault m ty addr)) (some t) bProtect
        { dev := { regs := regs, log := [] }, stcSysTime := cache } =
      (.Error,
        { dev := { regs := RegFile.replay regs ((SetTime_calls_on t bProtect regs).take k),
                   log := (SetTime_calls_on t bProtect regs).take (k + 1) },
          stcSysTime := cache }) := by
  interval_cases k <;> simp only [Nat.forall_lt_succ, Nat.not_lt_zero, false_imp_iff,
      implies_true, true_and] at hprev <;>
    by_cases hm : t.u8Mode = 2 <;> by_cases hm1 : t.u8Mode = 1 <;>
    by_cases hc : t.u8Century = 0 <;> cases bProtect <;>
    first
    | omega
    | simp [Amx8x5_SetTime, Amx8x5_ClearRegister, Amx8x5_SetRegister, RegDev_ReadByte,
        RegDev_WriteByte, RegDev_WriteBytes, consts, masks, hm, hm1, hc, hprev, hfail,
        RegFile.store, SetTime_buffer, SetTime_calls, SetTime_calls_on, RegFile.replay,
        u8_u8, u8_and, u8_or, u8_dec_to_bcd]

/-- C8 when the burst write of the counters (call 6) fails, on a register file with all
bits set: `Error`, seven calls, CONTROL_1 and STATUS keep the values written before,
the counters keep their old content. -/
theorem SetTime_first_failure_witness :
    Amx8x5_SetTime (some (RegDev.handle (faultAt 6) .AMx8x5ModeI2C 0x1805 0x69))
        (some sampleTime24) true
        { dev := { regs := RegFile.allOnes, log := [] }, stcSysTime := sampleCache } =
      (.Error,
        { dev := { regs := RegFile.replay RegFile.allOnes
                     ((SetTime_calls_on sampleTime24 true RegFile.allOnes).take 6),
                   log := (SetTime_calls_on sampleTime24 true RegFile.allOnes).take (6 + 1) },
          stcSysTime := sampleCache }) ∧
    (SetTime_calls_on sampleTime24 true RegFile.allOnes).take (6 + 1) =
      [ Call.read 0x10 1, Call.write 0x10 [0xBF],
        Call.read 0x10 1, Call.write 0x10 [0xBF],
        Call.read 0x0F 1, Call.write 0x0F [0xFF],
        Call.write 0x00 [0x99, 0x59, 0x59, 0x23, 0x31, 0x12, 0x99, 0x06] ] ∧
    RegFile.replay RegFile.allOnes
        ((SetTime_calls_on sampleTime24 true RegFile.allOnes).take 6) 0x10 = 0xBF ∧
    RegFile.replay RegFile.allOnes
        ((SetTime_calls_on sampleTime24 true RegFile.allOnes).take 6) 0x03 = 0xFF :=
  ⟨SetTime_first_failure (faultAt 6) .AMx8x5ModeI2C 0x1805 0x69 sampleTime24 true
      RegFile.allOnes sampleCache 6 (by decide) (by decide) (by decide),
    by decide, by decide, by decide⟩

/-! ## C9, C10: the cached time record -/

/-- C9 (as stated, refuted): on the sample registers, when the second read of
`Amx8x5_GetTime` (CONTROL_1) fails, `Amx8x5_GetTime` returns `Error` and the cache is no
longer what it was: it holds the seven decoded counters and the raw hour byte. -/
theorem GetTime_error_changes_cache :
    (Amx8x5_GetTime (some (RegDev.handle (faultAt 1) .AMx8x5ModeI2C 0x1805 0x69)) true
        { dev := { regs := sampleRegs, log := [] }, stcSysTime := sampleCache }).1 = .Error ∧
    (Amx8x5_GetTime (some (RegDev.handle (faultAt 1) .AMx8x5ModeI2C 0x1805 0x69)) true
        { dev := { regs := sampleRegs, log := [] }, stcSysTime := sampleCache }).2.2.stcSysTime
      = { u8Hundredth := 12, u8Second := 34, u8Minute := 56, u8Hour := 7, u8Date := 8,
          u8Weekday := 2, u8Month := 9, u8Year := 10, u8Century := 0, u8Mode := 0 } ∧
    (Amx8x5_GetTime (some (RegDev.handle (faultAt 1) .AMx8x5ModeI2C 0x1805 0x69)) true
        { dev := { regs := sampleRegs, log := [] }, stcSysTime := sampleCache }).2.2.stcSysTime
      ≠ sampleCache := by
  decide

/-- C9 (amended): when `Amx8x5_GetTime` fails because the handle is absent or because the
8-byte counter read fails, the cache is left exactly as it was. When the CONTROL_1 read
fails, the cache already holds the decoded hundredth, second, minute, date, month, year
and weekday and the raw hour byte, with mode and century as before; when the STATUS read
fails, every field but the century has been updated from the registers. In each case the
result is the error of the failing step and no out-record is returned. -/
theorem GetTime_error_cache (fault : Nat → Int) (m : en_amx8x5_communication_mode_t)
    (ty addr : Nat) (ppstcTime : Bool) (d : RegDev) (cache : stc_amx8x5_time_t) :
    Amx8x5_GetTime (none : Option (stc_amx8x5_handle_t RegDev)) ppstcTime
        { dev := d, stcSysTime := cache } =
      (.ErrorUninitialized, none, { dev := d, stcSysTime := cache }) ∧
    (fault d.log.length ≠ 0 →
      Amx8x5_GetTime (some (RegDev.handle fault m ty addr)) ppstcTime
          { dev := d, stcSysTime := cache } =
        (.Error, none,
          { dev := { regs := d.regs, log := d.log ++ GetTime_calls.take 1 },
            stcSysTime := cache })) ∧
    (fault d.log.length = 0 → fault (d.log.length + 1) ≠ 0 →
      Amx8x5_GetTime (some (RegDev.handle fault m ty addr)) ppstcTime
          { dev := d, stcSysTime := cache } =
        (.Error, none,
          { dev := { regs := d.regs, log := d.log ++ GetTime_calls.take 2 },
            stcSysTime :=
              { u8Hundredth := AMX8X5_BCD_TO_DEC (RegFile.byte d.regs 0x00)
                u8Second := AMX8X5_BCD_TO_DEC (RegFile.byte d.regs 0x01)
                u8Minute := AMX8X5_BCD_TO_DEC (RegFile.byte d.regs 0x02)
                u8Hour := RegFile.byte d.regs 0x03
                u8Date := AMX8X5_BCD_TO_DEC (RegFile.byte d.regs 0x04)
                u8Month := AMX8X5_BCD_TO_DEC (RegFile.byte d.regs 0x05)
                u8Year := AMX8X5_BCD_TO_DEC (RegFile.byte d.regs 0x06)
                u8Weekday := AMX8X5_BCD_TO_DEC (RegFile.byte d.regs 0x07)
                u8Century := cache.u8Century
                u8Mode := cache.u8Mode } })) ∧
    (fault d.log.length = 0 → fault (d.log.length + 1) = 0 → fault (d.log.length + 2) ≠ 0 →
      Amx8x5_GetTime (some (RegDev.handle fault m ty addr)) ppstcTime
          { dev := d, stcSysTime := cache } =
        (.Error, none,
          { dev := { regs := d.regs, log := d.log ++ GetTime_calls },
            stcSysTime :=
              { GetTime_record (RegFile.byte d.regs) with u8Century := cache.u8Century } })) := by
  refine ⟨rfl, ?_, ?_, ?_⟩
  · intro h0
    simp [Amx8x5_GetTime, RegDev_ReadBytes, h0, consts, GetTime_calls]
  · intro h0 h1
    simp [Amx8x5_GetTime, RegDev_ReadBytes, RegDev_ReadByte, h0, h1, consts,
      RegFile_load_8, GetTime_calls, RegFile.byte, u8_bcd_to_dec_u8]
  · intro h0 h1 h2
    by_cases hb : u8 (d.regs 16) &&& 64 = 0 <;>
      simp [Amx8x5_GetTime, RegDev_ReadBytes, RegDev_ReadByte, h0, h1, h2, consts,
        RegFile_load_8, GetTime_record, GetTime_calls, RegFile.byte, hb,
        u8_bcd_to_dec_u8, u8_bcd_to_dec_u8_and, u8_u8]

/-- C9 (amended) when the first read fails on the sample registers: the cache is the one
from before the call. -/
theorem GetTime_error_cache_witness :
    Amx8x5_GetTime (some (RegDev.handle (faultAt 0) .AMx8x5ModeI2C 0x1805 0x69)) true
        { dev := { regs := sampleRegs, log := [] }, stcSysTime := sampleCache } =
      (.Error, none,
        { dev := { regs := sampleRegs, log := [] ++ GetTime_calls.take 1 },
          stcSysTime := sampleCache }) :=
  (GetTime_error_cache (faultAt 0) .AMx8x5ModeI2C 0x1805 0x69 true
    { regs := sampleRegs, log := [] } sampleCache).2.1 (by decide)

/-- C10: for every handle (present or not), every time pointer (present or not) and every
transport, `Amx8x5_SetTime` overwrites the cached record `stcSysTime` exactly when it
returns `Ok`: when the result is `Ok` the time pointer was present and the cache equals
the input record; on every other result the cache is what it was before the call. -/
theorem SetTime_cache {σ : Type} (pstcHandle : Option (stc_amx8x5_handle_t σ))
    (pstcTime : Option stc_amx8x5_time_t) (bProtect : Bool) (w : World σ) :
    ((Amx8x5_SetTime pstcHandle pstcTime bProtect w).1 = .Ok →
      pstcTime = some (Amx8x5_SetTime pstcHandle pstcTime bProtect w).2.stcSysTime) ∧
    ((Amx8x5_SetTime pstcHandle pstcTime bProtect w).1 ≠ .Ok →
      (Amx8x5_SetTime pstcHandle pstcTime bProtect w).2.stcSysTime = w.stcSysTime) := by
  rcases SetTime_result pstcHandle pstcTime bProtect w with ⟨d, t, ht, h⟩ | ⟨e, d, he, h⟩
  · rw [h]; simp [ht]
  · rw [h]; simp [he]

/-- C10 on the register-file device: a successful call puts the input in the cache, a
call whose last write fails leaves the cache as it was. -/
theorem SetTime_cache_witness :
    some sampleTime24 =
      some (Amx8x5_SetTime (some (RegDev.handle noFault .AMx8x5ModeI2C 0x1805 0x69))
        (some sampleTime24) true
        { dev := { regs := RegFile.zero, log := [] }, stcSysTime := sampleCache }).2.stcSysTime ∧
    (Amx8x5_SetTime (some (RegDev.handle (faultAt 8) .AMx8x5ModeI2C 0x1805 0x69))
        (some sampleTime24) true
        { dev := { regs := RegFile.zero, log := [] }, stcSysTime := sampleCache }).2.stcSysTime
      = sampleCache :=
  ⟨(SetTime_cache (some (RegDev.handle noFault .AMx8x5ModeI2C 0x1805 0x69))
      (some sampleTime24) true
      { dev := { regs := RegFile.zero, log := [] }, stcSysTime := sampleCache }).1 (by decide),
   (SetTime_cache (some (RegDev.handle (faultAt 8) .AMx8x5ModeI2C 0x1805 0x69))
      (some sampleTime24) true
      { dev := { regs := RegFile.zero, log := [] }, stcSysTime := sampleCache }).2 (by decide)⟩

/-! ## Constants, selectors and bytes of the alarm and calibration code -/

theorem consts2 : AMX8X5_REG_ALARM_HUNDRS = 8 ∧ AMX8X5_REG_CONTROL_2 = 17
    ∧ AMX8X5_REG_CONTROL_2_OUT2S_POS = 2 ∧ AMX8X5_REG_CONTROL_2_OUT2S_MSK = 28
    ∧ AMX8X5_REG_CONTROL_2_OUT1S_POS = 0 ∧ AMX8X5_REG_CONTROL_2_OUT1S_MSK = 3
    ∧ AMX8X5_REG_INT_MASK = 18 ∧ AMX8X5_REG_INT_MASK_IM_POS = 5
    ∧ AMX8X5_REG_INT_MASK_IM_MSK = 96 ∧ AMX8X5_REG_INT_MASK_AIE_MSK = 4
    ∧ AMX8X5_REG_CAL_XT = 20 ∧ AMX8X5_REG_CAL_RC_HI = 21 ∧ AMX8X5_REG_CAL_RC_LOW = 22
    ∧ AMX8X5_REG_TIMER_CTRL = 24 ∧ AMX8X5_REG_TIMER_CTRL_RPT_POS = 2
    ∧ AMX8X5_REG_OSC_STATUS = 29 := by
  decide

theorem enums : AMx8x5ModeCalibrateXT = 0 ∧ AMx8x5ModeCalibrateRC = 1
    ∧ AMx8x5AlarmDisabled = 0 ∧ AMx8x5AlarmYear = 1 ∧ AMx8x5AlarmMonth = 2
    ∧ AMx8x5AlarmWeek = 3 ∧ AMx8x5AlarmDay = 4 ∧ AMx8x5AlarmHour = 5
    ∧ AMx8x5AlarmMinute = 6 ∧ AMx8x5AlarmSecond = 7 ∧ AMx8x5Alarm10thSecond = 8
    ∧ AMx8x5Alarm100thSecond = 9 ∧ AMx8x5InterruptModeLevel = 0
    ∧ AMx8x5InterruptModePulseShort = 1 ∧ AMx8x5InterruptModePulseMedium = 2
    ∧ AMx8x5InterruptModePulseLong = 3 ∧ AMx8x5InterruptPinInternal = 0
    ∧ AMx8x5InterruptIrq = 1 ∧ AMx8x5InterruptIrq2 = 2
    ∧ AMx8x5Out1nIRQAtIrqElseOut = 0 ∧ AMx8x5Out1SwqIfSqweElseOut = 1
    ∧ AMx8x5Out1SwqIfSqweElsenIRQAtIrqElseOut = 2 ∧ AMx8x5Out1nAIRQIfAieElseOut = 3
    ∧ AMx8x5Out2nIRQAtIrqElseOutB = 0 ∧ AMx8x5Out2SwqIfSqweElseOutB = 1
    ∧ AMx8x5Out2nAIRQIfAieElseOutB = 3 ∧ AMx8x5Out2TIRQIfTieElseOutB = 4
    ∧ AMx8x5Out2nTIRQIfTieElseOutB = 5 ∧ AMx8x5Out2Sleep = 6 ∧ AMx8x5Out2OutB = 7 := by
  decide

theorem masks2 : 255 ^^^ u8 28 = 227 ∧ 255 ^^^ u8 100 = 155 ∧ 255 ^^^ u8 4 = 251
    ∧ 255 ^^^ u8 3 = 252 ∧ 255 ^^^ u8 96 = 159 ∧ u8 96 = 96 ∧ u8 4 = 4 ∧ u8 3 = 3
    ∧ u8 12 = 12 ∧ u8 227 = 227 ∧ u8 155 = 155 ∧ u8 251 = 251 ∧ u8 252 = 252
    ∧ u8 159 = 159 ∧ u8 240 = 240 ∧ u8 255 = 255 ∧ u8 0 = 0 ∧ u8 63 = 63 := by
  decide

/-- Either the first `n` calls all succeed, or there is a first failing call among them. -/
theorem first_fault (fault : Nat → Int) (n : Nat) :
    (∀ j < n, fault j = 0) ∨ ∃ k < n, (∀ j < k, fault j = 0) ∧ fault k ≠ 0 := by
  induction n with
  | zero => exact Or.inl (fun j hj => absurd hj (Nat.not_lt_zero j))
  | succ n ih =>
    rcases ih with h | ⟨k, hk, h1, h2⟩
    · by_cases hn : fault n = 0
      · refine Or.inl (fun j hj => ?_)
        rcases Nat.lt_succ_iff_lt_or_eq.mp hj with h' | h'
        · exact h j h'
        · rw [h']; exact hn
      · exact Or.inr ⟨n, Nat.lt_succ_self n, h, hn⟩
    · exact Or.inr ⟨k, Nat.lt_succ_of_lt hk, h1, h2⟩

theorem Call.writes_of_avoids (c : Call) (lo hi : Nat) (h : c.avoids lo hi = true) :
    ∀ a, lo ≤ a → a ≤ hi → c.writes a = false := by
  intro a h1 h2
  cases c with
  | read r l => rfl
  | write reg data =>
    simp only [Call.avoids, decide_eq_true_eq] at h
    simp only [Call.writes, decide_eq_false_iff_not]
    omega

theorem clear_bits_testBit (v mask i : Nat) (hv : v < 256) :
    (v &&& (0xFF ^^^ mask)).testBit i = (v.testBit i && !mask.testBit i) := by
  have h255 : (0xFF : Nat) = 2 ^ 8 - 1 := by norm_num
  rw [Nat.testBit_and, Nat.testBit_xor, h255, Nat.testBit_two_pow_sub_one]
  by_cases hi : i < 8
  · simp [hi]
  · have : v.testBit i = false := by
      apply Nat.testBit_lt_two_pow
      calc v < 2 ^ 8 := by simpa using hv
        _ ≤ 2 ^ i := Nat.pow_le_pow_right (by norm_num) (by omega)
    simp [this]

set_option maxRecDepth 100000 in
theorem int_mask_bits_aux : ∀ c < 256,
    (c &&& 155) &&& 4 = 0 ∧ (c &&& 155 ||| 96) &&& 4 = 0 ∧ (c &&& 155 ||| 96) >>> 5 &&& 3 = 3
    ∧ (c &&& 155 &&& 159) &&& 4 = 0 := by
  decide

set_option maxRecDepth 100000 in
theorem rpt_field_aux : ∀ c < 256, ∀ r < 8,
    ((c &&& 227 ||| r <<< 2) >>> 2) &&& 7 = r := by
  decide

set_option maxRecDepth 100000 in
theorem im_field_aux : ∀ c < 256, ∀ i < 4,
    ((c &&& 155 &&& 159 ||| i <<< 5 ||| 4) >>> 5) &&& 3 = i ∧
    (c &&& 155 &&& 159 ||| i <<< 5 ||| 4) &&& 4 = 4 := by
  decide

set_option maxRecDepth 100000 in
theorem alm_flag_aux : ∀ c < 256, (c &&& 251) &&& 4 = 0 := by
  decide

set_option maxRecDepth 100000 in
theorem tenths_nibble_aux : ∀ c < 256, (c ||| 240) >>> 4 = 15 := by decide

set_option maxRecDepth 100000 in
theorem xtcal_field_aux : ∀ v < 256, ∀ x < 4,
    ((v &&& 63 ||| x <<< 6) >>> 6) &&& 3 = x ∧ (v &&& 63 ||| x <<< 6) &&& 63 = v &&& 63
    ∧ v &&& 63 ||| x <<< 6 < 256 := by
  decide

theorem u8_shift_irq {irq : Nat} (h3 : irq ≤ 3) : u8 (irq <<< 5) = irq <<< 5 := by
  interval_cases irq <;> decide

theorem u8_shift_rpt {rpt : Nat} (h7 : rpt ≤ 7) : u8 (rpt <<< 2) = rpt <<< 2 := by
  interval_cases rpt <;> decide

theorem RegFile_load_7 (m : RegFile) (r : Nat) :
    RegFile.load m r 7 =
      [m r, m (r + 1), m (r + 2), m (r + 3), m (r + 4), m (r + 5), m (r + 6)] :=
  rfl

/-! ## `Amx8x5_SetAlarm` on the register-file device -/

theorem SetAlarm_irq_eq {σ : Type} (h : Option (stc_amx8x5_handle_t σ)) (irq : Nat) (s : σ)
    (h1 : 1 ≤ irq) (h3 : irq ≤ 3) :
    SetAlarm_irq h irq s = Amx8x5_SetRegister h 0x12 (irq <<< 5) s := by
  interval_cases irq <;> simp [SetAlarm_irq, enums, consts2]

theorem SetAlarm_rpt_eq {σ : Type} (h : Option (stc_amx8x5_handle_t σ)) (rpt : Nat) (s : σ)
    (h1 : 1 ≤ rpt) (h7 : rpt ≤ 7) :
    SetAlarm_rpt h rpt s = Amx8x5_SetRegister h 0x18 (rpt <<< 2) s := by
  interval_cases rpt <;> simp [SetAlarm_rpt, enums, consts2]

/-- On the register-file device, whatever calls fail, the calls `Amx8x5_SetAlarm` makes
with repeat = disabled are an initial part of `SetAlarm_disabled_calls`. -/
theorem SetAlarm_disabled_log (fault : Nat → Int) (m : en_amx8x5_communication_mode_t)
    (ty addr : Nat) (t : stc_amx8x5_time_t) (irq pin : Nat) (regs : RegFile)
    (hpin : pin = 1 ∨ pin = 2) :
    ∃ n, (Amx8x5_SetAlarm (some (RegDev.handle fault m ty addr)) (some t)
        AMx8x5AlarmDisabled irq pin { regs := regs, log := [] }).2.log =
      (SetAlarm_disabled_calls pin regs).take n := by
  rcases first_fault fault 13 with hall | ⟨k, hk, hprev, hfail⟩
  · refine ⟨13, ?_⟩
    simp only [Nat.forall_lt_succ, Nat.not_lt_zero, false_imp_iff, implies_true,
      true_and] at hall
    rcases hpin with rfl | rfl
    · by_cases hc : u8 (regs 17) &&& 3 = 0 <;>
        simp [Amx8x5_SetAlarm, SetAlarm_pin, Amx8x5_SetOut1Mode, Amx8x5_ClearRegister,
          Amx8x5_SetRegister, RegDev_ReadByte, RegDev_WriteByte, consts, consts2, enums, masks,
          masks2, hall, hc, RegFile.store, SetAlarm_disabled_calls, SetAlarm_clear_calls,
          SetAlarm_pin_calls, u8_u8, u8_and, u8_or]
    · by_cases hc : u8 (regs 17) &&& 28 = 0 <;>
        simp [Amx8x5_SetAlarm, SetAlarm_pin, Amx8x5_SetOut2Mode, Amx8x5_ClearRegister,
          Amx8x5_SetRegister, RegDev_ReadByte, RegDev_WriteByte, consts, consts2, enums, masks,
          masks2, hall, hc, RegFile.store, SetAlarm_disabled_calls, SetAlarm_clear_calls,
          SetAlarm_pin_calls, u8_u8, u8_and, u8_or]
  · refine ⟨k + 1, ?_⟩
    rcases hpin with rfl | rfl
    · by_cases hc : u8 (regs 17) &&& 3 = 0 <;>
        interval_cases k <;>
        simp only [Nat.forall_lt_succ, Nat.not_lt_zero, false_imp_iff, implies_true,
          true_and] at hprev <;>
        simp [Amx8x5_SetAlarm, SetAlarm_pin, Amx8x5_SetOut1Mode, Amx8x5_ClearRegister,
          Amx8x5_SetRegister, RegDev_ReadByte, RegDev_WriteByte, consts, consts2, enums, masks,
          masks2, hprev, hfail, hc, RegFile.store, SetAlarm_disabled_calls,
          SetAlarm_clear_calls, SetAlarm_pin_calls, u8_u8, u8_and, u8_or]
    · by_cases hc : u8 (regs 17) &&& 28 = 0 <;>
        interval_cases k <;>
        simp only [Nat.forall_lt_succ, Nat.not_lt_zero, false_imp_iff, implies_true,
          true_and] at hprev <;>
        simp [Amx8x5_SetAlarm, SetAlarm_pin, Amx8x5_SetOut2Mode, Amx8x5_ClearRegister,
          Amx8x5_SetRegister, RegDev_ReadByte, RegDev_WriteByte, consts, consts2, enums, masks,
          masks2, hprev, hfail, hc, RegFile.store, SetAlarm_disabled_calls,
          SetAlarm_clear_calls, SetAlarm_pin_calls, u8_u8, u8_and, u8_or]

/-- `Amx8x5_SetAlarm` with repeat = disabled on the register-file device with a transport
that always succeeds. -/
theorem SetAlarm_disabled_ok (m : en_amx8x5_communication_mode_t)
    (ty addr : Nat) (t : stc_amx8x5_time_t) (irq pin : Nat) (regs : RegFile) (l : List Call)
    (hpin : pin = 1 ∨ pin = 2) :
    Amx8x5_SetAlarm (some (RegDev.handle noFault m ty addr)) (some t)
        AMx8x5AlarmDisabled irq pin { regs := regs, log := l } =
      (.Ok, { regs := RegFile.replay regs (SetAlarm_disabled_calls pin regs),
              log := l ++ SetAlarm_disabled_calls pin regs }) := by
  rcases hpin with rfl | rfl
  · by_cases hc : u8 (regs 17) &&& 3 = 0 <;>
      simp [Amx8x5_SetAlarm, SetAlarm_pin, Amx8x5_SetOut1Mode, Amx8x5_ClearRegister,
        Amx8x5_SetRegister, RegDev_ReadByte, RegDev_WriteByte, consts, consts2, enums, masks,
        masks2, noFault, hc, RegFile.store, RegFile.replay, SetAlarm_disabled_calls,
        SetAlarm_clear_calls, SetAlarm_pin_calls, u8_u8, u8_and, u8_or]
  · by_cases hc : u8 (regs 17) &&& 28 = 0 <;>
      simp [Amx8x5_SetAlarm, SetAlarm_pin, Amx8x5_SetOut2Mode, Amx8x5_ClearRegister,
        Amx8x5_SetRegister, RegDev_ReadByte, RegDev_WriteByte, consts, consts2, enums, masks,
        masks2, noFault, hc, RegFile.store, RegFile.replay, SetAlarm_disabled_calls,
        SetAlarm_clear_calls, SetAlarm_pin_calls, u8_u8, u8_and, u8_or]

/-- Every call of `SetAlarm_disabled_calls` leaves the alarm registers 0x08..0x0E alone,
and each of its writes to INT_MASK (0x12) is a 1-byte write with the AIE bit clear. -/
theorem SetAlarm_disabled_calls_safe (pin : Nat) (regs : RegFile) :
    ∀ c ∈ SetAlarm_disabled_calls pin regs,
      c.avoids 8 14 = true ∧
      (c.writes 0x12 = true → ∃ v, c = Call.write 0x12 [v] ∧ v &&& 0x04 = 0) := by
  obtain ⟨h1, h2, -, -⟩ := int_mask_bits_aux (u8 (regs 18)) (u8_lt _)
  unfold SetAlarm_disabled_calls SetAlarm_clear_calls SetAlarm_pin_calls
  split_ifs <;> simp [Call.avoids, Call.writes, h1, h2]

/-- A complete `Amx8x5_SetAlarm` on the register-file device with a transport that always
succeeds, for a repeat code in 1..9, an interrupt mode in 1..3 and a pin in {1, 2}. -/
theorem SetAlarm_enabled_ok (m : en_amx8x5_communication_mode_t)
    (ty addr : Nat) (t : stc_amx8x5_time_t) (rep irq pin : Nat) (regs : RegFile)
    (l : List Call) (hrep1 : 1 ≤ rep) (hrep9 : rep ≤ 9) (hirq1 : 1 ≤ irq) (hirq3 : irq ≤ 3)
    (hpin : pin = 1 ∨ pin = 2) :
    Amx8x5_SetAlarm (some (RegDev.handle noFault m ty addr)) (some t) rep irq pin
        { regs := regs, log := l } =
      (.Ok, { regs := RegFile.replay regs (SetAlarm_enabled_calls t rep irq pin regs),
              log := l ++ SetAlarm_enabled_calls t rep irq pin regs }) := by
  have hi := u8_shift_irq hirq3
  have hcases : (rep ≤ 7 ∧ rep ≠ 8 ∧ rep ≠ 9 ∧ rep ≠ 0) ∨ rep = 8 ∨ rep = 9 := by omega
  have hr : rep ≤ 7 → u8 (rep <<< 2) = rep <<< 2 := u8_shift_rpt
  have h28 : u8 28 = 28 := by decide
  by_cases hm1 : t.u8Mode = 1 <;> rcases hpin with rfl | rfl
  · by_cases hc : u8 (regs 17) &&& 3 = 0 <;> rcases hcases with ⟨h7, h8, h9, h0⟩ | rfl | rfl <;>
      simp [Amx8x5_SetAlarm, SetAlarm_pin, Amx8x5_SetOut1Mode, Amx8x5_EnableIrqAlarm,
        SetAlarm_irq_eq _ _ _ hirq1 hirq3, SetAlarm_rpt_eq, SetAlarm_buffer,
        Amx8x5_ClearRegister, Amx8x5_SetRegister, RegDev_ReadByte, RegDev_WriteByte,
        RegDev_WriteBytes, consts, consts2, enums, masks, masks2, noFault, hc, hm1, hi,
        RegFile.store, RegFile.replay, SetAlarm_enabled_calls, SetAlarm_clear_calls,
        SetAlarm_pin_calls, SetAlarm_block, SetAlarm_rpt_code, u8_u8, u8_and, u8_or,
        u8_dec_to_bcd, *]
  · by_cases hc : u8 (regs 17) &&& 28 = 0 <;> rcases hcases with ⟨h7, h8, h9, h0⟩ | rfl | rfl <;>
      simp [Amx8x5_SetAlarm, SetAlarm_pin, Amx8x5_SetOut2Mode, Amx8x5_EnableIrqAlarm,
        SetAlarm_irq_eq _ _ _ hirq1 hirq3, SetAlarm_rpt_eq, SetAlarm_buffer,
        Amx8x5_ClearRegister, Amx8x5_SetRegister, RegDev_ReadByte, RegDev_WriteByte,
        RegDev_WriteBytes, consts, consts2, enums, masks, masks2, noFault, hc, hm1, hi,
        RegFile.store, RegFile.replay, SetAlarm_enabled_calls, SetAlarm_clear_calls,
        SetAlarm_pin_calls, SetAlarm_block, SetAlarm_rpt_code, u8_u8, u8_and, u8_or,
        u8_dec_to_bcd, *]
  · by_cases hc : u8 (regs 17) &&& 3 = 0 <;> rcases hcases with ⟨h7, h8, h9, h0⟩ | rfl | rfl <;>
      simp [Amx8x5_SetAlarm, SetAlarm_pin, Amx8x5_SetOut1Mode, Amx8x5_EnableIrqAlarm,
        SetAlarm_irq_eq _ _ _ hirq1 hirq3, SetAlarm_rpt_eq, SetAlarm_buffer,
        Amx8x5_ClearRegister, Amx8x5_SetRegister, RegDev_ReadByte, RegDev_WriteByte,
        RegDev_WriteBytes, consts, consts2, enums, masks, masks2, noFault, hc, hm1, hi,
        RegFile.store, RegFile.replay, SetAlarm_enabled_calls, SetAlarm_clear_calls,
        SetAlarm_pin_calls, SetAlarm_block, SetAlarm_rpt_code, u8_u8, u8_and, u8_or,
        u8_dec_to_bcd, *]
  · by_cases hc : u8 (regs 17) &&& 28 = 0 <;> rcases hcases with ⟨h7, h8, h9, h0⟩ | rfl | rfl <;>
      simp [Amx8x5_SetAlarm, SetAlarm_pin, Amx8x5_SetOut2Mode, Amx8x5_EnableIrqAlarm,
        SetAlarm_irq_eq _ _ _ hirq1 hirq3, SetAlarm_rpt_eq, SetAlarm_buffer,
        Amx8x5_ClearRegister, Amx8x5_SetRegister, RegDev_ReadByte, RegDev_WriteByte,
        RegDev_WriteBytes, consts, consts2, enums, masks, masks2, noFault, hc, hm1, hi,
        RegFile.store, RegFile.replay, SetAlarm_enabled_calls, SetAlarm_clear_calls,
        SetAlarm_pin_calls, SetAlarm_block, SetAlarm_rpt_code, u8_u8, u8_and, u8_or,
        u8_dec_to_bcd, *]

/-- The registers `Amx8x5_SetAlarm` leaves behind on its complete path. -/
theorem SetAlarm_enabled_regs (t : stc_amx8x5_time_t) (rep irq pin : Nat) (regs : RegFile)
    (hrep7 : SetAlarm_rpt_code rep ≤ 7) (hirq3 : irq ≤ 3) :
    (RegFile.byte (RegFile.replay regs (SetAlarm_enabled_calls t rep irq pin regs)) 0x18
      >>> 2) &&& 7 = SetAlarm_rpt_code rep ∧
    (RegFile.byte (RegFile.replay regs (SetAlarm_enabled_calls t rep irq pin regs)) 0x12
      >>> 5) &&& 3 = irq ∧
    RegFile.byte (RegFile.replay regs (SetAlarm_enabled_calls t rep irq pin regs)) 0x12
      &&& 0x04 = 0x04 ∧
    RegFile.byte (RegFile.replay regs (SetAlarm_enabled_calls t rep irq pin regs)) 0x0F
      &&& 0x04 = 0 ∧
    RegFile.load (RegFile.replay regs (SetAlarm_enabled_calls t rep irq pin regs)) 0x08 7
      = SetAlarm_block t rep := by
  have hr := rpt_field_aux (u8 (regs 24)) (u8_lt _) (SetAlarm_rpt_code rep) (by omega)
  obtain ⟨hi1, hi2⟩ := im_field_aux (u8 (regs 18)) (u8_lt _) irq (by omega)
  have ha := alm_flag_aux (u8 (regs 15)) (u8_lt _)
  have hu1 := u8_shift_rpt hrep7
  have hu2 := u8_shift_irq hirq3
  simp only [SetAlarm_enabled_calls, SetAlarm_clear_calls, SetAlarm_pin_calls, SetAlarm_block]
  split_ifs <;>
    simp [RegFile.replay, RegFile.store, RegFile.byte, RegFile_load_7, u8_u8, u8_and, u8_or,
      masks, masks2, hr, hi1, hi2, ha, hu1, hu2]

/-- `Amx8x5_SetAlarm` on the register-file device with a transport that always succeeds,
when the pin selector is above 2 or (repeat not disabled) the interrupt mode is above 3. -/
theorem SetAlarm_rejected_ok (m : en_amx8x5_communication_mode_t)
    (ty addr : Nat) (t : stc_amx8x5_time_t) (rep irq pin : Nat) (regs : RegFile)
    (l : List Call) (h : 2 < pin ∨ (rep ≠ 0 ∧ 3 < irq)) :
    Amx8x5_SetAlarm (some (RegDev.handle noFault m ty addr)) (some t) rep irq pin
        { regs := regs, log := l } =
      (.ErrorInvalidParameter,
        { regs := RegFile.replay regs (SetAlarm_rejected_irq_calls pin regs),
          log := l ++ SetAlarm_rejected_irq_calls pin regs }) := by
  by_cases hp1 : pin = 1
  · subst hp1
    have h' : rep ≠ 0 ∧ 3 < irq := by omega
    obtain ⟨hrep, hirq⟩ := h'
    have hi1 : irq ≠ 1 := by omega
    have hi2 : irq ≠ 2 := by omega
    have hi3 : irq ≠ 3 := by omega
    have hcases : (rep ≠ 8 ∧ rep ≠ 9) ∨ rep = 8 ∨ rep = 9 := by omega
    by_cases hc : u8 (regs 17) &&& 3 = 0 <;> rcases hcases with ⟨h8, h9⟩ | rfl | rfl <;>
      simp [Amx8x5_SetAlarm, SetAlarm_pin, Amx8x5_SetOut1Mode, SetAlarm_irq,
        Amx8x5_ClearRegister, Amx8x5_SetRegister, RegDev_ReadByte, RegDev_WriteByte,
        consts, consts2, enums, masks, masks2, noFault, hc, hi1, hi2, hi3,
        RegFile.store, RegFile.replay, SetAlarm_rejected_irq_calls, SetAlarm_clear_calls,
        SetAlarm_pin_calls, u8_u8, u8_and, u8_or, *]
  · by_cases hp2 : pin = 2
    · subst hp2
      have h' : rep ≠ 0 ∧ 3 < irq := by omega
      obtain ⟨hrep, hirq⟩ := h'
      have hi1 : irq ≠ 1 := by omega
      have hi2 : irq ≠ 2 := by omega
      have hi3 : irq ≠ 3 := by omega
      have hcases : (rep ≠ 8 ∧ rep ≠ 9) ∨ rep = 8 ∨ rep = 9 := by omega
      by_cases hc : u8 (regs 17) &&& 28 = 0 <;> rcases hcases with ⟨h8, h9⟩ | rfl | rfl <;>
        simp [Amx8x5_SetAlarm, SetAlarm_pin, Amx8x5_SetOut2Mode, SetAlarm_irq,
          Amx8x5_ClearRegister, Amx8x5_SetRegister, RegDev_ReadByte, RegDev_WriteByte,
          consts, consts2, enums, masks, masks2, noFault, hc, hi1, hi2, hi3,
          RegFile.store, RegFile.replay, SetAlarm_rejected_irq_calls, SetAlarm_clear_calls,
          SetAlarm_pin_calls, u8_u8, u8_and, u8_or, *]
    · simp [Amx8x5_SetAlarm, SetAlarm_pin, Amx8x5_ClearRegister, Amx8x5_SetRegister,
        RegDev_ReadByte, RegDev_WriteByte, consts, consts2, enums, masks, masks2, noFault,
        hp1, hp2, RegFile.store, RegFile.replay, SetAlarm_rejected_irq_calls,
        SetAlarm_clear_calls, u8_u8, u8_and, u8_or]

/-- Every call of `SetAlarm_rejected_irq_calls` leaves the alarm registers 0x08..0x0E
alone, and each of its writes to INT_MASK (0x12) is a 1-byte write with the AIE bit
clear. -/
theorem SetAlarm_rejected_calls_safe (pin : Nat) (regs : RegFile) :
    ∀ c ∈ SetAlarm_rejected_irq_calls pin regs,
      c.avoids 8 14 = true ∧
      (c.writes 0x12 = true → ∃ v, c = Call.write 0x12 [v] ∧ v &&& 0x04 = 0) := by
  obtain ⟨h1, -, -, h4⟩ := int_mask_bits_aux (u8 (regs 18)) (u8_lt _)
  unfold SetAlarm_rejected_irq_calls SetAlarm_clear_calls SetAlarm_pin_calls
  split_ifs <;> simp [Call.avoids, Call.writes, h1, h4]

/-! ## `Amx8x5_SetCalibrationValue`: the adjustment unit and the XT encoding -/

theorem iAdjint_eq (i : Int) (h1 : -2000000 ≤ i) (h2 : i ≤ 2000000) :
    SetCalibrationValue_iAdjint i =
      Int.tdiv (if i < 0 then i * 1000 - 953 else i * 1000 + 953) 1907 := by
  unfold SetCalibrationValue_iAdjint i32
  have e1 : ((i * 1000 + 2147483648) % 4294967296 - 2147483648) = i * 1000 := by omega
  rw [e1]
  have e2 : ((i * 1000 - 953 + 2147483648) % 4294967296 - 2147483648) = i * 1000 - 953 := by
    omega
  have e3 : ((i * 1000 + 953 + 2147483648) % 4294967296 - 2147483648) = i * 1000 + 953 := by
    omega
  rw [e2, e3]

theorem iAdjint_near (i : Int) (h1 : -2000000 ≤ i) (h2 : i ≤ 2000000) :
    -953 ≤ 1907 * SetCalibrationValue_iAdjint i - 1000 * i ∧
    1907 * SetCalibrationValue_iAdjint i - 1000 * i ≤ 953 := by
  rw [iAdjint_eq i h1 h2]
  by_cases h : i < 0
  · simp only [h, if_true]
    have e3 : (i * 1000 - 953) = -(953 - i * 1000) := by ring
    rw [e3, Int.neg_tdiv, Int.tdiv_eq_ediv (by omega) (by norm_num)]
    constructor <;> omega
  · simp only [h, if_false]
    rw [Int.tdiv_eq_ediv (by omega) (by norm_num)]
    constructor <;> omega

theorem XT_snd_lt (a : Int) : (SetCalibrationValue_XT a).2 < 256 := by
  unfold SetCalibrationValue_XT
  split_ifs <;> exact u8_lt _

set_option maxRecDepth 1000000 in
theorem XT_decode_aux : ∀ k : Nat, k < 448 →
    (SetCalibrationValue_XT ((k : Int) - 320)).1 < 4 ∧
    decodeXT (SetCalibrationValue_XT ((k : Int) - 320)).2
        (SetCalibrationValue_XT ((k : Int) - 320)).1 =
      (if CAL_XT_CMDX (SetCalibrationValue_XT ((k : Int) - 320)).2 = 0 then (k : Int) - 320
       else 2 * (((k : Int) - 320) / 2)) ∧
    (CAL_XT_CMDX (SetCalibrationValue_XT ((k : Int) - 320)).2 = 0 ↔ 64 ≤ k ∧ k ≤ 383) := by
  decide

theorem XT_decode (a : Int) (h1 : -320 ≤ a) (h2 : a ≤ 127) :
    (SetCalibrationValue_XT a).1 < 4 ∧
    decodeXT (SetCalibrationValue_XT a).2 (SetCalibrationValue_XT a).1 =
      (if CAL_XT_CMDX (SetCalibrationValue_XT a).2 = 0 then a else 2 * (a / 2)) ∧
    (CAL_XT_CMDX (SetCalibrationValue_XT a).2 = 0 ↔ -256 ≤ a ∧ a ≤ 63) := by
  have h := XT_decode_aux (a + 320).toNat (by omega)
  have e : (((a + 320).toNat : Nat) : Int) - 320 = a := by omega
  rw [e] at h
  refine ⟨h.1, h.2.1, ?_⟩
  rw [h.2.2]
  omega

/-- `Amx8x5_SetCalibrationValue` in XT mode on the register-file device with a transport
that always succeeds. -/
theorem SetCalibrationValue_XT_ok (m : en_amx8x5_communication_mode_t) (ty addr : Nat)
    (i : Int) (regs : RegFile) (l : List Call) :
    Amx8x5_SetCalibrationValue (some (RegDev.handle noFault m ty addr))
        AMx8x5ModeCalibrateXT i { regs := regs, log := l } =
      (.Ok,
        { regs := RegFile.replay regs
            [ Call.write 0x14 [(SetCalibrationValue_XT (SetCalibrationValue_iAdjint i)).2],
              Call.write 0x1D
                [u8 (u8 (regs 0x1D) &&& 0x3F |||
                  (SetCalibrationValue_XT (SetCalibrationValue_iAdjint i)).1 <<< 6)] ],
          log := l ++
            [ Call.write 0x14 [(SetCalibrationValue_XT (SetCalibrationValue_iAdjint i)).2],
              Call.read 0x1D 1,
              Call.write 0x1D
                [u8 (u8 (regs 0x1D) &&& 0x3F |||
                  (SetCalibrationValue_XT (SetCalibrationValue_iAdjint i)).1 <<< 6)] ] }) := by
  have hlt := XT_snd_lt (SetCalibrationValue_iAdjint i)
  simp [Amx8x5_SetCalibrationValue, RegDev_ReadByte, RegDev_WriteByte, consts2, enums,
    noFault, RegFile.store, RegFile.replay, u8_u8, u8_of_lt hlt]

/-! ## C11, C12: register access -/

/-- C11: on any transport (the scripted one, whose read delivers an arbitrary byte `v`),
for every register address and every mask byte: when the read and the write succeed,
`Amx8x5_SetRegister` returns `Ok` after exactly one 1-byte read of the address followed by
one 1-byte write of `v | mask` to it, and `Amx8x5_ClearRegister` after one read followed
by one write of `v & ~mask`; when the read fails, both return the read's error after the
read alone, without any write. The written values are bit for bit `v` with the mask bits
set, respectively cleared. -/
theorem SetRegister_ClearRegister_rmw (sc : Script) (m : en_amx8x5_communication_mode_t)
    (ty addr : Nat) (u8Address u8Mask : Nat) (hmask : u8Mask < 256) :
    (sc.status 0 = 0 → sc.status 1 = 0 →
      Amx8x5_SetRegister (some (sc.handle m ty addr)) u8Address u8Mask [] =
        (.Ok, [Call.read u8Address 1, Call.write u8Address [sc.byte 0 ||| u8Mask]]) ∧
      Amx8x5_ClearRegister (some (sc.handle m ty addr)) u8Address u8Mask [] =
        (.Ok, [Call.read u8Address 1,
               Call.write u8Address [sc.byte 0 &&& (0xFF ^^^ u8Mask)]])) ∧
    (sc.status 0 ≠ 0 →
      Amx8x5_SetRegister (some (sc.handle m ty addr)) u8Address u8Mask [] =
        (.Error, [Call.read u8Address 1]) ∧
      Amx8x5_ClearRegister (some (sc.handle m ty addr)) u8Address u8Mask [] =
        (.Error, [Call.read u8Address 1])) ∧
    (∀ i, (sc.byte 0 &&& (0xFF ^^^ u8Mask)).testBit i =
      ((sc.byte 0).testBit i && !u8Mask.testBit i)) ∧
    (∀ i, (sc.byte 0 ||| u8Mask).testBit i = ((sc.byte 0).testBit i || u8Mask.testBit i)) := by
  have hm := u8_of_lt hmask
  have hb : sc.byte 0 < 256 := u8_lt _
  have hx : 255 ^^^ u8Mask < 256 := Nat.xor_lt_two_pow (n := 8) (by norm_num) hmask
  refine ⟨?_, ?_, ?_, ?_⟩
  · intro h0 h1
    simp [Amx8x5_SetRegister, Amx8x5_ClearRegister, Script_ReadByte, Script_WriteByte, h0, h1,
      hm, Script.byte, u8_u8, u8_and, u8_or, u8_of_lt hx]
  · intro h0
    simp [Amx8x5_SetRegister, Amx8x5_ClearRegister, Script_ReadByte, h0]
  · intro i
    exact clear_bits_testBit _ _ i hb
  · intro i
    exact Nat.testBit_or _ _ _

/-- C11 on a register holding 0x01 with mask 0x80: a read, then a write of 0x81. -/
theorem SetRegister_ClearRegister_rmw_witness :
    Amx8x5_SetRegister (some ((Script.mk (fun _ => 0) (fun _ => [0x01])).handle
        .AMx8x5ModeI2C 0x1805 0x69)) 0x10 0x80 [] =
      (.Ok, [Call.read 0x10 1, Call.write 0x10 [0x81]]) := by
  have h := ((SetRegister_ClearRegister_rmw (Script.mk (fun _ => 0) (fun _ => [0x01]))
    .AMx8x5ModeI2C 0x1805 0x69 0x10 0x80 (by decide)).1 rfl rfl).1
  rw [h]
  decide

/-- C12: `Amx8x5_ReadBytes`, `Amx8x5_ReadByte` and `Amx8x5_WriteBytes` return
`ErrorUninitialized` when the handle is absent (whatever the buffer); otherwise
`ErrorInvalidParameter` when the data buffer is absent (whatever the callbacks); otherwise
`ErrorUninitialized` when the transport function is unset; otherwise `Error` when the
transport function returns a non-zero status and `Ok` when it returns zero. In the first
three cases the world behind the transport is returned untouched (no call); in the last
two it is the world after one call of the transport function. -/
theorem ReadBytes_WriteBytes_precedence {σ : Type} (h : stc_amx8x5_handle_t σ)
    (u8Register u32Length : Nat) (present : Bool) (pu8Data : Option (List Nat))
    (data : List Nat) (f : pfn_read_register σ) (g : pfn_write_register σ) (s : σ) :
    (Amx8x5_ReadBytes none u8Register present u32Length s = (.ErrorUninitialized, [], s) ∧
     Amx8x5_ReadByte none u8Register present s = (.ErrorUninitialized, 0, s) ∧
     Amx8x5_WriteBytes none u8Register pu8Data u32Length s = (.ErrorUninitialized, s)) ∧
    (Amx8x5_ReadBytes (some h) u8Register false u32Length s =
       (.ErrorInvalidParameter, [], s) ∧
     Amx8x5_ReadByte (some h) u8Register false s = (.ErrorInvalidParameter, 0, s) ∧
     Amx8x5_WriteBytes (some h) u8Register none u32Length s = (.ErrorInvalidParameter, s)) ∧
    (h.pfnRead = none →
      Amx8x5_ReadBytes (some h) u8Register true u32Length s = (.ErrorUninitialized, [], s) ∧
      Amx8x5_ReadByte (some h) u8Register true s = (.ErrorUninitialized, 0, s)) ∧
    (h.pfnWrite = none →
      Amx8x5_WriteBytes (some h) u8Register (some data) u32Length s =
        (.ErrorUninitialized, s)) ∧
    (h.pfnRead = some f →
      (Amx8x5_ReadBytes (some h) u8Register true u32Length s).1 =
        (if (f h.u32Address u8Register u32Length s).1 ≠ 0 then .Error else .Ok) ∧
      (Amx8x5_ReadBytes (some h) u8Register true u32Length s).2.2 =
        (f h.u32Address u8Register u32Length s).2.2 ∧
      (Amx8x5_ReadByte (some h) u8Register true s).1 =
        (if (f h.u32Address u8Register 1 s).1 ≠ 0 then .Error else .Ok) ∧
      (Amx8x5_ReadByte (some h) u8Register true s).2.2 =
        (f h.u32Address u8Register 1 s).2.2) ∧
    (h.pfnWrite = some g →
      (Amx8x5_WriteBytes (some h) u8Register (some data) u32Length s).1 =
        (if (g h.u32Address u8Register (data.take u32Length) s).1 ≠ 0 then .Error else .Ok) ∧
      (Amx8x5_WriteBytes (some h) u8Register (some data) u32Length s).2 =
        (g h.u32Address u8Register (data.take u32Length) s).2) := by
  refine ⟨⟨rfl, rfl, rfl⟩, ⟨rfl, rfl, ?_⟩, ?_, ?_, ?_, ?_⟩
  · simp [Amx8x5_WriteBytes]
  · intro hr
    cases hm : h.enMode <;>
      simp [Amx8x5_ReadBytes, Amx8x5_ReadByte, stc_amx8x5_handle_t.pfnReadI2C,
        stc_amx8x5_handle_t.pfnReadSpi, hr, hm]
  · intro hw
    cases hm : h.enMode <;>
      simp [Amx8x5_WriteBytes, stc_amx8x5_handle_t.pfnWriteI2C,
        stc_amx8x5_handle_t.pfnWriteSpi, hw, hm]
  · intro hr
    cases hm : h.enMode <;>
      simp [Amx8x5_ReadBytes, Amx8x5_ReadByte, stc_amx8x5_handle_t.pfnReadI2C,
        stc_amx8x5_handle_t.pfnReadSpi, stc_amx8x5_handle_t.u32ChipSelect, hr, hm] <;>
      constructor <;> split_ifs <;> simp
  · intro hw
    cases hm : h.enMode <;>
      simp [Amx8x5_WriteBytes, stc_amx8x5_handle_t.pfnWriteI2C,
        stc_amx8x5_handle_t.pfnWriteSpi, stc_amx8x5_handle_t.u32ChipSelect, hw, hm] <;>
      split_ifs <;> simp

/-- C12 on the scripted transport: a read with the buffer present makes one call, a read
without a buffer makes none. -/
theorem ReadBytes_WriteBytes_precedence_witness :
    Amx8x5_ReadBytes (some (Script.allOk.handle .AMx8x5ModeSPI 0x1815 0)) 0x28 true 2 [] =
      (.Ok, [0xFF], [Call.read 0x28 2]) ∧
    Amx8x5_ReadBytes (some (Script.allOk.handle .AMx8x5ModeSPI 0x1815 0)) 0x28 false 2 [] =
      (.ErrorInvalidParameter, [], []) :=
  ⟨by decide,
   (ReadBytes_WriteBytes_precedence (Script.allOk.handle .AMx8x5ModeSPI 0x1815 0) 0x28 2
      true none [] Script.allOk.read Script.allOk.write []).2.1.1⟩

/-! ## C13 .. C16: calibration -/

/-- C13: for every ppm adjustment `iAdjust` with |iAdjust| <= 2,000,000 the `int32_t`
arithmetic does not wrap, so the internal unit is `(iAdjust*1000 - 953) / 1907` for a
negative and `(iAdjust*1000 + 953) / 1907` for a non-negative adjustment (division
truncating toward zero); it lies within 953/1907 of `iAdjust*1000/1907`, and it is the only
integer that does. -/
theorem SetCalibrationValue_rounds (iAdjust : Int) (hlo : -2000000 ≤ iAdjust)
    (hhi : iAdjust ≤ 2000000) :
    SetCalibrationValue_iAdjint iAdjust =
      Int.tdiv (if iAdjust < 0 then iAdjust * 1000 - 953 else iAdjust * 1000 + 953) 1907 ∧
    |1907 * SetCalibrationValue_iAdjint iAdjust - 1000 * iAdjust| ≤ 953 ∧
    ∀ a : Int, |1907 * a - 1000 * iAdjust| ≤ 953 → a = SetCalibrationValue_iAdjint iAdjust := by
  obtain ⟨h1, h2⟩ := iAdjint_near iAdjust hlo hhi
  refine ⟨iAdjint_eq iAdjust hlo hhi, abs_le.mpr ⟨h1, h2⟩, ?_⟩
  intro a ha
  obtain ⟨h3, h4⟩ := abs_le.mp ha
  omega

/-- C13 at -610 ppm: the unit is -320, the only integer within 953 of -610000/1907. -/
theorem SetCalibrationValue_rounds_witness :
    SetCalibrationValue_iAdjint (-610) = -320 ∧
    ∀ a : Int, |1907 * a - 1000 * (-610)| ≤ 953 → a = SetCalibrationValue_iAdjint (-610) :=
  ⟨by decide, (SetCalibrationValue_rounds (-610) (by decide) (by decide)).2.2⟩

/-- C14: for every ppm adjustment in -610..242 the internal unit `a` lies in -320..127, and
in XT mode on the register-file device with a transport that always succeeds
`Amx8x5_SetCalibrationValue` returns `Ok` and leaves a CAL_XT byte (0x14) and an XTCAL
field (bits 7:6 of OSC_STATUS, 0x1D) that decode to `a` when CMDX = 0 and to `a` rounded
down to an even integer when CMDX = 1; CMDX = 0 exactly for `a` in -256..63. -/
theorem SetCalibrationValue_XT_decodes (m : en_amx8x5_communication_mode_t) (ty addr : Nat)
    (iAdjust : Int) (regs : RegFile) (l : List Call)
    (hlo : -610 ≤ iAdjust) (hhi : iAdjust ≤ 242) :
    -320 ≤ SetCalibrationValue_iAdjint iAdjust ∧ SetCalibrationValue_iAdjint iAdjust ≤ 127 ∧
    (Amx8x5_SetCalibrationValue (some (RegDev.handle noFault m ty addr))
        AMx8x5ModeCalibrateXT iAdjust { regs := regs, log := l }).1 = .Ok ∧
    decodeXT
        (RegFile.byte (Amx8x5_SetCalibrationValue (some (RegDev.handle noFault m ty addr))
          AMx8x5ModeCalibrateXT iAdjust { regs := regs, log := l }).2.regs 0x14)
        (OSC_STATUS_XTCAL
          (RegFile.byte (Amx8x5_SetCalibrationValue (some (RegDev.handle noFault m ty addr))
            AMx8x5ModeCalibrateXT iAdjust { regs := regs, log := l }).2.regs 0x1D)) =
      (if CAL_XT_CMDX
          (RegFile.byte (Amx8x5_SetCalibrationValue (some (RegDev.handle noFault m ty addr))
            AMx8x5ModeCalibrateXT iAdjust { regs := regs, log := l }).2.regs 0x14) = 0
       then SetCalibrationValue_iAdjint iAdjust
       else 2 * (SetCalibrationValue_iAdjint iAdjust / 2)) ∧
    (CAL_XT_CMDX
        (RegFile.byte (Amx8x5_SetCalibrationValue (some (RegDev.handle noFault m ty addr))
          AMx8x5ModeCalibrateXT iAdjust { regs := regs, log := l }).2.regs 0x14) = 0 ↔
      -256 ≤ SetCalibrationValue_iAdjint iAdjust ∧ SetCalibrationValue_iAdjint iAdjust ≤ 63) := by
  obtain ⟨h1, h2⟩ := iAdjint_near iAdjust (by omega) (by omega)
  have ha1 : -320 ≤ SetCalibrationValue_iAdjint iAdjust := by omega
  have ha2 : SetCalibrationValue_iAdjint iAdjust ≤ 127 := by omega
  obtain ⟨hx, hd, hc⟩ := XT_decode (SetCalibrationValue_iAdjint iAdjust) ha1 ha2
  have hlt := XT_snd_lt (SetCalibrationValue_iAdjint iAdjust)
  obtain ⟨f1, -, f3⟩ := xtcal_field_aux (u8 (regs 29)) (u8_lt _) _ hx
  rw [SetCalibrationValue_XT_ok]
  have e1 : RegFile.byte (RegFile.replay regs
      [ Call.write 0x14 [(SetCalibrationValue_XT (SetCalibrationValue_iAdjint iAdjust)).2],
        Call.write 0x1D
          [u8 (u8 (regs 0x1D) &&& 0x3F |||
            (SetCalibrationValue_XT (SetCalibrationValue_iAdjint iAdjust)).1 <<< 6)] ]) 0x14
      = (SetCalibrationValue_XT (SetCalibrationValue_iAdjint iAdjust)).2 := by
    simp [RegFile.replay, RegFile.store, RegFile.byte, u8_of_lt hlt]
  have e2 : OSC_STATUS_XTCAL (RegFile.byte (RegFile.replay regs
      [ Call.write 0x14 [(SetCalibrationValue_XT (SetCalibrationValue_iAdjint iAdjust)).2],
        Call.write 0x1D
          [u8 (u8 (regs 0x1D) &&& 0x3F |||
            (SetCalibrationValue_XT (SetCalibrationValue_iAdjint iAdjust)).1 <<< 6)] ]) 0x1D)
      = (SetCalibrationValue_XT (SetCalibrationValue_iAdjint iAdjust)).1 := by
    simp [RegFile.replay, RegFile.store, RegFile.byte, OSC_STATUS_XTCAL, u8_u8, u8_of_lt f3, f1]
  refine ⟨ha1, ha2, rfl, ?_, ?_⟩
  · simp only [e1, e2]; exact hd
  · simp only [e1]; exact hc

/-- C14 at -610 ppm on a register file with all bits set: the encoding decodes to -320. -/
theorem SetCalibrationValue_XT_decodes_witness :
    decodeXT
        (RegFile.byte (Amx8x5_SetCalibrationValue
          (some (RegDev.handle noFault .AMx8x5ModeI2C 0x1805 0x69))
          AMx8x5ModeCalibrateXT (-610) { regs := RegFile.allOnes, log := [] }).2.regs 0x14)
        (OSC_STATUS_XTCAL
          (RegFile.byte (Amx8x5_SetCalibrationValue
            (some (RegDev.handle noFault .AMx8x5ModeI2C 0x1805 0x69))
            AMx8x5ModeCalibrateXT (-610) { regs := RegFile.allOnes, log := [] }).2.regs 0x1D))
      = -320 := by
  have h := (SetCalibrationValue_XT_decodes .AMx8x5ModeI2C 0x1805 0x69 (-610)
    RegFile.allOnes [] (by decide) (by decide)).2.2.2.1
  rw [h]
  decide

/-- C15: on any transport whose calls succeed, `Amx8x5_SetCalibrationValue` with
`iAdjust = 0` returns `Ok`; in XT mode it writes 0x00 to CAL_XT (0x14), reads OSC_STATUS
(0x1D) and writes it back with the XTCAL field 0 and bits 5:0 as read, an encoding that
decodes to 0; in RC mode it writes 0x00 to CAL_RC_HI (0x15) and to CAL_RC_LOW (0x16). -/
theorem SetCalibrationValue_zero (sc : Script) (m : en_amx8x5_communication_mode_t)
    (ty addr : Nat) (hok : ∀ n < 3, sc.status n = 0) :
    Amx8x5_SetCalibrationValue (some (sc.handle m ty addr)) AMx8x5ModeCalibrateXT 0 [] =
      (.Ok, [ Call.write 0x14 [0x00], Call.read 0x1D 1,
              Call.write 0x1D [sc.byte 1 &&& 0x3F] ]) ∧
    OSC_STATUS_XTCAL (sc.byte 1 &&& 0x3F) = 0 ∧
    (sc.byte 1 &&& 0x3F) &&& 0x3F = sc.byte 1 &&& 0x3F ∧
    decodeXT 0x00 (OSC_STATUS_XTCAL (sc.byte 1 &&& 0x3F)) = 0 ∧
    Amx8x5_SetCalibrationValue (some (sc.handle m ty addr)) AMx8x5ModeCalibrateRC 0 [] =
      (.Ok, [ Call.write 0x15 [0x00], Call.write 0x16 [0x00] ]) := by
  have h0 := hok 0 (by norm_num)
  have h1 := hok 1 (by norm_num)
  have h2 := hok 2 (by norm_num)
  have a0 : SetCalibrationValue_iAdjint 0 = 0 := by decide
  have x0 : SetCalibrationValue_XT 0 = (0, 0) := by decide
  have r0 : SetCalibrationValue_RC 0 = (0, 0) := by decide
  obtain ⟨f1, f2, -⟩ := xtcal_field_aux (sc.byte 1) (u8_lt _) 0 (by decide)
  have f0 : (sc.byte 1 &&& 63) >>> 6 &&& 3 = 0 := by simpa using f1
  have f3 : (sc.byte 1 &&& 63) &&& 63 = sc.byte 1 &&& 63 := by simpa using f2
  have hx : OSC_STATUS_XTCAL (sc.byte 1 &&& 0x3F) = 0 := by simpa [OSC_STATUS_XTCAL] using f0
  refine ⟨?_, hx, f3, ?_, ?_⟩
  · simp [Amx8x5_SetCalibrationValue, Script_ReadByte, Script_WriteByte, consts2, enums,
      a0, x0, h0, h1, h2, Script.byte, u8_u8, u8_and, masks2]
  · rw [hx]; decide
  · simp [Amx8x5_SetCalibrationValue, Script_WriteByte, consts2, enums, a0, r0, h0, h1,
      masks2]

/-- C15 on a transport whose reads deliver 0xFF: OSC_STATUS is written back as 0x3F. -/
theorem SetCalibrationValue_zero_witness :
    Amx8x5_SetCalibrationValue (some (Script.allOk.handle .AMx8x5ModeI2C 0x1805 0x69))
        AMx8x5ModeCalibrateXT 0 [] =
      (.Ok, [ Call.write 0x14 [0x00], Call.read 0x1D 1, Call.write 0x1D [0x3F] ]) := by
  rw [(SetCalibrationValue_zero Script.allOk .AMx8x5ModeI2C 0x1805 0x69 (fun _ _ => rfl)).1]
  decide

/-- C16 (as stated, refuted): in XT mode on a cleared register file, the calls with
adjust = 63 and adjust = 64 write the CAL_XT bytes 0x21 and 0x22, both with CMDX = 0, and
both leave XTCAL = 0: the same CMDX/band combination. -/
theorem SetCalibrationValue_63_64_same_band :
    CAL_XT_CMDX (RegFile.byte (Amx8x5_SetCalibrationValue
        (some (RegDev.handle noFault .AMx8x5ModeI2C 0x1805 0x69))
        AMx8x5ModeCalibrateXT 63 { regs := RegFile.zero, log := [] }).2.regs 0x14) = 0 ∧
    CAL_XT_CMDX (RegFile.byte (Amx8x5_SetCalibrationValue
        (some (RegDev.handle noFault .AMx8x5ModeI2C 0x1805 0x69))
        AMx8x5ModeCalibrateXT 64 { regs := RegFile.zero, log := [] }).2.regs 0x14) = 0 ∧
    OSC_STATUS_XTCAL (RegFile.byte (Amx8x5_SetCalibrationValue
        (some (RegDev.handle noFault .AMx8x5ModeI2C 0x1805 0x69))
        AMx8x5ModeCalibrateXT 63 { regs := RegFile.zero, log := [] }).2.regs 0x1D) = 0 ∧
    OSC_STATUS_XTCAL (RegFile.byte (Amx8x5_SetCalibrationValue
        (some (RegDev.handle noFault .AMx8x5ModeI2C 0x1805 0x69))
        AMx8x5ModeCalibrateXT 64 { regs := RegFile.zero, log := [] }).2.regs 0x1D) = 0 ∧
    (Amx8x5_SetCalibrationValue
        (some (RegDev.handle noFault .AMx8x5ModeI2C 0x1805 0x69))
        AMx8x5ModeCalibrateXT 63 { regs := RegFile.zero, log := [] }).2.regs 0x14 = 0x21 ∧
    (Amx8x5_SetCalibrationValue
        (some (RegDev.handle noFault .AMx8x5ModeI2C 0x1805 0x69))
        AMx8x5ModeCalibrateXT 64 { regs := RegFile.zero, log := [] }).2.regs 0x14 = 0x22 := by
  decide

/-- C16 (amended): the 63/64 threshold is on the internal adjustment unit, not on the ppm
argument. The ppm adjustments 63 and 64 give the units 33 and 34 and land in the same
combination (CMDX = 0, XTCAL = 0); the ppm adjustments 121 and 122 give the units 63 and
64, and in XT mode the CAL_XT byte written has CMDX = 0 for 121 and CMDX = 1 for 122. -/
theorem SetCalibrationValue_band_boundary (m : en_amx8x5_communication_mode_t)
    (ty addr : Nat) (regs : RegFile) (l : List Call) :
    SetCalibrationValue_iAdjint 63 = 33 ∧ SetCalibrationValue_iAdjint 64 = 34 ∧
    SetCalibrationValue_iAdjint 121 = 63 ∧ SetCalibrationValue_iAdjint 122 = 64 ∧
    CAL_XT_CMDX (RegFile.byte (Amx8x5_SetCalibrationValue
        (some (RegDev.handle noFault m ty addr))
        AMx8x5ModeCalibrateXT 63 { regs := regs, log := l }).2.regs 0x14) = 0 ∧
    CAL_XT_CMDX (RegFile.byte (Amx8x5_SetCalibrationValue
        (some (RegDev.handle noFault m ty addr))
        AMx8x5ModeCalibrateXT 64 { regs := regs, log := l }).2.regs 0x14) = 0 ∧
    OSC_STATUS_XTCAL (RegFile.byte (Amx8x5_SetCalibrationValue
        (some (RegDev.handle noFault m ty addr))
        AMx8x5ModeCalibrateXT 63 { regs := regs, log := l }).2.regs 0x1D) = 0 ∧
    OSC_STATUS_XTCAL (RegFile.byte (Amx8x5_SetCalibrationValue
        (some (RegDev.handle noFault m ty addr))
        AMx8x5ModeCalibrateXT 64 { regs := regs, log := l }).2.regs 0x1D) = 0 ∧
    CAL_XT_CMDX (RegFile.byte (Amx8x5_SetCalibrationValue
        (some (RegDev.handle noFault m ty addr))
        AMx8x5ModeCalibrateXT 121 { regs := regs, log := l }).2.regs 0x14) = 0 ∧
    CAL_XT_CMDX (RegFile.byte (Amx8x5_SetCalibrationValue
        (some (RegDev.handle noFault m ty addr))
        AMx8x5ModeCalibrateXT 122 { regs := regs, log := l }).2.regs 0x14) = 1 := by
  have a63 : SetCalibrationValue_iAdjint 63 = 33 := by decide
  have a64 : SetCalibrationValue_iAdjint 64 = 34 := by decide
  have a121 : SetCalibrationValue_iAdjint 121 = 63 := by decide
  have a122 : SetCalibrationValue_iAdjint 122 = 64 := by decide
  have x33 : SetCalibrationValue_XT 33 = (0, 0x21) := by decide
  have x34 : SetCalibrationValue_XT 34 = (0, 0x22) := by decide
  have x63 : SetCalibrationValue_XT 63 = (0, 0x3F) := by decide
  have x64 : SetCalibrationValue_XT 64 = (0, 0xA0) := by decide
  obtain ⟨f1, -, -⟩ := xtcal_field_aux (u8 (regs 29)) (u8_lt _) 0 (by decide)
  have f0 : (u8 (regs 29) &&& 63) >>> 6 &&& 3 = 0 := by simpa using f1
  refine ⟨a63, a64, a121, a122, ?_⟩
  simp only [SetCalibrationValue_XT_ok, a63, a64, a121, a122, x33, x34, x63, x64]
  simp [RegFile.replay, RegFile.store, RegFile.byte, OSC_STATUS_XTCAL, CAL_XT_CMDX, u8_u8,
    u8_and, masks2, f0]
  decide

/-! ## C17 .. C20: alarm -/

/-- C17: for every time record, every interrupt-mode value and pin in {FOUT/nIRQ,
PSW/nIRQ2}, on the register-file device whatever calls fail, no call of `Amx8x5_SetAlarm`
with repeat = `AMx8x5AlarmDisabled` writes an alarm register 0x08..0x0E, and every call
that writes INT_MASK (0x12) is a 1-byte write with the AIE bit (0x04) clear. With a
transport that always succeeds it returns `Ok` and leaves the IM field (bits 6:5) of
INT_MASK at 0b11 and the AIE bit at 0. -/
theorem SetAlarm_disabled (fault : Nat → Int) (m : en_amx8x5_communication_mode_t)
    (ty addr : Nat) (t : stc_amx8x5_time_t) (enModeIrq enModePin : Nat) (regs : RegFile)
    (hpin : enModePin = AMx8x5InterruptIrq ∨ enModePin = AMx8x5InterruptIrq2) :
    (∀ c ∈ (Amx8x5_SetAlarm (some (RegDev.handle fault m ty addr)) (some t)
        AMx8x5AlarmDisabled enModeIrq enModePin { regs := regs, log := [] }).2.log,
      (∀ a, 0x08 ≤ a → a ≤ 0x0E → c.writes a = false) ∧
      (c.writes 0x12 = true → ∃ v, c = Call.write 0x12 [v] ∧ v &&& 0x04 = 0)) ∧
    (Amx8x5_SetAlarm (some (RegDev.handle noFault m ty addr)) (some t)
        AMx8x5AlarmDisabled enModeIrq enModePin { regs := regs, log := [] }).1 = .Ok ∧
    (RegFile.byte (Amx8x5_SetAlarm (some (RegDev.handle noFault m ty addr)) (some t)
        AMx8x5AlarmDisabled enModeIrq enModePin { regs := regs, log := [] }).2.regs 0x12
      >>> 5) &&& 3 = 3 ∧
    RegFile.byte (Amx8x5_SetAlarm (some (RegDev.handle noFault m ty addr)) (some t)
        AMx8x5AlarmDisabled enModeIrq enModePin { regs := regs, log := [] }).2.regs 0x12
      &&& 0x04 = 0 := by
  have hpin' : enModePin = 1 ∨ enModePin = 2 := by simpa [enums] using hpin
  refine ⟨?_, ?_⟩
  · obtain ⟨n, hn⟩ := SetAlarm_disabled_log fault m ty addr t enModeIrq enModePin regs hpin'
    rw [hn]
    intro c hc
    have h := SetAlarm_disabled_calls_safe enModePin regs c (List.mem_of_mem_take hc)
    exact ⟨Call.writes_of_avoids c 8 14 h.1, h.2⟩
  · rw [SetAlarm_disabled_ok m ty addr t enModeIrq enModePin regs [] hpin']
    obtain ⟨-, h2, h3, -⟩ := int_mask_bits_aux (u8 (regs 18)) (u8_lt _)
    refine ⟨rfl, ?_, ?_⟩ <;>
    · rcases hpin' with rfl | rfl <;>
        simp only [SetAlarm_disabled_calls, SetAlarm_clear_calls, SetAlarm_pin_calls] <;>
        split_ifs <;>
        simp [RegFile.replay, RegFile.store, RegFile.byte, u8_u8, u8_and, u8_or, masks,
          masks2, h2, h3]

/-- C17 for the pin FOUT/nIRQ on a register file with all bits set: IM is left at 0b11. -/
theorem SetAlarm_disabled_witness :
    (RegFile.byte (Amx8x5_SetAlarm (some (RegDev.handle noFault .AMx8x5ModeI2C 0x1805 0x69))
        (some sampleAlarm) AMx8x5AlarmDisabled AMx8x5InterruptModeLevel AMx8x5InterruptIrq
        { regs := RegFile.allOnes, log := [] }).2.regs 0x12 >>> 5) &&& 3 = 3 :=
  (SetAlarm_disabled noFault .AMx8x5ModeI2C 0x1805 0x69 sampleAlarm AMx8x5InterruptModeLevel
    AMx8x5InterruptIrq RegFile.allOnes (Or.inl rfl)).2.2.1

/-- C18: on the register-file device with a transport that always succeeds, for a repeat
mode in Year..Second (codes 1..7), an interrupt mode in PulseShort..PulseLong (codes 1..3)
and a pin in {FOUT/nIRQ, PSW/nIRQ2}, `Amx8x5_SetAlarm` returns `Ok` and leaves: the RPT
field (bits 4:2) of TIMER_CTRL (0x18) equal to the repeat code, the IM field (bits 6:5) of
INT_MASK (0x12) equal to the interrupt-mode code, the AIE bit (bit 2) of INT_MASK at 1,
the ALM flag (bit 2) of STATUS (0x0F) at 0, and in the alarm registers 0x08..0x0E the BCD
hundredth, second, minute, hour (with 0x20 OR-ed in for 12-hour PM), date, month and
weekday. -/
theorem SetAlarm_programs (m : en_amx8x5_communication_mode_t) (ty addr : Nat)
    (t : stc_amx8x5_time_t) (enModeRepeat enModeIrq enModePin : Nat) (regs : RegFile)
    (l : List Call)
    (hrep : AMx8x5AlarmYear ≤ enModeRepeat ∧ enModeRepeat ≤ AMx8x5AlarmSecond)
    (hirq : AMx8x5InterruptModePulseShort ≤ enModeIrq ∧
      enModeIrq ≤ AMx8x5InterruptModePulseLong)
    (hpin : enModePin = AMx8x5InterruptIrq ∨ enModePin = AMx8x5InterruptIrq2) :
    (Amx8x5_SetAlarm (some (RegDev.handle noFault m ty addr)) (some t) enModeRepeat
        enModeIrq enModePin { regs := regs, log := l }).1 = .Ok ∧
    (RegFile.byte (Amx8x5_SetAlarm (some (RegDev.handle noFault m ty addr)) (some t)
        enModeRepeat enModeIrq enModePin { regs := regs, log := l }).2.regs 0x18
      >>> 2) &&& 7 = enModeRepeat ∧
    (RegFile.byte (Amx8x5_SetAlarm (some (RegDev.handle noFault m ty addr)) (some t)
        enModeRepeat enModeIrq enModePin { regs := regs, log := l }).2.regs 0x12
      >>> 5) &&& 3 = enModeIrq ∧
    RegFile.byte (Amx8x5_SetAlarm (some (RegDev.handle noFault m ty addr)) (some t)
        enModeRepeat enModeIrq enModePin { regs := regs, log := l }).2.regs 0x12
      &&& 0x04 = 0x04 ∧
    RegFile.byte (Amx8x5_SetAlarm (some (RegDev.handle noFault m ty addr)) (some t)
        enModeRepeat enModeIrq enModePin { regs := regs, log := l }).2.regs 0x0F
      &&& 0x04 = 0 ∧
    RegFile.load (Amx8x5_SetAlarm (some (RegDev.handle noFault m ty addr)) (some t)
        enModeRepeat enModeIrq enModePin { regs := regs, log := l }).2.regs 0x08 7 =
      [ AMX8X5_DEC_TO_BCD t.u8Hundredth,
        AMX8X5_DEC_TO_BCD t.u8Second,
        AMX8X5_DEC_TO_BCD t.u8Minute,
        (if t.u8Mode = AMX8X5_12HR_MODE then AMX8X5_DEC_TO_BCD t.u8Hour ||| 0x20
         else AMX8X5_DEC_TO_BCD t.u8Hour),
        AMX8X5_DEC_TO_BCD t.u8Date,
        AMX8X5_DEC_TO_BCD t.u8Month,
        AMX8X5_DEC_TO_BCD t.u8Weekday ] := by
  simp only [enums, consts] at hrep hirq hpin ⊢
  have hcode : SetAlarm_rpt_code enModeRepeat = enModeRepeat := by
    unfold SetAlarm_rpt_code; rw [if_neg (by omega)]
  rw [SetAlarm_enabled_ok m ty addr t enModeRepeat enModeIrq enModePin regs l hrep.1
    (by omega) hirq.1 hirq.2 hpin]
  have h := SetAlarm_enabled_regs t enModeRepeat enModeIrq enModePin regs
    (by rw [hcode]; exact hrep.2) hirq.2
  rw [hcode] at h
  refine ⟨rfl, h.1, h.2.1, h.2.2.1, h.2.2.2.1, ?_⟩
  rw [h.2.2.2.2, SetAlarm_block, if_neg (by omega), if_neg (by omega)]

/-- C18 for repeat by day, medium pulse, pin PSW/nIRQ2, on a register file with all bits
set: the RPT field holds 4. -/
theorem SetAlarm_programs_witness :
    (RegFile.byte (Amx8x5_SetAlarm (some (RegDev.handle noFault .AMx8x5ModeI2C 0x1805 0x69))
        (some sampleAlarm) AMx8x5AlarmDay AMx8x5InterruptModePulseMedium AMx8x5InterruptIrq2
        { regs := RegFile.allOnes, log := [] }).2.regs 0x18 >>> 2) &&& 7 = AMx8x5AlarmDay :=
  (SetAlarm_programs .AMx8x5ModeI2C 0x1805 0x69 sampleAlarm AMx8x5AlarmDay
    AMx8x5InterruptModePulseMedium AMx8x5InterruptIrq2 RegFile.allOnes []
    (by decide) (by decide) (Or.inr rfl)).2.1

/-- C19 (as stated, refuted): for the alarm time 12:34:56.78 on a cleared register file,
with repeat = `AMx8x5Alarm100thSecond` the alarm-seconds register 0x09 holds the plain BCD
seconds 0x56 and the sentinel 0xFF is in register 0x08 (byte 0 of the block written at
0x08); with repeat = `AMx8x5Alarm10thSecond` register 0x09 again holds 0x56 and register
0x08 holds 0xF8. -/
theorem SetAlarm_sentinel_not_in_seconds :
    (Amx8x5_SetAlarm (some (RegDev.handle noFault .AMx8x5ModeI2C 0x1805 0x69))
        (some sampleAlarm) AMx8x5Alarm100thSecond AMx8x5InterruptModePulseShort
        AMx8x5InterruptIrq { regs := RegFile.zero, log := [] }).1 = .Ok ∧
    Call.write 0x08 [0xFF, 0x56, 0x34, 0x12, 0x15, 0x06, 0x03] ∈
      (Amx8x5_SetAlarm (some (RegDev.handle noFault .AMx8x5ModeI2C 0x1805 0x69))
        (some sampleAlarm) AMx8x5Alarm100thSecond AMx8x5InterruptModePulseShort
        AMx8x5InterruptIrq { regs := RegFile.zero, log := [] }).2.log ∧
    (Amx8x5_SetAlarm (some (RegDev.handle noFault .AMx8x5ModeI2C 0x1805 0x69))
        (some sampleAlarm) AMx8x5Alarm100thSecond AMx8x5InterruptModePulseShort
        AMx8x5InterruptIrq { regs := RegFile.zero, log := [] }).2.regs 0x09 = 0x56 ∧
    (Amx8x5_SetAlarm (some (RegDev.handle noFault .AMx8x5ModeI2C 0x1805 0x69))
        (some sampleAlarm) AMx8x5Alarm100thSecond AMx8x5InterruptModePulseShort
        AMx8x5InterruptIrq { regs := RegFile.zero, log := [] }).2.regs 0x08 = 0xFF ∧
    (Amx8x5_SetAlarm (some (RegDev.handle noFault .AMx8x5ModeI2C 0x1805 0x69))
        (some sampleAlarm) AMx8x5Alarm10thSecond AMx8x5InterruptModePulseShort
        AMx8x5InterruptIrq { regs := RegFile.zero, log := [] }).2.regs 0x09 = 0x56 ∧
    (Amx8x5_SetAlarm (some (RegDev.handle noFault .AMx8x5ModeI2C 0x1805 0x69))
        (some sampleAlarm) AMx8x5Alarm10thSecond AMx8x5InterruptModePulseShort
        AMx8x5InterruptIrq { regs := RegFile.zero, log := [] }).2.regs 0x08 = 0xF8 := by
  decide

/-- C19 (amended): on the register-file device with a transport that always succeeds,
for repeat = `AMx8x5Alarm10thSecond` or `AMx8x5Alarm100thSecond`, an interrupt mode in
1..3 and a pin in {FOUT/nIRQ, PSW/nIRQ2}, `Amx8x5_SetAlarm` returns `Ok`, programs the RPT
field of TIMER_CTRL with code 7 (by second), and places the sentinel in the
hundredths-alarm register 0x08 (byte 0 of the block written at 0x08): the BCD hundredths
with 0xF0 OR-ed in for tenths, 0xFF for hundredths, in both cases with upper nibble 0xF.
The alarm-seconds register 0x09 holds the plain BCD seconds. -/
theorem SetAlarm_subsecond (m : en_amx8x5_communication_mode_t) (ty addr : Nat)
    (t : stc_amx8x5_time_t) (enModeRepeat enModeIrq enModePin : Nat) (regs : RegFile)
    (l : List Call)
    (hrep : enModeRepeat = AMx8x5Alarm10thSecond ∨ enModeRepeat = AMx8x5Alarm100thSecond)
    (hirq : AMx8x5InterruptModePulseShort ≤ enModeIrq ∧
      enModeIrq ≤ AMx8x5InterruptModePulseLong)
    (hpin : enModePin = AMx8x5InterruptIrq ∨ enModePin = AMx8x5InterruptIrq2) :
    (Amx8x5_SetAlarm (some (RegDev.handle noFault m ty addr)) (some t) enModeRepeat
        enModeIrq enModePin { regs := regs, log := l }).1 = .Ok ∧
    (RegFile.byte (Amx8x5_SetAlarm (some (RegDev.handle noFault m ty addr)) (some t)
        enModeRepeat enModeIrq enModePin { regs := regs, log := l }).2.regs 0x18
      >>> 2) &&& 7 = AMx8x5AlarmSecond ∧
    (Amx8x5_SetAlarm (some (RegDev.handle noFault m ty addr)) (some t) enModeRepeat
        enModeIrq enModePin { regs := regs, log := l }).2.regs 0x08 =
      (if enModeRepeat = AMx8x5Alarm10thSecond then AMX8X5_DEC_TO_BCD t.u8Hundredth ||| 0xF0
       else 0xFF) ∧
    (Amx8x5_SetAlarm (some (RegDev.handle noFault m ty addr)) (some t) enModeRepeat
        enModeIrq enModePin { regs := regs, log := l }).2.regs 0x08 >>> 4 = 0xF ∧
    (Amx8x5_SetAlarm (some (RegDev.handle noFault m ty addr)) (some t) enModeRepeat
        enModeIrq enModePin { regs := regs, log := l }).2.regs 0x09 =
      AMX8X5_DEC_TO_BCD t.u8Second := by
  simp only [enums] at hrep hirq hpin ⊢
  have hcode : SetAlarm_rpt_code enModeRepeat = 7 := by
    unfold SetAlarm_rpt_code; rw [if_pos hrep]
  rw [SetAlarm_enabled_ok m ty addr t enModeRepeat enModeIrq enModePin regs l (by omega)
    (by omega) hirq.1 hirq.2 hpin]
  have h := SetAlarm_enabled_regs t enModeRepeat enModeIrq enModePin regs
    (by rw [hcode]) hirq.2
  rw [hcode] at h
  have hb := h.2.2.2.2
  simp only [RegFile_load_7, SetAlarm_block, List.cons.injEq] at hb
  have hn := tenths_nibble_aux (AMX8X5_DEC_TO_BCD t.u8Hundredth) (dec_to_bcd_lt _)
  refine ⟨rfl, h.1, ?_, ?_, hb.2.1⟩
  · simp only [hb.1]; rcases hrep with rfl | rfl <;> simp
  · simp only [hb.1]; rcases hrep with rfl | rfl <;> simp [hn]

/-- C19 (amended) for tenths, short pulse, pin FOUT/nIRQ: the upper nibble of register
0x08 is 0xF. -/
theorem SetAlarm_subsecond_witness :
    (Amx8x5_SetAlarm (some (RegDev.handle noFault .AMx8x5ModeI2C 0x1805 0x69))
        (some sampleAlarm) AMx8x5Alarm10thSecond AMx8x5InterruptModePulseShort
        AMx8x5InterruptIrq { regs := RegFile.zero, log := [] }).2.regs 0x08 >>> 4 = 0xF :=
  (SetAlarm_subsecond .AMx8x5ModeI2C 0x1805 0x69 sampleAlarm AMx8x5Alarm10thSecond
    AMx8x5InterruptModePulseShort AMx8x5InterruptIrq RegFile.zero []
    (Or.inl rfl) (by decide) (Or.inl rfl)).2.2.2.1

/-- C20: on the register-file device with a transport that always succeeds,
`Amx8x5_SetAlarm` returns `ErrorInvalidParameter` for every pin selector beyond the
enumerators of `en_amx8x5_interrupt_pin_t` (0..2) and, when the repeat mode is not
`AMx8x5AlarmDisabled`, for every interrupt-mode selector beyond the enumerators of
`en_amx8x5_interrupt_mode_t` (0..3), whatever the pin. In both cases no call writes an
alarm register 0x08..0x0E, every call that writes INT_MASK (0x12) is a 1-byte write with
the AIE bit clear, and the AIE bit is 0 afterwards. -/
theorem SetAlarm_invalid_selector (m : en_amx8x5_communication_mode_t) (ty addr : Nat)
    (t : stc_amx8x5_time_t) (enModeRepeat enModeIrq enModePin : Nat) (regs : RegFile)
    (h : AMx8x5InterruptIrq2 < enModePin ∨
      (enModeRepeat ≠ AMx8x5AlarmDisabled ∧ AMx8x5InterruptModePulseLong < enModeIrq)) :
    (Amx8x5_SetAlarm (some (RegDev.handle noFault m ty addr)) (some t) enModeRepeat
        enModeIrq enModePin { regs := regs, log := [] }).1 = .ErrorInvalidParameter ∧
    (∀ c ∈ (Amx8x5_SetAlarm (some (RegDev.handle noFault m ty addr)) (some t) enModeRepeat
        enModeIrq enModePin { regs := regs, log := [] }).2.log,
      (∀ a, 0x08 ≤ a → a ≤ 0x0E → c.writes a = false) ∧
      (c.writes 0x12 = true → ∃ v, c = Call.write 0x12 [v] ∧ v &&& 0x04 = 0)) ∧
    RegFile.byte (Amx8x5_SetAlarm (some (RegDev.handle noFault m ty addr)) (some t)
        enModeRepeat enModeIrq enModePin { regs := regs, log := [] }).2.regs 0x12
      &&& 0x04 = 0 := by
  simp only [enums] at h
  rw [SetAlarm_rejected_ok m ty addr t enModeRepeat enModeIrq enModePin regs [] h]
  refine ⟨rfl, ?_, ?_⟩
  · intro c hc
    have h := SetAlarm_rejected_calls_safe enModePin regs c (by simpa using hc)
    exact ⟨Call.writes_of_avoids c 8 14 h.1, h.2⟩
  · obtain ⟨h1, -, -, h4⟩ := int_mask_bits_aux (u8 (regs 18)) (u8_lt _)
    simp only [SetAlarm_rejected_irq_calls, SetAlarm_clear_calls, SetAlarm_pin_calls]
    split_ifs <;>
      simp [RegFile.replay, RegFile.store, RegFile.byte, u8_u8, u8_and, u8_or, masks,
        masks2, h1, h4]

/-- C20 for the pin selector 3 on a register file with all bits set. -/
theorem SetAlarm_invalid_selector_witness :
    (Amx8x5_SetAlarm (some (RegDev.handle noFault .AMx8x5ModeI2C 0x1805 0x69))
        (some sampleAlarm) AMx8x5AlarmDay AMx8x5InterruptModePulseShort 3
        { regs := RegFile.allOnes, log := [] }).1 = .ErrorInvalidParameter :=
  (SetAlarm_invalid_selector .AMx8x5ModeI2C 0x1805 0x69 sampleAlarm AMx8x5AlarmDay
    AMx8x5InterruptModePulseShort 3 RegFile.allOnes (Or.inl (by decide))).1

/-! ## Constants, selectors and bytes of the power, timer and RAM code -/

theorem consts3 : AMX8X5_REG_STATUS_WDT_MSK = 32 ∧ AMX8X5_REG_STATUS_TIM_MSK = 8
    ∧ AMX8X5_REG_INT_MASK_TIE_MSK = 8 ∧ AMX8X5_REG_SQW = 19 ∧ AMX8X5_REG_SLEEP_CTRL = 23
    ∧ AMX8X5_REG_TIMER = 25 ∧ AMX8X5_REG_TIMER_INITIAL = 26 ∧ AMX8X5_REG_WDT = 27
    ∧ AMX8X5_REG_OSC_CONTROL = 28 ∧ AMX8X5_REG_OSC_STATUS_OMODE_MSK = 16
    ∧ AMX8X5_REG_CONFIG_KEY = 31 ∧ AMX8X5_REG_TRICKLE = 32
    ∧ AMX8X5_REG_TRICKLE_TCS_ENABLE_VALUE = 10 ∧ AMX8X5_REG_TRICKLE_TCS_POS = 4
    ∧ AMX8X5_REG_TRICKLE_DIODE_POS = 2 ∧ AMX8X5_REG_TRICKLE_ROUT_POS = 0
    ∧ AMX8X5_REG_BREF_CTRL = 33 ∧ AMX8X5_REG_ID0 = 40 ∧ AMX8X5_REG_EXTENDED_ADDR = 63
    ∧ AMX8X5_CONFIG_KEY_VAL = 161 := by
  decide

theorem enums3 : AMx8x5Type0805 = 2053 ∧ AMx8x5Type0815 = 2069 ∧ AMx8x5Type1805 = 6149
    ∧ AMx8x5Type1815 = 6165 ∧ AMx8x5nRstLowInSleep = 0 ∧ AMx8x5PswIrq2HighInSleep = 1
    ∧ AMx8x5nRstLoPswIrq2HighInSleep = 2 ∧ AMx8x5Xt32KHzNoSwitch = 0
    ∧ AMx8x5Xt32KHzSwitchRcOnBat = 1 ∧ AMx8x5nRc128Hz = 2 ∧ AMx8x5PeriodeUs = 0
    ∧ AMx8x5PeriodeSeconds = 1 ∧ AMx8x5RepeatModeSingleLevel = 0
    ∧ AMx8x5CountdownInterruptPinDisable = 0 ∧ AMx8x5CountdownInterruptPinnTIRQLow = 1
    ∧ AMx8x5CountdownInterruptPinFOUTnIRQLownTIRQLow = 2
    ∧ AMx8x5CountdownInterruptPinPSWnIRQ2LownTIRQLow = 3
    ∧ AMx8x5CountdownInterruptPinCLKOUTnIRQ3LownTIRQLow = 4
    ∧ AMx8x5CountdownInterruptPinCLKOUTnIRQ3HighnTIRQLow = 5
    ∧ AMx8x5WatchdogInterruptPinDisable = 0 ∧ AMx8x5WatchdogInterruptPinFOUTnIRQ = 1
    ∧ AMx8x5WatchdogInterruptPinPSWnIRQ2 = 2 ∧ AMx8x5WatchdogInterruptPinnRST = 3
    ∧ AMx8x5AutoCalibrationPeriodDisable = 0 ∧ AMx8x5AutoCalibrationPeriodSingleCycle = 1
    ∧ AMx8x5AutoCalibrationPeriodCycleSecods1024 = 2
    ∧ AMx8x5AutoCalibrationPeriodCycleSecods512 = 3
    ∧ AMx8x5TrickleDiodeSchottky = 1 ∧ AMx8x5TrickleDiodeNormal = 2
    ∧ AMx8x5TrickleResistor3K = 1 ∧ AMx8x5TrickleResistor6K = 2
    ∧ AMx8x5TrickleResistor11K = 3
    ∧ AMx8x5BatReferenceFalling25V_Rising30V = 7 ∧ AMx8x5BatReferenceFalling21V_Rising25V = 11
    ∧ AMx8x5BatReferenceFalling18V_Rising22V = 13
    ∧ AMx8x5BatReferenceFalling14V_Rising16V = 15 := by
  decide

set_option maxRecDepth 100000 in
theorem ram_map_aux : ∀ a < 256,
    GetExtensionAddress_u8Xadd a = 8 + a / 64 ∧ RamAccess_register a = 64 + a % 64 ∧
    RamAccess_register a = 0x40 ||| (a &&& 0x3F) ∧
    GetExtensionAddress_u8Xadd a &&& 3 = a >>> 6 := by
  decide

set_option maxRecDepth 100000 in
theorem xadd_or_aux : ∀ c < 256, ∀ x < 4,
    u8 ((8 + x) ||| (c &&& 0xC0)) = (c &&& 0xC0) ||| (8 + x) := by
  decide

theorem Script_GetExtensionAddress (sc : Script) (m : en_amx8x5_communication_mode_t)
    (ty addr a : Nat) (log : List Call) (ha : a < 256) :
    Amx8x5_GetExtensionAddress (some (sc.handle m ty addr)) a true log =
      if sc.status log.length = 0 then
        (.Ok, (sc.byte log.length &&& 0xC0) ||| (0x08 + a / 64), log ++ [Call.read 0x3F 1])
      else (.Error, 0, log ++ [Call.read 0x3F 1]) := by
  obtain ⟨a1, -, -, -⟩ := ram_map_aux a ha
  have hx := xadd_or_aux (sc.byte log.length) (u8_lt _) (a / 64) (by omega)
  by_cases h : sc.status log.length = 0 <;>
    simp [Amx8x5_GetExtensionAddress, Script_ReadByte, consts3, h, a1, Script.byte]
  simpa [Script.byte] using hx

theorem RegDev_handle_enRtcType (fault : Nat → Int) (m : en_amx8x5_communication_mode_t)
    (ty addr : Nat) : (RegDev.handle fault m ty addr).enRtcType = ty := rfl

theorem Script_handle_enRtcType (sc : Script) (m : en_amx8x5_communication_mode_t)
    (ty addr : Nat) : (sc.handle m ty addr).enRtcType = ty := rfl

theorem RegFile_load_2 (m : RegFile) (r : Nat) : RegFile.load m r 2 = [m r, m (r + 1)] := rfl

set_option maxRecDepth 100000 in
theorem id_word_aux : ∀ x < 256, ∀ y < 256, ∀ p < 256, ∀ q < 256,
    ((x + 256 * y) &&& 0xFFFF = p + 256 * q ↔ x = p ∧ y = q) := by
  intro x hx y hy p hp q hq
  have e : (x + 256 * y) &&& 0xFFFF = x + 256 * y := by
    have := Nat.and_pow_two_sub_one_eq_mod (x + 256 * y) 16
    norm_num at this
    rw [this]; omega
  rw [e]; omega

theorem masks3 : 255 ^^^ u8 32 = 223 ∧ 255 ^^^ u8 8 = 247 ∧ u8 8 = 8 ∧ u8 223 = 223
    ∧ u8 247 = 247 ∧ u8 157 = 157 ∧ u8 161 = 161 ∧ u8 60 = 60 ∧ u8 155 = 155 ∧ u8 154 = 154
    ∧ u8 24 = 24 ∧ u8 20 = 20 ∧ u8 16 = 16 ∧ u8 103 = 103 ∧ u8 159 = 159 ∧ u8 112 = 112
    ∧ u8 176 = 176 ∧ u8 208 = 208 ∧ u8 240 = 240 ∧ u8 192 = 192 ∧ u8 28 = 28
    ∧ u8 15 = 15 ∧ u8 124 = 124 ∧ u8 64 = 64 := by
  decide

theorem Script_ReadByte_byte (sc : Script) (m : en_amx8x5_communication_mode_t)
    (ty addr reg : Nat) (log : List Call) :
    Amx8x5_ReadByte (some (sc.handle m ty addr)) reg true log =
      if sc.status log.length = 0 then (.Ok, sc.byte log.length, log ++ [Call.read reg 1])
      else (.Error, 0, log ++ [Call.read reg 1]) :=
  Script_ReadByte sc m ty addr reg log

theorem Script_byte_lt (sc : Script) (n : Nat) : sc.byte n < 256 := u8_lt _

theorem u8_Script_byte (sc : Script) (n : Nat) : u8 (sc.byte n) = sc.byte n := u8_u8 _

set_option maxRecDepth 100000 in
theorem bit7_aux : ∀ c < 256, (c &&& 128 = 128 ↔ ¬ c &&& 128 = 0) := by decide

/-! ## The watchdog period -/

theorem SetWatchdog_WRB_cases (p : Nat) :
    (p < 1937 ∧ SetWatchdog_WRB p = 0) ∨ (1937 ≤ p ∧ p < 7750 ∧ SetWatchdog_WRB p = 1) ∨
    (7750 ≤ p ∧ p < 31000 ∧ SetWatchdog_WRB p = 2) ∨ (31000 ≤ p ∧ SetWatchdog_WRB p = 3) := by
  unfold SetWatchdog_WRB
  split_ifs <;> omega

theorem WDT_ticks_values (p : Nat) :
    WDT_ticks 0 p = p * 16 / 1000 ∧ WDT_ticks 1 p = p * 4 / 1000 ∧
    WDT_ticks 2 p = p / 1000 ∧ WDT_ticks 3 p = p / 4000 := by
  simp [WDT_ticks]

theorem SetWatchdog_BMB_eq (p : Nat) (h : p ≤ 127999) :
    SetWatchdog_BMB p = WDT_ticks (SetWatchdog_WRB p) p := by
  obtain ⟨t0, t1, t2, t3⟩ := WDT_ticks_values p
  rcases SetWatchdog_WRB_cases p with ⟨h1, e⟩ | ⟨h1, h2, e⟩ | ⟨h1, h2, e⟩ | ⟨h1, e⟩ <;>
    rw [e] <;> unfold SetWatchdog_BMB <;> simp only [Nat.reduceDiv]
  · rw [if_pos h1, t0]; exact u8_of_lt (by omega)
  · rw [if_neg (by omega), if_pos h2, t1]; exact u8_of_lt (by omega)
  · rw [if_neg (by omega), if_neg (by omega), if_pos h2, t2]; exact u8_of_lt (by omega)
  · rw [if_neg (by omega), if_neg (by omega), if_neg (by omega), t3]
    exact u8_of_lt (by omega)

theorem WDT_ticks_le (p : Nat) (h : p ≤ 127999) : WDT_ticks (SetWatchdog_WRB p) p ≤ 31 := by
  obtain ⟨t0, t1, t2, t3⟩ := WDT_ticks_values p
  rcases SetWatchdog_WRB_cases p with ⟨h1, e⟩ | ⟨h1, h2, e⟩ | ⟨h1, h2, e⟩ | ⟨h1, e⟩ <;>
    rw [e] <;> omega

theorem WDT_ticks_ge (p : Nat) (h : 65 ≤ p) : 1 ≤ WDT_ticks (SetWatchdog_WRB p) p := by
  obtain ⟨t0, t1, t2, t3⟩ := WDT_ticks_values p
  rcases SetWatchdog_WRB_cases p with ⟨h1, e⟩ | ⟨h1, h2, e⟩ | ⟨h1, h2, e⟩ | ⟨h1, e⟩ <;>
    rw [e] <;> omega

theorem SetWatchdog_WRB_le (p : Nat) : SetWatchdog_WRB p ≤ 3 := by
  rcases SetWatchdog_WRB_cases p with ⟨h1, e⟩ | ⟨h1, h2, e⟩ | ⟨h1, h2, e⟩ | ⟨h1, e⟩ <;> omega

/-! ## The countdown control byte -/

theorem SetCountdown_compute_bits (enOMODE enRange : Nat) (iPeriod : Int)
    (enRepeat enPin : Nat) :
    (enPin ≠ 0 → (SetCountdown_compute enOMODE enRange iPeriod enRepeat enPin).u8TE = 1) ∧
    (enPin = 0 → (SetCountdown_compute enOMODE enRange iPeriod enRepeat enPin).u8TE = 0) ∧
    (SetCountdown_compute enOMODE enRange iPeriod enRepeat enPin).u8TE ≤ 1 ∧
    (SetCountdown_compute enOMODE enRange iPeriod enRepeat enPin).u8TM ≤ 1 ∧
    (SetCountdown_compute enOMODE enRange iPeriod enRepeat enPin).u8TRPT ≤ 1 ∧
    (SetCountdown_compute enOMODE enRange iPeriod enRepeat enPin).u8TFS ≤ 3 := by
  have hr : u8 enRepeat &&& 1 ≤ 1 := Nat.and_le_right
  unfold SetCountdown_compute
  simp only [enums3]
  split_ifs <;> simp_all

theorem or_and_right (a b k : Nat) : (a ||| b) &&& k = (a &&& k) ||| (b &&& k) := by
  rw [Nat.and_comm, Nat.and_or_distrib_left, Nat.and_comm k a, Nat.and_comm k b]

set_option maxRecDepth 100000 in
theorem merge_fields_aux : ∀ te < 2, ∀ tm < 2, ∀ tr < 2, ∀ tf < 4,
    (te * 0x80 ||| tm * 0x40 ||| tr * 0x20 ||| tf) &&& 0x1C = 0 ∧
    (te * 0x80 ||| tm * 0x40 ||| tr * 0x20 ||| tf) &&& 0x80 = te * 0x80 ∧
    (te * 0x80 ||| tm * 0x40 ||| tr * 0x20 ||| tf) < 256 := by
  decide

theorem SetCountdown_merge_bits (c : Nat) (v : SetCountdown_locals) (hc : c < 256)
    (h1 : v.u8TE ≤ 1) (h2 : v.u8TM ≤ 1) (h3 : v.u8TRPT ≤ 1) (h4 : v.u8TFS ≤ 3) :
    SetCountdown_merge (c &&& 0x1C) v &&& 0x1C = c &&& 0x1C ∧
    SetCountdown_merge (c &&& 0x1C) v &&& 0x80 = v.u8TE * 0x80 ∧
    SetCountdown_merge (c &&& 0x1C) v < 256 := by
  obtain ⟨a1, a2, a3⟩ := merge_fields_aux v.u8TE (by omega) v.u8TM (by omega) v.u8TRPT
    (by omega) v.u8TFS (by omega)
  have e : SetCountdown_merge (c &&& 0x1C) v =
      (c &&& 0x1C) ||| (v.u8TE * 0x80 ||| v.u8TM * 0x40 ||| v.u8TRPT * 0x20 ||| v.u8TFS) := by
    unfold SetCountdown_merge
    rw [u8_of_lt]
    · simp only [Nat.lor_assoc]
    · simp only [Nat.lor_assoc]
      exact or_lt_256 (and_lt_256 _ hc) (by simpa only [Nat.lor_assoc] using a3)
  rw [e]
  refine ⟨?_, ?_, or_lt_256 (and_lt_256 _ hc) a3⟩
  · rw [or_and_right, a1, Nat.and_assoc]
    simp
  · rw [or_and_right, a2, Nat.and_assoc]
    show c &&& 0 ||| v.u8TE * 128 = v.u8TE * 128
    simp

set_option maxRecDepth 100000 in
theorem rpt_te_aux : ∀ c < 256, (c &&& 0x1C) &&& 0x80 = 0 := by decide

theorem u8_SetCountdown_merge (c : Nat) (v : SetCountdown_locals) :
    u8 (SetCountdown_merge c v) = SetCountdown_merge c v := by
  unfold SetCountdown_merge
  exact u8_u8 _

theorem SetCountdown_route_calls_safe (sc : Script) (enPin : Nat) :
    ∀ c ∈ SetCountdown_route_calls sc enPin,
      c.writes 0x18 = false ∧ c.writes 0x19 = false ∧ c.writes 0x1A = false ∧
      (c = Call.read 0x11 1 ∨ (∃ v, c = Call.write 0x11 [v]) ∨ ∃ v, c = Call.write 0x13 [v]) := by
  unfold SetCountdown_route_calls
  split_ifs <;> simp [Call.writes]

/-! ## Unlock keys in the call traces -/

theorem keyedAfter_reads (a : Nat) (n : Nat) (prev : Option Call) :
    keyedAfter prev (List.replicate n (Call.read a 1)) = true := by
  induction n generalizing prev with
  | zero => rfl
  | succ n ih => simp [List.replicate_succ, keyedAfter, Call.key, Call.writes, ih]

theorem keyedAfter_append (l1 l2 : List Call) (prev : Option Call) :
    keyedAfter prev (l1 ++ l2) =
      (keyedAfter prev l1 && keyedAfter (if l1 = [] then prev else l1.getLast?) l2) := by
  induction l1 generalizing prev with
  | nil => simp [keyedAfter]
  | cons c cs ih =>
    by_cases hcs : cs = []
    · subst hcs
      simp [keyedAfter]
    · simp [keyedAfter, ih, hcs, List.getLast?_cons_cons, Bool.and_assoc]
      cases cs with
      | nil => exact absurd rfl hcs
      | cons d ds => simp [List.getLast?_cons_cons]

theorem Script_wait (sc : Script) (m : en_amx8x5_communication_mode_t)
    (ty addr enSelect : Nat) (n : Nat) (log : List Call) :
    ∃ k, (SelectOscillatorMode_wait (some (sc.handle m ty addr)) enSelect n log).2 =
      log ++ List.replicate k (Call.read 0x1D 1) := by
  induction n generalizing log with
  | zero => exact ⟨0, by simp [SelectOscillatorMode_wait]⟩
  | succ n ih =>
    by_cases h : sc.status log.length = 0
    · by_cases hb : (sc.byte log.length &&& 16) >>> 4 = u8 enSelect >>> 1
      · exact ⟨1, by simp [SelectOscillatorMode_wait, Script_ReadByte_byte, consts2, h, hb]⟩
      · obtain ⟨k, hk⟩ := ih (log ++ [Call.read 0x1D 1])
        refine ⟨k + 1, ?_⟩
        simp [SelectOscillatorMode_wait, Script_ReadByte_byte, consts2, h, hb, hk,
          List.replicate_succ]
    · exact ⟨1, by simp [SelectOscillatorMode_wait, Script_ReadByte_byte, consts2, h]⟩

theorem Script_SelectOscillatorMode_keyed (sc : Script) (m : en_amx8x5_communication_mode_t)
    (ty addr enSelect : Nat) :
    keyedAfter none
      (Amx8x5_SelectOscillatorMode (some (sc.handle m ty addr)) enSelect []).2 = true := by
  by_cases h0 : sc.status 0 = 0
  · by_cases h1 : sc.status 1 = 0
    · by_cases h2 : sc.status 2 = 0
      · have hcases : enSelect = 0 ∨ enSelect = 1 ∨ enSelect = 2 ∨
            (enSelect ≠ 0 ∧ enSelect ≠ 1 ∧ enSelect ≠ 2) := by omega
        rcases hcases with rfl | rfl | rfl | ⟨e0, e1, e2⟩
        · obtain ⟨k, hk⟩ := Script_wait sc m ty addr 0 100
            [Call.read 0x1C 1, Call.write 0x1F [0xA1], Call.write 0x1C [sc.byte 0 &&& 0x67]]
          simp [Amx8x5_SelectOscillatorMode, Script_ReadByte_byte, Script_WriteByte, consts3,
            enums3, masks3, u8_and, u8_or, u8_Script_byte, h0, h1, h2, hk,
            keyedAfter_append, keyedAfter_reads, keyedAfter, Call.key, Call.writes]
        · obtain ⟨k, hk⟩ := Script_wait sc m ty addr 1 100
            [Call.read 0x1C 1, Call.write 0x1F [0xA1],
              Call.write 0x1C [sc.byte 0 &&& 0x67 ||| 0x10]]
          simp [Amx8x5_SelectOscillatorMode, Script_ReadByte_byte, Script_WriteByte, consts3,
            enums3, masks3, u8_and, u8_or, u8_Script_byte, h0, h1, h2, hk,
            keyedAfter_append, keyedAfter_reads, keyedAfter, Call.key, Call.writes]
        · obtain ⟨k, hk⟩ := Script_wait sc m ty addr 2 100
            [Call.read 0x1C 1, Call.write 0x1F [0xA1],
              Call.write 0x1C [sc.byte 0 &&& 0x67 ||| 0x80]]
          simp [Amx8x5_SelectOscillatorMode, Script_ReadByte_byte, Script_WriteByte, consts3,
            enums3, masks, masks3, u8_and, u8_or, u8_Script_byte, h0, h1, h2, hk,
            keyedAfter_append, keyedAfter_reads, keyedAfter, Call.key, Call.writes]
        · simp [Amx8x5_SelectOscillatorMode, Script_ReadByte_byte, Script_WriteByte, consts3,
            enums3, masks3, h0, h1, e0, e1, e2, keyedAfter, Call.key, Call.writes]
      · have hcases : enSelect = 0 ∨ enSelect = 1 ∨ enSelect = 2 ∨
            (enSelect ≠ 0 ∧ enSelect ≠ 1 ∧ enSelect ≠ 2) := by omega
        rcases hcases with rfl | rfl | rfl | ⟨e0, e1, e2⟩ <;>
          simp [Amx8x5_SelectOscillatorMode, Script_ReadByte_byte, Script_WriteByte, consts3,
            enums3, masks3, h0, h1, h2, keyedAfter, Call.key, Call.writes, *]
    · simp [Amx8x5_SelectOscillatorMode, Script_ReadByte_byte, Script_WriteByte, consts3,
        enums3, masks3, h0, h1, keyedAfter, Call.key, Call.writes]
  · simp [Amx8x5_SelectOscillatorMode, Script_ReadByte_byte, Script_WriteByte, consts3,
      enums3, masks3, h0, keyedAfter, Call.key, Call.writes]

theorem Script_SetAutocalibration_keyed (sc : Script) (m : en_amx8x5_communication_mode_t)
    (ty addr enPeriod : Nat) :
    keyedAfter none
      (Amx8x5_SetAutocalibration (some (sc.handle m ty addr)) enPeriod []).2 = true := by
  have hcases : enPeriod = 0 ∨ enPeriod = 1 ∨ enPeriod = 2 ∨ enPeriod = 3 ∨
      (enPeriod ≠ 0 ∧ enPeriod ≠ 1 ∧ enPeriod ≠ 2 ∧ enPeriod ≠ 3) := by omega
  rcases hcases with rfl | rfl | rfl | rfl | ⟨e0, e1, e2, e3⟩ <;>
    by_cases h0 : sc.status 0 = 0 <;> by_cases h1 : sc.status 1 = 0 <;>
    by_cases h2 : sc.status 2 = 0 <;> by_cases h3 : sc.status 3 = 0 <;>
    by_cases h4 : sc.status 4 = 0 <;>
    simp [Amx8x5_SetAutocalibration, Script_ReadByte_byte, Script_WriteByte, consts3,
      enums3, masks3, h0, h1, h2, h3, h4, keyedAfter, Call.key, Call.writes, *]

/-! ## Frames on the register-file device -/

theorem RegFile_store_1 (m : RegFile) (reg v a : Nat) :
    RegFile.store m reg [v] a = if a = reg then v else m a := rfl

theorem RegFile_store_other (m : RegFile) (reg : Nat) (data : List Nat) (a : Nat)
    (h : a < reg ∨ reg + data.length ≤ a) : RegFile.store m reg data a = m a := by
  induction data generalizing m reg with
  | nil => rfl
  | cons b bs ih =>
    simp only [RegFile.store]
    rw [ih]
    · have : a ≠ reg := by
        simp only [List.length_cons] at h
        omega
      simp [this]
    · simp only [List.length_cons] at h
      omega

theorem RegDev_ReadByte_ok (m : en_amx8x5_communication_mode_t) (ty addr reg : Nat)
    (d : RegDev) :
    (Amx8x5_ReadByte (some (RegDev.handle noFault m ty addr)) reg true d).1 = .Ok ∧
    (Amx8x5_ReadByte (some (RegDev.handle noFault m ty addr)) reg true d).2.1 = u8 (d.regs reg) ∧
    (Amx8x5_ReadByte (some (RegDev.handle noFault m ty addr)) reg true d).2.2.regs = d.regs := by
  simp [RegDev_ReadByte, noFault]

theorem RegDev_WriteByte_ok (m : en_amx8x5_communication_mode_t) (ty addr reg v : Nat)
    (d : RegDev) :
    (Amx8x5_WriteByte (some (RegDev.handle noFault m ty addr)) reg v d).1 = .Ok ∧
    (Amx8x5_WriteByte (some (RegDev.handle noFault m ty addr)) reg v d).2.regs =
      RegFile.store d.regs reg [u8 v] := by
  simp [RegDev_WriteByte, noFault]

theorem RegDev_ClearRegister_ok (m : en_amx8x5_communication_mode_t) (ty addr reg k : Nat)
    (d : RegDev) :
    (Amx8x5_ClearRegister (some (RegDev.handle noFault m ty addr)) reg k d).1 = .Ok ∧
    (Amx8x5_ClearRegister (some (RegDev.handle noFault m ty addr)) reg k d).2.regs =
      RegFile.store d.regs reg [u8 (d.regs reg) &&& (0xFF ^^^ u8 k)] := by
  have h : u8 (u8 (d.regs reg) &&& (255 ^^^ u8 k)) = u8 (d.regs reg) &&& (255 ^^^ u8 k) :=
    u8_of_lt (and_lt_256 _ (u8_lt _))
  simp [Amx8x5_ClearRegister, RegDev_ReadByte, RegDev_WriteByte, noFault, h]

theorem RegDev_SetRegister_ok (m : en_amx8x5_communication_mode_t) (ty addr reg k : Nat)
    (d : RegDev) :
    (Amx8x5_SetRegister (some (RegDev.handle noFault m ty addr)) reg k d).1 = .Ok ∧
    (Amx8x5_SetRegister (some (RegDev.handle noFault m ty addr)) reg k d).2.regs =
      RegFile.store d.regs reg [u8 (d.regs reg) ||| u8 k] := by
  have h : u8 (u8 (d.regs reg) ||| u8 k) = u8 (d.regs reg) ||| u8 k :=
    u8_of_lt (or_lt_256 (u8_lt _) (u8_lt _))
  simp [Amx8x5_SetRegister, RegDev_ReadByte, RegDev_WriteByte, noFault, h]

theorem RegDev_SetOut1Mode_frame (m : en_amx8x5_communication_mode_t) (ty addr md : Nat)
    (d : RegDev) (a : Nat) (ha : a ≠ 0x11) :
    (Amx8x5_SetOut1Mode (some (RegDev.handle noFault m ty addr)) md d).2.regs a = d.regs a := by
  unfold Amx8x5_SetOut1Mode
  simp only [(RegDev_ClearRegister_ok _ _ _ _ _ _).1, (RegDev_SetRegister_ok _ _ _ _ _ _).1,
    consts2]
  split_ifs <;>
    simp [(RegDev_ClearRegister_ok _ _ _ _ _ _).2, (RegDev_SetRegister_ok _ _ _ _ _ _).2,
      RegFile_store_1, ha]

theorem RegDev_SetOut2Mode_frame (m : en_amx8x5_communication_mode_t) (ty addr md : Nat)
    (d : RegDev) (a : Nat) (ha : a ≠ 0x11) :
    (Amx8x5_SetOut2Mode (some (RegDev.handle noFault m ty addr)) md d).2.regs a = d.regs a := by
  unfold Amx8x5_SetOut2Mode
  simp only [(RegDev_ClearRegister_ok _ _ _ _ _ _).1, (RegDev_SetRegister_ok _ _ _ _ _ _).1,
    consts2]
  split_ifs <;>
    simp [(RegDev_ClearRegister_ok _ _ _ _ _ _).2, (RegDev_SetRegister_ok _ _ _ _ _ _).2,
      RegFile_store_1, ha]

theorem RegDev_ClearRegister_frame (m : en_amx8x5_communication_mode_t)
    (ty addr reg k : Nat) (d : RegDev) (a : Nat) (ha : a ≠ reg) :
    (Amx8x5_ClearRegister (some (RegDev.handle noFault m ty addr)) reg k d).2.regs a =
      d.regs a := by
  simp [(RegDev_ClearRegister_ok _ _ _ _ _ _).2, RegFile_store_1, ha]

theorem RegDev_SetRegister_frame (m : en_amx8x5_communication_mode_t)
    (ty addr reg k : Nat) (d : RegDev) (a : Nat) (ha : a ≠ reg) :
    (Amx8x5_SetRegister (some (RegDev.handle noFault m ty addr)) reg k d).2.regs a =
      d.regs a := by
  simp [(RegDev_SetRegister_ok _ _ _ _ _ _).2, RegFile_store_1, ha]

theorem RegDev_WriteByte_frame (m : en_amx8x5_communication_mode_t)
    (ty addr reg v : Nat) (d : RegDev) (a : Nat) (ha : a ≠ reg) :
    (Amx8x5_WriteByte (some (RegDev.handle noFault m ty addr)) reg v d).2.regs a =
      d.regs a := by
  simp [(RegDev_WriteByte_ok _ _ _ _ _ _).2, RegFile_store_1, ha]

theorem RegDev_ReadByte_frame (m : en_amx8x5_communication_mode_t)
    (ty addr reg : Nat) (d : RegDev) :
    (Amx8x5_ReadByte (some (RegDev.handle noFault m ty addr)) reg true d).2.2.regs = d.regs :=
  (RegDev_ReadByte_ok m ty addr reg d).2.2

theorem RegDev_WriteBytes_frame (m : en_amx8x5_communication_mode_t)
    (ty addr reg len : Nat) (data : List Nat) (d : RegDev) (a : Nat)
    (ha : a < reg ∨ reg + len ≤ a) :
    (Amx8x5_WriteBytes (some (RegDev.handle noFault m ty addr)) reg (some data) len d).2.regs a
      = d.regs a := by
  simp only [RegDev_WriteBytes, noFault, if_true]
  apply RegFile_store_other
  have : (data.take len).length ≤ len := by simp
  omega

set_option maxRecDepth 100000 in
theorem timer_other_aux : ∀ c < 256,
    (c &&& 227) &&& 227 = c &&& 227 ∧ (c ||| 4) &&& 227 = c &&& 227 ∧
    (c ||| 8) &&& 227 = c &&& 227 ∧ (c ||| 12) &&& 227 = c &&& 227 ∧
    (c ||| 16) &&& 227 = c &&& 227 ∧ (c ||| 20) &&& 227 = c &&& 227 ∧
    (c ||| 24) &&& 227 = c &&& 227 ∧ (c ||| 28) &&& 227 = c &&& 227 := by
  decide

theorem RegDev_SetAlarm_pin_frame (m : en_amx8x5_communication_mode_t) (ty addr pin : Nat)
    (d : RegDev) :
    (SetAlarm_pin (some (RegDev.handle noFault m ty addr)) pin d).2.regs 0x18 =
      d.regs 0x18 := by
  unfold SetAlarm_pin
  simp only [(RegDev_ReadByte_ok _ _ _ _ _).1, consts2]
  split_ifs <;>
    simp [RegDev_SetOut1Mode_frame, RegDev_SetOut2Mode_frame, RegDev_ReadByte_frame]

theorem RegDev_SetAlarm_irq_frame (m : en_amx8x5_communication_mode_t) (ty addr irq : Nat)
    (d : RegDev) :
    (SetAlarm_irq (some (RegDev.handle noFault m ty addr)) irq d).2.regs 0x18 =
      d.regs 0x18 := by
  unfold SetAlarm_irq
  simp only [consts2]
  split_ifs <;> simp [RegDev_SetRegister_frame]

theorem RegDev_SetAlarm_rpt_frame (m : en_amx8x5_communication_mode_t) (ty addr rep : Nat)
    (d : RegDev) :
    u8 ((SetAlarm_rpt (some (RegDev.handle noFault m ty addr)) rep d).2.regs 0x18) &&& 0xE3 =
      u8 (d.regs 0x18) &&& 0xE3 := by
  obtain ⟨-, h1, h2, h3, h4, h5, h6, h7⟩ := timer_other_aux (u8 (d.regs 24)) (u8_lt _)
  have e : u8 4 = 4 ∧ u8 8 = 8 ∧ u8 12 = 12 ∧ u8 16 = 16 ∧ u8 20 = 20 ∧ u8 24 = 24 ∧
      u8 28 = 28 := by decide
  unfold SetAlarm_rpt
  simp only [consts2]
  split_ifs <;>
    simp [(RegDev_SetRegister_ok _ _ _ _ _ _).2, RegFile_store_1, u8_or, u8_u8, e,
      h1, h2, h3, h4, h5, h6, h7]

theorem RegDev_EnableIrqAlarm_frame (m : en_amx8x5_communication_mode_t)
    (ty addr : Nat) (b : Bool) (d : RegDev) :
    (Amx8x5_EnableIrqAlarm (some (RegDev.handle noFault m ty addr)) b d).2.regs 0x18 =
      d.regs 0x18 := by
  cases b <;>
    simp [Amx8x5_EnableIrqAlarm, consts2, RegDev_SetRegister_frame, RegDev_ClearRegister_frame]

theorem RegDev_SetAlarm_frame (m : en_amx8x5_communication_mode_t) (ty addr : Nat)
    (pstcTime : Option stc_amx8x5_time_t) (rep irq pin : Nat) (d : RegDev) :
    u8 ((Amx8x5_SetAlarm (some (RegDev.handle noFault m ty addr)) pstcTime rep irq pin
        d).2.regs 0x18) &&& 0xE3 = u8 (d.regs 0x18) &&& 0xE3 := by
  have hc := (timer_other_aux (u8 (d.regs 24)) (u8_lt _)).1
  have hclr : u8 ((Amx8x5_ClearRegister (some (RegDev.handle noFault m ty addr))
      AMX8X5_REG_TIMER_CTRL 28 d).2.regs 24) &&& 227 = u8 (d.regs 24) &&& 227 := by
    simp [(RegDev_ClearRegister_ok _ _ _ _ _ _).2, RegFile_store_1, u8_and, u8_u8, masks2, hc,
      consts2]
  have e18 : (24 : Nat) ≠ AMX8X5_REG_INT_MASK := by decide
  have e15 : (24 : Nat) ≠ AMX8X5_REG_STATUS := by decide
  have e08 : AMX8X5_REG_ALARM_HUNDRS + 7 ≤ 24 := by decide
  cases pstcTime with
  | none => simp [Amx8x5_SetAlarm]
  | some t =>
    unfold Amx8x5_SetAlarm
    dsimp only
    generalize (if (if rep = AMx8x5Alarm10thSecond then AMx8x5AlarmSecond else rep) =
      AMx8x5Alarm100thSecond then AMx8x5AlarmSecond
      else if rep = AMx8x5Alarm10thSecond then AMx8x5AlarmSecond else rep) = rep2
    generalize hr1 : Amx8x5_ClearRegister (some (RegDev.handle noFault m ty addr))
      AMX8X5_REG_TIMER_CTRL 28 d = r1
    have i1 : u8 (r1.2.regs 24) &&& 227 = u8 (d.regs 24) &&& 227 := by
      rw [← hr1]; exact hclr
    generalize hr2 : Amx8x5_ClearRegister (some (RegDev.handle noFault m ty addr))
      AMX8X5_REG_INT_MASK 100 r1.2 = r2
    have i2 : u8 (r2.2.regs 24) &&& 227 = u8 (d.regs 24) &&& 227 := by
      rw [← hr2, RegDev_ClearRegister_frame _ _ _ _ _ _ _ e18]; exact i1
    generalize hr3 : Amx8x5_ClearRegister (some (RegDev.handle noFault m ty addr))
      AMX8X5_REG_STATUS 4 r2.2 = r3
    have i3 : u8 (r3.2.regs 24) &&& 227 = u8 (d.regs 24) &&& 227 := by
      rw [← hr3, RegDev_ClearRegister_frame _ _ _ _ _ _ _ e15]; exact i2
    generalize hr4 : SetAlarm_pin (some (RegDev.handle noFault m ty addr)) pin r3.2 = r4
    have i4 : u8 (r4.2.regs 24) &&& 227 = u8 (d.regs 24) &&& 227 := by
      rw [← hr4, RegDev_SetAlarm_pin_frame]; exact i3
    generalize hr5 : Amx8x5_ClearRegister (some (RegDev.handle noFault m ty addr))
      AMX8X5_REG_INT_MASK AMX8X5_REG_INT_MASK_IM_MSK r4.2 = r5
    have i5 : u8 (r5.2.regs 24) &&& 227 = u8 (d.regs 24) &&& 227 := by
      rw [← hr5, RegDev_ClearRegister_frame _ _ _ _ _ _ _ e18]; exact i4
    generalize hr5e : Amx8x5_SetRegister (some (RegDev.handle noFault m ty addr))
      AMX8X5_REG_INT_MASK 96 r4.2 = r5e
    have i5e : u8 (r5e.2.regs 24) &&& 227 = u8 (d.regs 24) &&& 227 := by
      rw [← hr5e, RegDev_SetRegister_frame _ _ _ _ _ _ _ e18]; exact i4
    generalize hr6 : SetAlarm_irq (some (RegDev.handle noFault m ty addr)) irq r5.2 = r6
    have i6 : u8 (r6.2.regs 24) &&& 227 = u8 (d.regs 24) &&& 227 := by
      rw [← hr6, RegDev_SetAlarm_irq_frame]; exact i5
    generalize hr7 : SetAlarm_rpt (some (RegDev.handle noFault m ty addr)) rep2 r6.2 = r7
    have i7 : u8 (r7.2.regs 24) &&& 227 = u8 (d.regs 24) &&& 227 := by
      rw [← hr7, RegDev_SetAlarm_rpt_frame]; exact i6
    generalize hr8 : Amx8x5_WriteBytes (some (RegDev.handle noFault m ty addr))
      AMX8X5_REG_ALARM_HUNDRS _ 7 r7.2 = r8
    have i8 : u8 (r8.2.regs 24) &&& 227 = u8 (d.regs 24) &&& 227 := by
      rw [← hr8, RegDev_WriteBytes_frame _ _ _ _ _ _ _ _ (Or.inr e08)]; exact i7
    generalize hr9 : Amx8x5_EnableIrqAlarm (some (RegDev.handle noFault m ty addr)) true
      r8.2 = r9
    have i9 : u8 (r9.2.regs 24) &&& 227 = u8 (d.regs 24) &&& 227 := by
      rw [← hr9, RegDev_EnableIrqAlarm_frame]; exact i8
    clear hr1 hr2 hr3 hr4 hr5 hr5e hr6 hr7 hr8 hr9 hclr hc
    by_cases c1 : r1.1 ≠ .Ok
    · rw [if_pos c1]; exact i1
    rw [if_neg c1]
    by_cases c2 : r2.1 ≠ .Ok
    · rw [if_pos c2]; exact i2
    rw [if_neg c2]
    by_cases c3 : r3.1 ≠ .Ok
    · rw [if_pos c3]; exact i3
    rw [if_neg c3]
    by_cases c4 : r4.1 ≠ .Ok
    · rw [if_pos c4]; exact i4
    rw [if_neg c4]
    by_cases c0 : rep2 ≠ AMx8x5AlarmDisabled
    · rw [if_pos c0]
      by_cases c5 : r5.1 ≠ .Ok
      · rw [if_pos c5]; exact i5
      rw [if_neg c5]
      by_cases c6 : r6.1 ≠ .Ok
      · rw [if_pos c6]; exact i6
      rw [if_neg c6]
      by_cases c7 : r7.1 ≠ .Ok
      · rw [if_pos c7]; exact i7
      rw [if_neg c7]
      by_cases c8 : r8.1 ≠ .Ok
      · rw [if_pos c8]; exact i8
      rw [if_neg c8]
      by_cases c9 : r9.1 ≠ .Ok
      · rw [if_pos c9]; exact i9
      · rw [if_neg c9]; exact i9
    · rw [if_neg c0]
      by_cases c5 : r5e.1 ≠ .Ok
      · rw [if_pos c5]; exact i5e
      · rw [if_neg c5]; exact i5e

theorem RegDev_SetCountdown_route_frame (m : en_amx8x5_communication_mode_t)
    (ty addr pin : Nat) (d : RegDev) :
    (SetCountdown_route (some (RegDev.handle noFault m ty addr)) pin d).2.regs 0x18 =
      d.regs 0x18 := by
  unfold SetCountdown_route
  simp only [(RegDev_ReadByte_ok _ _ _ _ _).1, consts2, consts3]
  split_ifs <;>
    simp [RegDev_SetOut1Mode_frame, RegDev_ReadByte_frame, RegDev_WriteByte_frame]

set_option maxRecDepth 100000 in
theorem timer_ctrl_fields_aux : ∀ x < 256,
    (x >>> 2) &&& 7 = (x &&& 28) >>> 2 ∧ (x >>> 5) &&& 7 = (x &&& 227) >>> 5 ∧
    x &&& 3 = (x &&& 227) &&& 3 ∧ (x &&& 28) &&& 28 = x &&& 28 := by
  decide

theorem RegDev_SetCountdown_frame (m : en_amx8x5_communication_mode_t) (ty addr : Nat)
    (enRange : Nat) (iPeriod : Int) (enRepeat enPin : Nat) (d : RegDev) :
    u8 ((Amx8x5_SetCountdown (some (RegDev.handle noFault m ty addr)) enRange iPeriod
        enRepeat enPin d).2.regs 0x18) &&& 0x1C = u8 (d.regs 0x18) &&& 0x1C := by
  have e0f : (24 : Nat) ≠ AMX8X5_REG_STATUS := by decide
  have e12 : (24 : Nat) ≠ AMX8X5_REG_INT_MASK := by decide
  have e19 : (24 : Nat) ≠ AMX8X5_REG_TIMER := by decide
  have e1a : (24 : Nat) ≠ AMX8X5_REG_TIMER_INITIAL := by decide
  have e18 : AMX8X5_REG_TIMER_CTRL = 24 := by decide
  unfold Amx8x5_SetCountdown
  dsimp only
  generalize hr0 : Amx8x5_ReadByte (some (RegDev.handle noFault m ty addr))
    AMX8X5_REG_OSC_STATUS true d = r0
  have j0 : r0.2.2.regs = d.regs := by rw [← hr0]; exact RegDev_ReadByte_frame _ _ _ _ _
  obtain ⟨-, -, b3, b4, b5, b6⟩ := SetCountdown_compute_bits
    (if r0.2.1 &&& AMX8X5_REG_OSC_STATUS_OMODE_MSK ≠ 0 then AMx8x5ModeCalibrateRC
      else AMx8x5ModeCalibrateXT) enRange iPeriod enRepeat enPin
  generalize SetCountdown_compute
    (if r0.2.1 &&& AMX8X5_REG_OSC_STATUS_OMODE_MSK ≠ 0 then AMx8x5ModeCalibrateRC
      else AMx8x5ModeCalibrateXT) enRange iPeriod enRepeat enPin = v at b3 b4 b5 b6 ⊢
  generalize hr1 : Amx8x5_ReadByte (some (RegDev.handle noFault m ty addr))
    AMX8X5_REG_TIMER_CTRL true r0.2.2 = r1
  have j1 : r1.2.2.regs = d.regs := by
    rw [← hr1, RegDev_ReadByte_frame]; exact j0
  have k1 : r1.2.1 = u8 (d.regs 24) := by
    rw [← hr1, (RegDev_ReadByte_ok _ _ _ _ _).2.1, j0, e18]
  obtain ⟨-, -, -, f4⟩ := timer_ctrl_fields_aux (u8 (d.regs 24)) (u8_lt _)
  obtain ⟨m1, -, m3⟩ := SetCountdown_merge_bits (u8 (d.regs 24)) v (u8_lt _) b3 b4 b5 b6
  rw [k1]
  generalize hr2 : Amx8x5_WriteByte (some (RegDev.handle noFault m ty addr))
    AMX8X5_REG_TIMER_CTRL (u8 (d.regs 24) &&& 28) r1.2.2 = r2
  have j2 : u8 (r2.2.regs 24) &&& 28 = u8 (d.regs 24) &&& 28 := by
    rw [← hr2, (RegDev_WriteByte_ok _ _ _ _ _ _).2, e18, RegFile_store_1, if_pos rfl, u8_u8,
      u8_of_lt (and_lt_256 _ (u8_lt _)), f4]
  generalize hr3 : SetCountdown_route (some (RegDev.handle noFault m ty addr)) enPin r2.2 = r3
  have j3 : u8 (r3.2.regs 24) &&& 28 = u8 (d.regs 24) &&& 28 := by
    rw [← hr3, RegDev_SetCountdown_route_frame]; exact j2
  generalize hr4 : Amx8x5_ClearRegister (some (RegDev.handle noFault m ty addr))
    AMX8X5_REG_STATUS AMX8X5_REG_STATUS_TIM_MSK r3.2 = r4
  have j4 : u8 (r4.2.regs 24) &&& 28 = u8 (d.regs 24) &&& 28 := by
    rw [← hr4, RegDev_ClearRegister_frame _ _ _ _ _ _ _ e0f]; exact j3
  generalize hr5 : Amx8x5_SetRegister (some (RegDev.handle noFault m ty addr))
    AMX8X5_REG_INT_MASK AMX8X5_REG_INT_MASK_TIE_MSK r4.2 = r5
  have j5 : u8 (r5.2.regs 24) &&& 28 = u8 (d.regs 24) &&& 28 := by
    rw [← hr5, RegDev_SetRegister_frame _ _ _ _ _ _ _ e12]; exact j4
  generalize hr6 : Amx8x5_WriteByte (some (RegDev.handle noFault m ty addr))
    AMX8X5_REG_TIMER (bits32 v.u8Timer) r5.2 = r6
  have j6 : u8 (r6.2.regs 24) &&& 28 = u8 (d.regs 24) &&& 28 := by
    rw [← hr6, RegDev_WriteByte_frame _ _ _ _ _ _ _ e19]; exact j5
  generalize hr7 : Amx8x5_WriteByte (some (RegDev.handle noFault m ty addr))
    AMX8X5_REG_TIMER_INITIAL (bits32 v.u8Timer) r6.2 = r7
  have j7 : u8 (r7.2.regs 24) &&& 28 = u8 (d.regs 24) &&& 28 := by
    rw [← hr7, RegDev_WriteByte_frame _ _ _ _ _ _ _ e1a]; exact j6
  generalize hr8 : Amx8x5_WriteByte (some (RegDev.handle noFault m ty addr))
    AMX8X5_REG_TIMER_CTRL (SetCountdown_merge (u8 (d.regs 24) &&& 28) v) r7.2 = r8
  have j8 : u8 (r8.2.regs 24) &&& 28 = u8 (d.regs 24) &&& 28 := by
    rw [← hr8, (RegDev_WriteByte_ok _ _ _ _ _ _).2, e18, RegFile_store_1, if_pos rfl, u8_u8,
      u8_of_lt m3, m1]
  have j0' : u8 (r0.2.2.regs 24) &&& 28 = u8 (d.regs 24) &&& 28 := by rw [j0]
  have j1' : u8 (r1.2.2.regs 24) &&& 28 = u8 (d.regs 24) &&& 28 := by rw [j1]
  clear hr0 hr1 hr2 hr3 hr4 hr5 hr6 hr7 hr8
  by_cases c0 : r0.1 ≠ .Ok
  · rw [if_pos c0]; exact j0'
  rw [if_neg c0]
  by_cases c1 : r1.1 ≠ .Ok
  · rw [if_pos c1]; exact j1'
  rw [if_neg c1]
  by_cases c2 : r2.1 ≠ .Ok
  · rw [if_pos c2]; exact j2
  rw [if_neg c2]
  by_cases c3 : r3.1 ≠ .Ok
  · rw [if_pos c3]; exact j3
  rw [if_neg c3]
  by_cases cp : enPin ≠ AMx8x5CountdownInterruptPinDisable
  · rw [if_pos cp]
    by_cases c4 : r4.1 ≠ .Ok
    · rw [if_pos c4]; exact j4
    rw [if_neg c4]
    by_cases c5 : r5.1 ≠ .Ok
    · rw [if_pos c5]; exact j5
    rw [if_neg c5]
    by_cases c6 : r6.1 ≠ .Ok
    · rw [if_pos c6]; exact j6
    rw [if_neg c6]
    by_cases c7 : r7.1 ≠ .Ok
    · rw [if_pos c7]; exact j7
    rw [if_neg c7]
    by_cases c8 : r8.1 ≠ .Ok
    · rw [if_pos c8]; exact j8
    · rw [if_neg c8]; exact j8
  · rw [if_neg cp]; exact j3

/-! ## `Amx8x5_SetWatchdog` and CONTROL_1 on the register-file device -/

theorem SetWatchdog_RegDev_ok (m : en_amx8x5_communication_mode_t) (ty addr : Nat)
    (u32Period enPin : Nat) (regs : RegFile) (l : List Call) :
    Amx8x5_SetWatchdog (some (RegDev.handle noFault m ty addr)) u32Period enPin
        { regs := regs, log := l } =
      (.Ok, { regs := RegFile.replay regs (SetWatchdog_calls enPin regs),
              log := l ++ SetWatchdog_calls enPin regs }) := by
  have hcases : enPin = 0 ∨ enPin = 1 ∨ enPin = 2 ∨ (enPin ≠ 0 ∧ enPin ≠ 1 ∧ enPin ≠ 2) := by
    omega
  rcases hcases with rfl | rfl | rfl | ⟨e0, e1, e2⟩ <;>
    simp [Amx8x5_SetWatchdog, Amx8x5_SetOut1Mode, Amx8x5_SetOut2Mode, Amx8x5_ClearRegister,
      Amx8x5_SetRegister, RegDev_ReadByte, RegDev_WriteByte, consts, consts2, consts3, enums,
      enums3, masks, masks2, masks3, noFault, RegFile.store, RegFile.replay,
      SetWatchdog_calls, u8_u8, u8_and, u8_or, *]

theorem SetWatchdog_calls_WDT (enPin : Nat) (regs : RegFile) :
    (∀ c ∈ SetWatchdog_calls enPin regs, c.writes 0x1B = true → c = Call.write 0x1B [0]) ∧
    RegFile.replay regs (SetWatchdog_calls enPin regs) 0x1B = 0 := by
  unfold SetWatchdog_calls
  split_ifs <;> simp [Call.writes, RegFile.replay, RegFile.store]

set_option maxRecDepth 100000 in
theorem control_1_frame_aux : ∀ c < 256,
    ((c &&& 191 ||| 1) &&& 126) &&& 128 = 0 ∧ ((c &&& 191 ||| 1) &&& 126 ||| 1) &&& 128 = 0 ∧
    ((c ||| 64 ||| 1) &&& 126) &&& 128 = 0 ∧ ((c ||| 64 ||| 1) &&& 126 ||| 1) &&& 128 = 0 ∧
    ((c &&& 191 ||| 1) &&& 126) &&& 62 = c &&& 62 ∧
    ((c &&& 191 ||| 1) &&& 126 ||| 1) &&& 62 = c &&& 62 ∧
    ((c ||| 64 ||| 1) &&& 126) &&& 62 = c &&& 62 ∧
    ((c ||| 64 ||| 1) &&& 126 ||| 1) &&& 62 = c &&& 62 := by
  decide

/-! ## The RC encoding of `Amx8x5_SetCalibrationValue` -/

theorem rc_lo (x : Int) :
    u8 (bits32 x &&& 0xFF) = (x % 256).toNat := by
  unfold u8 bits32
  have := Nat.and_pow_two_sub_one_eq_mod ((x % 4294967296).toNat) 8
  norm_num at this
  rw [this]
  omega

set_option maxRecDepth 100000 in
theorem rc_hi_aux1 : ∀ j : Nat, j < 64 → 16 ≤ (j : Int) - 32 →
    u8 (bits32 ((j : Int) - 32) ||| 0xC0) >>> 6 = 3 ∧
    u8 (bits32 ((j : Int) - 32) ||| 0xC0) &&& 0x3F = (((j : Int) - 32) % 64).toNat ∧
    u8 (bits32 ((j : Int) - 32) ||| 0x80) >>> 6 = 2 ∧
    u8 (bits32 ((j : Int) - 32) ||| 0x80) &&& 0x3F = (((j : Int) - 32) % 64).toNat ∧
    u8 (bits32 ((j : Int) - 32) ||| 0x40) >>> 6 = 1 ∧
    u8 (bits32 ((j : Int) - 32) ||| 0x40) &&& 0x3F = (((j : Int) - 32) % 64).toNat := by
  decide

set_option maxRecDepth 100000 in
theorem rc_hi_aux2 : ∀ j : Nat, j < 64 → 0 ≤ (j : Int) - 32 →
    u8 (bits32 ((j : Int) - 32)) >>> 6 = 0 ∧
    u8 (bits32 ((j : Int) - 32)) &&& 0x3F = (((j : Int) - 32) % 64).toNat := by
  decide

set_option maxRecDepth 100000 in
theorem rc_hi_aux3 : ∀ j : Nat, j < 64 → (j : Int) - 32 < 0 →
    u8 (bits32 ((j : Int) - 32) &&& 0x3F) >>> 6 = 0 ∧
    u8 (bits32 ((j : Int) - 32) &&& 0x3F) &&& 0x3F = (((j : Int) - 32) % 64).toNat := by
  decide

set_option maxRecDepth 100000 in
theorem rc_hi_aux4 : ∀ j : Nat, j < 64 → (j : Int) - 32 ≤ -17 →
    u8 (bits32 ((j : Int) - 32) &&& 0x7F) >>> 6 = 1 ∧
    u8 (bits32 ((j : Int) - 32) &&& 0x7F) &&& 0x3F = (((j : Int) - 32) % 64).toNat ∧
    u8 (bits32 ((j : Int) - 32) &&& 0xBF) >>> 6 = 2 ∧
    u8 (bits32 ((j : Int) - 32) &&& 0xBF) &&& 0x3F = (((j : Int) - 32) % 64).toNat ∧
    u8 (bits32 ((j : Int) - 32) &&& 0xFF) >>> 6 = 3 ∧
    u8 (bits32 ((j : Int) - 32) &&& 0xFF) &&& 0x3F = (((j : Int) - 32) % 64).toNat := by
  decide

theorem rc_hi (h : Int) (h1 : -32 ≤ h) (h2 : h ≤ 31) :
    (16 ≤ h →
      u8 (bits32 h ||| 0xC0) >>> 6 = 3 ∧ u8 (bits32 h ||| 0xC0) &&& 0x3F = (h % 64).toNat ∧
      u8 (bits32 h ||| 0x80) >>> 6 = 2 ∧ u8 (bits32 h ||| 0x80) &&& 0x3F = (h % 64).toNat ∧
      u8 (bits32 h ||| 0x40) >>> 6 = 1 ∧ u8 (bits32 h ||| 0x40) &&& 0x3F = (h % 64).toNat) ∧
    (0 ≤ h → u8 (bits32 h) >>> 6 = 0 ∧ u8 (bits32 h) &&& 0x3F = (h % 64).toNat) ∧
    (h < 0 →
      u8 (bits32 h &&& 0x3F) >>> 6 = 0 ∧ u8 (bits32 h &&& 0x3F) &&& 0x3F = (h % 64).toNat) ∧
    (h ≤ -17 →
      u8 (bits32 h &&& 0x7F) >>> 6 = 1 ∧ u8 (bits32 h &&& 0x7F) &&& 0x3F = (h % 64).toNat ∧
      u8 (bits32 h &&& 0xBF) >>> 6 = 2 ∧ u8 (bits32 h &&& 0xBF) &&& 0x3F = (h % 64).toNat ∧
      u8 (bits32 h &&& 0xFF) >>> 6 = 3 ∧ u8 (bits32 h &&& 0xFF) &&& 0x3F = (h % 64).toNat) := by
  have e : (((h + 32).toNat : Nat) : Int) - 32 = h := by omega
  have k1 := rc_hi_aux1 (h + 32).toNat (by omega)
  have k2 := rc_hi_aux2 (h + 32).toNat (by omega)
  have k3 := rc_hi_aux3 (h + 32).toNat (by omega)
  have k4 := rc_hi_aux4 (h + 32).toNat (by omega)
  rw [e] at k1 k2 k3 k4
  exact ⟨k1, k2, k3, k4⟩

/-- The OFFSETR field of a byte pair whose low 6 bits of the upper byte and whose lower
byte are the 14-bit two's-complement digits of `q`. -/
theorem CAL_RC_OFFSETR_of (hi lo : Nat) (q : Int) (h1 : -8192 ≤ q) (h2 : q ≤ 8191)
    (hh : hi &&& 0x3F = ((q / 256) % 64).toNat) (hl : lo = (q % 256).toNat) :
    CAL_RC_OFFSETR hi lo = q := by
  unfold CAL_RC_OFFSETR
  have hlt : (q % 256).toNat < 2 ^ 8 := by omega
  have e := Nat.mul_add_lt_is_or hlt ((q / 256) % 64).toNat
  simp only [hh, hl, Nat.shiftLeft_eq, Nat.mul_comm _ (2 ^ 8), ← e]
  split_ifs with hv <;> push_cast <;> omega

theorem Int_shiftRight_nat (x : Int) (n : Nat) : x >>> (n : Int) = x / 2 ^ n := by
  cases x with
  | ofNat k =>
    rw [Int.ofNat_eq_coe, Int.shiftRight_coe_nat, Nat.shiftRight_eq_div_pow]
    norm_cast
  | negSucc k =>
    rw [Int.shiftRight_negSucc, Nat.shiftRight_eq_div_pow,
      Int.negSucc_ediv k (by positivity), Int.negSucc_eq]
    norm_cast

theorem RC_band (a q h : Int) (k hi lo : Nat) (hq : q = a / 2 ^ k) (hh256 : h = q / 256)
    (hq1 : -8192 ≤ q) (hq2 : q ≤ 8191) (hc : hi >>> 6 = k)
    (hh : hi &&& 0x3F = (h % 64).toNat) (hl : lo = (q % 256).toNat) :
    CAL_RC_CMDR hi = k ∧ decodeRC hi lo = a / 2 ^ k * 2 ^ k := by
  unfold decodeRC CAL_RC_CMDR
  rw [hc, CAL_RC_OFFSETR_of hi lo q hq1 hq2 (by rw [hh, hh256]) hl, hq]
  exact ⟨rfl, rfl⟩

theorem RC_shifts (a : Int) :
    a >>> 11 = a / 2048 ∧ a >>> 10 = a / 1024 ∧ a >>> 9 = a / 512 ∧ a >>> 8 = a / 256 ∧
    a >>> 3 = a / 8 ∧ a >>> 2 = a / 4 ∧ a >>> 1 = a / 2 := by
  refine ⟨?_, ?_, ?_, ?_, ?_, ?_, ?_⟩
  · simpa using Int_shiftRight_nat a 11
  · simpa using Int_shiftRight_nat a 10
  · simpa using Int_shiftRight_nat a 9
  · simpa using Int_shiftRight_nat a 8
  · simpa using Int_shiftRight_nat a 3
  · simpa using Int_shiftRight_nat a 2
  · simpa using Int_shiftRight_nat a 1

theorem RC_fields_pos (a : Int) (h1 : 0 ≤ a) (h2 : a ≤ 65535) :
    ∃ k : Nat, (k = 0 ∧ a ≤ 8191 ∨ k = 1 ∧ 8191 < a ∧ a ≤ 16383 ∨
        k = 2 ∧ 16383 < a ∧ a ≤ 32767 ∨ k = 3 ∧ 32767 < a) ∧
      CAL_RC_CMDR (SetCalibrationValue_RC a).1 = k ∧
      decodeRC (SetCalibrationValue_RC a).1 (SetCalibrationValue_RC a).2 =
        a / 2 ^ k * 2 ^ k := by
  obtain ⟨s11, s10, s9, s8, s3, s2, s1⟩ := RC_shifts a
  unfold SetCalibrationValue_RC
  split_ifs with c1 c2 c3
  · obtain ⟨p, -, -, -⟩ := rc_hi (a / 2048) (by omega) (by omega)
    obtain ⟨p1, p2, -⟩ := p (by omega)
    refine ⟨3, by omega, ?_⟩
    simp only [s11, s3]
    exact RC_band a (a / 8) (a / 2048) 3 _ _ (by norm_num) (by omega) (by omega) (by omega)
      p1 p2 (rc_lo _)
  · obtain ⟨p, -, -, -⟩ := rc_hi (a / 1024) (by omega) (by omega)
    obtain ⟨-, -, p1, p2, -⟩ := p (by omega)
    refine ⟨2, by omega, ?_⟩
    simp only [s10, s2]
    exact RC_band a (a / 4) (a / 1024) 2 _ _ (by norm_num) (by omega) (by omega) (by omega)
      p1 p2 (rc_lo _)
  · obtain ⟨p, -, -, -⟩ := rc_hi (a / 512) (by omega) (by omega)
    obtain ⟨-, -, -, -, p1, p2⟩ := p (by omega)
    refine ⟨1, by omega, ?_⟩
    simp only [s9, s1]
    exact RC_band a (a / 2) (a / 512) 1 _ _ (by norm_num) (by omega) (by omega) (by omega)
      p1 p2 (rc_lo _)
  · obtain ⟨-, p, -, -⟩ := rc_hi (a / 256) (by omega) (by omega)
    obtain ⟨p1, p2⟩ := p (by omega)
    refine ⟨0, by omega, ?_⟩
    simp only [s8]
    exact RC_band a a (a / 256) 0 _ _ (by norm_num) rfl (by omega) (by omega)
      p1 p2 (rc_lo _)

theorem RC_fields_neg (a : Int) (h1 : -65536 ≤ a) (h2 : a < 0) :
    ∃ k : Nat, (k = 0 ∧ -8192 ≤ a ∨ k = 1 ∧ a < -8192 ∧ -16384 ≤ a ∨
        k = 2 ∧ a < -16384 ∧ -32768 ≤ a ∨ k = 3 ∧ a < -32768) ∧
      CAL_RC_CMDR (SetCalibrationValue_RC a).1 = k ∧
      decodeRC (SetCalibrationValue_RC a).1 (SetCalibrationValue_RC a).2 =
        a / 2 ^ k * 2 ^ k := by
  obtain ⟨s11, s10, s9, s8, s3, s2, s1⟩ := RC_shifts a
  unfold SetCalibrationValue_RC
  rw [if_neg (by omega), if_neg (by omega), if_neg (by omega), if_neg (by omega)]
  split_ifs with c5 c6 c7
  · obtain ⟨-, -, p, -⟩ := rc_hi (a / 256) (by omega) (by omega)
    obtain ⟨p1, p2⟩ := p (by omega)
    refine ⟨0, by omega, ?_⟩
    simp only [s8]
    exact RC_band a a (a / 256) 0 _ _ (by norm_num) rfl (by omega) (by omega)
      p1 p2 (rc_lo _)
  · obtain ⟨-, -, -, p⟩ := rc_hi (a / 512) (by omega) (by omega)
    obtain ⟨p1, p2, -⟩ := p (by omega)
    refine ⟨1, by omega, ?_⟩
    simp only [s9, s1]
    exact RC_band a (a / 2) (a / 512) 1 _ _ (by norm_num) (by omega) (by omega) (by omega)
      p1 p2 (rc_lo _)
  · obtain ⟨-, -, -, p⟩ := rc_hi (a / 1024) (by omega) (by omega)
    obtain ⟨-, -, p1, p2, -⟩ := p (by omega)
    refine ⟨2, by omega, ?_⟩
    simp only [s10, s2]
    exact RC_band a (a / 4) (a / 1024) 2 _ _ (by norm_num) (by omega) (by omega) (by omega)
      p1 p2 (rc_lo _)
  · obtain ⟨-, -, -, p⟩ := rc_hi (a / 2048) (by omega) (by omega)
    obtain ⟨-, -, -, -, p1, p2⟩ := p (by omega)
    refine ⟨3, by omega, ?_⟩
    simp only [s11, s3]
    exact RC_band a (a / 8) (a / 2048) 3 _ _ (by norm_num) (by omega) (by omega) (by omega)
      p1 p2 (rc_lo _)

theorem SetCalibrationValue_RC_fields (a : Int) (h1 : -65536 ≤ a) (h2 : a ≤ 65535) :
    CAL_RC_CMDR (SetCalibrationValue_RC a).1 =
      (if -8192 ≤ a ∧ a ≤ 8191 then 0 else if -16384 ≤ a ∧ a ≤ 16383 then 1
       else if -32768 ≤ a ∧ a ≤ 32767 then 2 else 3) ∧
    decodeRC (SetCalibrationValue_RC a).1 (SetCalibrationValue_RC a).2 =
      a / 2 ^ CAL_RC_CMDR (SetCalibrationValue_RC a).1 *
        2 ^ CAL_RC_CMDR (SetCalibrationValue_RC a).1 := by
  by_cases h0 : 0 ≤ a
  · obtain ⟨k, hk, hc, hd⟩ := RC_fields_pos a h0 h2
    rw [hc]
    refine ⟨?_, hd⟩
    split_ifs <;> omega
  · obtain ⟨k, hk, hc, hd⟩ := RC_fields_neg a h1 (by omega)
    rw [hc]
    refine ⟨?_, hd⟩
    split_ifs <;> omega

theorem RC_bytes (a : Int) :
    u8 (SetCalibrationValue_RC a).1 = (SetCalibrationValue_RC a).1 ∧
    u8 (SetCalibrationValue_RC a).2 = (SetCalibrationValue_RC a).2 := by
  unfold SetCalibrationValue_RC
  split_ifs <;> exact ⟨u8_u8 _, u8_u8 _⟩

/-! ## C21 .. C25: alarm selectors, watchdog, countdown -/

/-- C21, the code at two documented selector values: on a cleared register file with a
transport that always succeeds and a non-null time, `Amx8x5_SetAlarm` with repeat mode
Second returns `ErrorInvalidParameter` for the pin `AMx8x5InterruptPinInternal` (with mode
PulseShort) and for the interrupt mode `AMx8x5InterruptModeLevel` (with pin
`AMx8x5InterruptIrq`): neither selector has a case in the switch that handles it. -/
theorem SetAlarm_documented_selectors_rejected :
    (Amx8x5_SetAlarm (some (RegDev.handle noFault .AMx8x5ModeI2C AMx8x5Type1805 0x69))
        (some sampleAlarm) AMx8x5AlarmSecond AMx8x5InterruptModePulseShort
        AMx8x5InterruptPinInternal { regs := RegFile.zero, log := [] }).1
      = .ErrorInvalidParameter ∧
    (Amx8x5_SetAlarm (some (RegDev.handle noFault .AMx8x5ModeI2C AMx8x5Type1805 0x69))
        (some sampleAlarm) AMx8x5AlarmSecond AMx8x5InterruptModeLevel
        AMx8x5InterruptIrq { regs := RegFile.zero, log := [] }).1
      = .ErrorInvalidParameter := by
  decide

/-- C22: on a register-file device with a transport that always succeeds, for every period
and every prior register content, `Amx8x5_SetWatchdog` with the pin
`AMx8x5WatchdogInterruptPinDisable` returns `Ok`, every call that writes the watchdog
register WDT (0x1B) writes 0, such a write is made, and the register ends at 0, so its
BMB field (bits 6:2) is 0. -/
theorem SetWatchdog_disable (m : en_amx8x5_communication_mode_t) (ty addr : Nat)
    (u32Period : Nat) (regs : RegFile) :
    (Amx8x5_SetWatchdog (some (RegDev.handle noFault m ty addr)) u32Period
        AMx8x5WatchdogInterruptPinDisable { regs := regs, log := [] }).1 = .Ok ∧
    (∀ c ∈ (Amx8x5_SetWatchdog (some (RegDev.handle noFault m ty addr)) u32Period
        AMx8x5WatchdogInterruptPinDisable { regs := regs, log := [] }).2.log,
      c.writes 0x1B = true → c = Call.write 0x1B [0]) ∧
    Call.write 0x1B [0] ∈ (Amx8x5_SetWatchdog (some (RegDev.handle noFault m ty addr))
        u32Period AMx8x5WatchdogInterruptPinDisable { regs := regs, log := [] }).2.log ∧
    (Amx8x5_SetWatchdog (some (RegDev.handle noFault m ty addr)) u32Period
        AMx8x5WatchdogInterruptPinDisable { regs := regs, log := [] }).2.regs 0x1B = 0 ∧
    (RegFile.byte (Amx8x5_SetWatchdog (some (RegDev.handle noFault m ty addr)) u32Period
        AMx8x5WatchdogInterruptPinDisable { regs := regs, log := [] }).2.regs 0x1B >>> 2)
      &&& 0x1F = 0 := by
  rw [SetWatchdog_RegDev_ok]
  obtain ⟨h1, h2⟩ := SetWatchdog_calls_WDT AMx8x5WatchdogInterruptPinDisable regs
  refine ⟨rfl, ?_, ?_, h2, ?_⟩
  · simpa using h1
  · simp [SetWatchdog_calls]
  · simp only [RegFile.byte]
    rw [h2]
    decide

/-- C23, the code at period 1000 ms and pin FOUT/nIRQ on a cleared register file with a
transport that always succeeds: `Amx8x5_SetWatchdog` returns `Ok` and the value it
computes for WDT is 0x40 (WDS 0, BMB 16, WRB 0), yet the register WDT (0x1B) ends at 0:
the last two calls are a read of WDT and a write of 0, a clear of bits in place of the
write of the computed value. -/
theorem SetWatchdog_leaves_WDT_zero :
    (Amx8x5_SetWatchdog (some (RegDev.handle noFault .AMx8x5ModeI2C AMx8x5Type1805 0x69))
        1000 AMx8x5WatchdogInterruptPinFOUTnIRQ { regs := RegFile.zero, log := [] }).1 = .Ok ∧
    SetWatchdog_u8WDTreg 1000 AMx8x5WatchdogInterruptPinFOUTnIRQ = 0x40 ∧
    (Amx8x5_SetWatchdog (some (RegDev.handle noFault .AMx8x5ModeI2C AMx8x5Type1805 0x69))
        1000 AMx8x5WatchdogInterruptPinFOUTnIRQ { regs := RegFile.zero, log := [] }).2.regs
      0x1B = 0 ∧
    (Amx8x5_SetWatchdog (some (RegDev.handle noFault .AMx8x5ModeI2C AMx8x5Type1805 0x69))
        1000 AMx8x5WatchdogInterruptPinFOUTnIRQ { regs := RegFile.zero, log := [] }).2.log
      = [Call.write 0x1B [0], Call.read 0x0F 1, Call.write 0x0F [0], Call.read 0x11 1,
         Call.write 0x11 [0], Call.read 0x1B 1, Call.write 0x1B [0]] := by
  decide

/-- C24: when every transport call succeeds and the pin is not
`AMx8x5CountdownInterruptPinDisable`, `Amx8x5_SetCountdown` returns `Ok` and its calls are,
in order: the reads of OSC_STATUS and TIMER_CTRL, the write of TIMER_CTRL (0x18) with only
the RPT bits kept (TE, bit 7, is 0), the pin-routing calls, the clear of TIM in STATUS,
the set of TIE in INT_MASK, the counter value to TIMER (0x19), the same value to
TIMER_INITIAL (0x1A), and last the merged control value, whose TE bit is 1, to TIMER_CTRL.
The pin-routing calls touch CONTROL_2 (0x11) or SQW (0x13) only, so no write with TE = 1
comes before the writes to TIMER and TIMER_INITIAL. -/
theorem SetCountdown_order (sc : Script) (m : en_amx8x5_communication_mode_t)
    (ty addr enRange : Nat) (iPeriod : Int) (enRepeat enPin : Nat)
    (hok : ∀ n, sc.status n = 0) (hpin : enPin ≠ AMx8x5CountdownInterruptPinDisable) :
    Amx8x5_SetCountdown (some (sc.handle m ty addr)) enRange iPeriod enRepeat enPin [] =
      (.Ok, SetCountdown_calls sc enPin
        (u8 (bits32 (SetCountdown_compute
          (if sc.byte 0 &&& 0x10 ≠ 0 then AMx8x5ModeCalibrateRC else AMx8x5ModeCalibrateXT)
          enRange iPeriod enRepeat enPin).u8Timer))
        (SetCountdown_merge (sc.byte 1 &&& 0x1C) (SetCountdown_compute
          (if sc.byte 0 &&& 0x10 ≠ 0 then AMx8x5ModeCalibrateRC else AMx8x5ModeCalibrateXT)
          enRange iPeriod enRepeat enPin))) ∧
    (sc.byte 1 &&& 0x1C) &&& 0x80 = 0 ∧
    SetCountdown_merge (sc.byte 1 &&& 0x1C) (SetCountdown_compute
        (if sc.byte 0 &&& 0x10 ≠ 0 then AMx8x5ModeCalibrateRC else AMx8x5ModeCalibrateXT)
        enRange iPeriod enRepeat enPin) &&& 0x80 = 0x80 ∧
    (∀ c ∈ SetCountdown_route_calls sc enPin,
      c.writes 0x18 = false ∧ c.writes 0x19 = false ∧ c.writes 0x1A = false ∧
      (c = Call.read 0x11 1 ∨ (∃ v, c = Call.write 0x11 [v]) ∨
        ∃ v, c = Call.write 0x13 [v])) := by
  have hp0 : enPin ≠ 0 := hpin
  obtain ⟨b1, -, b3, b4, b5, b6⟩ := SetCountdown_compute_bits
    (if sc.byte 0 &&& 0x10 ≠ 0 then AMx8x5ModeCalibrateRC else AMx8x5ModeCalibrateXT)
    enRange iPeriod enRepeat enPin
  obtain ⟨-, m2, -⟩ := SetCountdown_merge_bits (sc.byte 1) _ (Script_byte_lt _ _) b3 b4 b5 b6
  have hte : (sc.byte 1 &&& 0x1C) &&& 0x80 = 0 := rpt_te_aux _ (Script_byte_lt _ _)
  refine ⟨?_, hte, by rw [m2, b1 hp0], SetCountdown_route_calls_safe sc enPin⟩
  clear b1 b3 b4 b5 b6 m2
  have hcases : enPin = 1 ∨ enPin = 2 ∨ enPin = 3 ∨ enPin = 4 ∨ enPin = 5 ∨ 6 ≤ enPin := by
    omega
  rcases hcases with rfl | rfl | rfl | rfl | rfl | h6
  · simp [Amx8x5_SetCountdown, SetCountdown_route, Amx8x5_ClearRegister, Amx8x5_SetRegister,
      Script_ReadByte_byte, Script_WriteByte, hok, consts, consts2, consts3, enums, enums3,
      masks, masks2, masks3, u8_u8, u8_and, u8_or, u8_Script_byte, u8_SetCountdown_merge, SetCountdown_calls,
      SetCountdown_route_calls]
  · simp [Amx8x5_SetCountdown, SetCountdown_route, Amx8x5_SetOut1Mode, Amx8x5_ClearRegister,
      Amx8x5_SetRegister,
      Script_ReadByte_byte, Script_WriteByte, hok, consts, consts2, consts3, enums, enums3,
      masks, masks2, masks3, u8_u8, u8_and, u8_or, u8_Script_byte, u8_SetCountdown_merge, SetCountdown_calls,
      SetCountdown_route_calls]
  · by_cases hc : sc.byte 3 &&& 28 = 0 <;>
    simp [Amx8x5_SetCountdown, SetCountdown_route, Amx8x5_ClearRegister, Amx8x5_SetRegister,
      Script_ReadByte_byte, Script_WriteByte, hok, consts, consts2, consts3, enums, enums3,
      masks, masks2, masks3, u8_u8, u8_and, u8_or, u8_Script_byte, u8_SetCountdown_merge, SetCountdown_calls,
      SetCountdown_route_calls, hc]
  · simp [Amx8x5_SetCountdown, SetCountdown_route, Amx8x5_ClearRegister, Amx8x5_SetRegister,
      Script_ReadByte_byte, Script_WriteByte, hok, consts, consts2, consts3, enums, enums3,
      masks, masks2, masks3, u8_u8, u8_and, u8_or, u8_Script_byte, u8_SetCountdown_merge, SetCountdown_calls,
      SetCountdown_route_calls]
  · simp [Amx8x5_SetCountdown, SetCountdown_route, Amx8x5_ClearRegister, Amx8x5_SetRegister,
      Script_ReadByte_byte, Script_WriteByte, hok, consts, consts2, consts3, enums, enums3,
      masks, masks2, masks3, u8_u8, u8_and, u8_or, u8_Script_byte, u8_SetCountdown_merge, SetCountdown_calls,
      SetCountdown_route_calls]
  · have e1 : enPin ≠ 1 := by omega
    have e2 : enPin ≠ 2 := by omega
    have e3 : enPin ≠ 3 := by omega
    have e4 : enPin ≠ 4 := by omega
    have e5 : enPin ≠ 5 := by omega
    simp [Amx8x5_SetCountdown, SetCountdown_route, Amx8x5_ClearRegister, Amx8x5_SetRegister,
      Script_ReadByte_byte, Script_WriteByte, hok, consts, consts2, consts3, enums, enums3,
      masks, masks2, masks3, u8_u8, u8_and, u8_or, u8_Script_byte, u8_SetCountdown_merge, SetCountdown_calls,
      SetCountdown_route_calls, hp0, e1, e2, e3, e4, e5]

/-- C24 on a transport whose reads deliver 0, for one second in the microsecond range
with the pin FOUT/nIRQ: the call returns `Ok`. -/
theorem SetCountdown_order_witness :
    (Amx8x5_SetCountdown (some (Script.zeros.handle .AMx8x5ModeI2C AMx8x5Type1805 0x69))
        AMx8x5PeriodeUs 1000000 AMx8x5RepeatModeSingleLevel
        AMx8x5CountdownInterruptPinFOUTnIRQLownTIRQLow []).1 = .Ok :=
  congrArg Prod.fst (SetCountdown_order Script.zeros .AMx8x5ModeI2C AMx8x5Type1805 0x69
    AMx8x5PeriodeUs 1000000 AMx8x5RepeatModeSingleLevel
    AMx8x5CountdownInterruptPinFOUTnIRQLownTIRQLow (fun _ => rfl) (by decide)).1

/-- C25, the code at 5,000,000 us with the XT oscillator (microsecond range, level
countdown, pin nTIRQ): `Amx8x5_SetCountdown` selects TFS = 1 (64 Hz) and computes the
countdown value 319, which does not fit 8 bits; on a cleared register file with a transport
that always succeeds the call returns `Ok` and TIMER (0x19) holds 63 = 319 mod 256. With
the RC oscillator the same period gives TFS for 1 Hz and the value 4. -/
theorem SetCountdown_XT_64Hz_exceeds_byte :
    (SetCountdown_compute AMx8x5ModeCalibrateXT AMx8x5PeriodeUs 5000000
        AMx8x5RepeatModeSingleLevel AMx8x5CountdownInterruptPinnTIRQLow).u8TFS = 1 ∧
    (SetCountdown_compute AMx8x5ModeCalibrateXT AMx8x5PeriodeUs 5000000
        AMx8x5RepeatModeSingleLevel AMx8x5CountdownInterruptPinnTIRQLow).u8Timer = 319 ∧
    (Amx8x5_SetCountdown (some (RegDev.handle noFault .AMx8x5ModeI2C AMx8x5Type1805 0x69))
        AMx8x5PeriodeUs 5000000 AMx8x5RepeatModeSingleLevel
        AMx8x5CountdownInterruptPinnTIRQLow { regs := RegFile.zero, log := [] }).1 = .Ok ∧
    (Amx8x5_SetCountdown (some (RegDev.handle noFault .AMx8x5ModeI2C AMx8x5Type1805 0x69))
        AMx8x5PeriodeUs 5000000 AMx8x5RepeatModeSingleLevel
        AMx8x5CountdownInterruptPinnTIRQLow { regs := RegFile.zero, log := [] }).2.regs 0x19
      = 63 ∧
    (SetCountdown_compute AMx8x5ModeCalibrateRC AMx8x5PeriodeUs 5000000
        AMx8x5RepeatModeSingleLevel AMx8x5CountdownInterruptPinnTIRQLow).u8Timer = 4 := by
  decide

/-! ## C26 .. C30: RAM access, identification, sleep -/

/-- C26: for every 8-bit RAM address `a` and every byte read from the extension register
0x3F, when that read succeeds `Amx8x5_GetExtensionAddress` makes this one call and
returns `Ok` with the byte (r & 0xC0) | (0x08 + a / 64), where 0x08 + a / 64 is 0x8 for
`a` in 0..63, 0x9 for 64..127, 0xA for 128..191 and 0xB for 192..255. -/
theorem GetExtensionAddress_bank (sc : Script) (m : en_amx8x5_communication_mode_t)
    (ty addr a : Nat) (ha : a < 256) (hok : sc.status 0 = 0) :
    Amx8x5_GetExtensionAddress (some (sc.handle m ty addr)) a true [] =
      (.Ok, (sc.byte 0 &&& 0xC0) ||| (0x08 + a / 64), [Call.read 0x3F 1]) ∧
    (a < 64 → 0x08 + a / 64 = 0x8) ∧ (64 ≤ a → a < 128 → 0x08 + a / 64 = 0x9) ∧
    (128 ≤ a → a < 192 → 0x08 + a / 64 = 0xA) ∧ (192 ≤ a → 0x08 + a / 64 = 0xB) := by
  refine ⟨?_, by omega, by omega, by omega, by omega⟩
  rw [Script_GetExtensionAddress sc m ty addr a [] ha]
  simp [hok]

/-- C26 at address 192 on a transport whose reads deliver 0xFF. -/
theorem GetExtensionAddress_bank_witness :
    Amx8x5_GetExtensionAddress (some (Script.allOk.handle .AMx8x5ModeI2C 0x1805 0x69))
        192 true [] =
      (.Ok, (Script.allOk.byte 0 &&& 0xC0) ||| (0x08 + 192 / 64), [Call.read 0x3F 1]) :=
  (GetExtensionAddress_bank Script.allOk .AMx8x5ModeI2C 0x1805 0x69 192 (by decide) rfl).1

/-- C27: for every 8-bit address `a` and data byte `d`, when the read of the extension
register 0x3F succeeds: if the next two calls succeed too, `Amx8x5_RamWrite` makes exactly
the calls read 0x3F, write of the selector (r & 0xC0) | (0x08 + a / 64) to 0x3F, write of
`d` to 0x40 | (a & 0x3F), and `Amx8x5_RamRead` makes the same first two calls and then a
read of 0x40 | (a & 0x3F), whose byte it returns; if the selector write fails, both return
`Error` after these two calls, without a data access. -/
theorem RamRead_RamWrite_protocol (sc : Script) (m : en_amx8x5_communication_mode_t)
    (ty addr a d : Nat) (ha : a < 256) (hd : d < 256) (hok : sc.status 0 = 0) :
    (sc.status 1 = 0 → sc.status 2 = 0 →
      Amx8x5_RamWrite (some (sc.handle m ty addr)) a d [] =
        (.Ok, [ Call.read 0x3F 1,
                Call.write 0x3F [(sc.byte 0 &&& 0xC0) ||| (0x08 + a / 64)],
                Call.write (0x40 ||| (a &&& 0x3F)) [d] ]) ∧
      Amx8x5_RamRead (some (sc.handle m ty addr)) a true [] =
        (.Ok, sc.byte 2,
          [ Call.read 0x3F 1,
            Call.write 0x3F [(sc.byte 0 &&& 0xC0) ||| (0x08 + a / 64)],
            Call.read (0x40 ||| (a &&& 0x3F)) 1 ])) ∧
    (sc.status 1 ≠ 0 →
      Amx8x5_RamWrite (some (sc.handle m ty addr)) a d [] =
        (.Error, [ Call.read 0x3F 1,
                   Call.write 0x3F [(sc.byte 0 &&& 0xC0) ||| (0x08 + a / 64)] ]) ∧
      Amx8x5_RamRead (some (sc.handle m ty addr)) a true [] =
        (.Error, 0, [ Call.read 0x3F 1,
                      Call.write 0x3F [(sc.byte 0 &&& 0xC0) ||| (0x08 + a / 64)] ])) := by
  obtain ⟨-, -, a3, -⟩ := ram_map_aux a ha
  have hsel : u8 ((sc.byte 0 &&& 0xC0) ||| (0x08 + a / 64)) =
      (sc.byte 0 &&& 0xC0) ||| (0x08 + a / 64) :=
    u8_of_lt (or_lt_256 (and_lt_256 _ (u8_lt _)) (by omega))
  have hdd : u8 d = d := u8_of_lt hd
  have hsel1 := hsel
  simp [Script.byte] at hsel1
  refine ⟨fun h1 h2 => ?_, fun h1 => ?_⟩
  · simp [Amx8x5_RamWrite, Amx8x5_RamRead, Script_GetExtensionAddress, ha, Script_ReadByte,
      Script_WriteByte, consts3, hok, h1, h2, a3, hsel1, hdd, Script.byte]
  · simp [Amx8x5_RamWrite, Amx8x5_RamRead, Script_GetExtensionAddress, ha, Script_ReadByte,
      Script_WriteByte, consts3, hok, h1, a3, hsel1, hdd, Script.byte]

/-- C27 for a write of 0x5A to address 200 on a transport whose reads deliver 0xFF. -/
theorem RamRead_RamWrite_protocol_witness :
    Amx8x5_RamWrite (some (Script.allOk.handle .AMx8x5ModeI2C 0x1805 0x69)) 200 0x5A [] =
      (.Ok, [ Call.read 0x3F 1,
              Call.write 0x3F [(Script.allOk.byte 0 &&& 0xC0) ||| (0x08 + 200 / 64)],
              Call.write (0x40 ||| (200 &&& 0x3F)) [0x5A] ]) :=
  ((RamRead_RamWrite_protocol Script.allOk .AMx8x5ModeI2C 0x1805 0x69 200 0x5A (by decide)
    (by decide) rfl).1 rfl rfl).1

/-- C28: for each of the device types 0805, 0815, 1805 and 1815, on a register-file device
with a transport that always succeeds, `Amx8x5_Init` makes one call, the 2-byte read at
ID0 (0x28), and returns `Ok` if ID0 is the high byte and ID1 the low byte of the part
number of the type, and `ErrorInvalidMode` for every other pair of identity bytes. -/
theorem Init_identity (m : en_amx8x5_communication_mode_t) (ty addr : Nat) (regs : RegFile)
    (hty : ty = AMx8x5Type0805 ∨ ty = AMx8x5Type0815 ∨ ty = AMx8x5Type1805 ∨
      ty = AMx8x5Type1815) :
    (Amx8x5_Init (some (RegDev.handle noFault m ty addr)) { regs := regs, log := [] }).1 =
      (if RegFile.byte regs 0x28 = ty / 256 ∧ RegFile.byte regs 0x29 = ty % 256 then .Ok
       else .ErrorInvalidMode) ∧
    (Amx8x5_Init (some (RegDev.handle noFault m ty addr)) { regs := regs, log := [] }).2.log =
      [Call.read 0x28 2] := by
  have h0 := id_word_aux (u8 (regs 40)) (u8_lt _) (u8 (regs 41)) (u8_lt _)
  have k1 := h0 0x08 (by decide) 0x05 (by decide)
  have k2 := h0 0x08 (by decide) 0x15 (by decide)
  have k3 := h0 0x18 (by decide) 0x05 (by decide)
  have k4 := h0 0x18 (by decide) 0x15 (by decide)
  norm_num at k1 k2 k3 k4
  rcases hty with rfl | rfl | rfl | rfl <;>
    simp [Amx8x5_Init, RegDev_ReadBytes, RegFile_load_2, noFault, consts3, enums3,
      RegDev_handle_enRtcType, RegFile.byte, k1, k2, k3, k4] <;>
    split_ifs <;> simp

/-- C28 for the type 1805 on a register file whose identity bytes are 0x18, 0x05. -/
theorem Init_identity_witness :
    (Amx8x5_Init (some (RegDev.handle noFault .AMx8x5ModeI2C AMx8x5Type1805 0x69))
        { regs := sampleIdRegs, log := [] }).1 =
      (if RegFile.byte sampleIdRegs 0x28 = AMx8x5Type1805 / 256 ∧
          RegFile.byte sampleIdRegs 0x29 = AMx8x5Type1805 % 256 then .Ok
       else .ErrorInvalidMode) :=
  (Init_identity .AMx8x5ModeI2C AMx8x5Type1805 0x69 sampleIdRegs (Or.inr (Or.inr (Or.inl rfl)))).1

/-- C29, the code on a variant without power management: for every handle of type 0805 or
0815, every timeout, every sleep mode and every world, `Amx8x5_SetSleepMode` leaves the
world as it was (no transport call is made) and the result it returns is `Error`, which is
not `ErrorInvalidMode`. -/
theorem SetSleepMode_no_power_management {σ : Type} (h : stc_amx8x5_handle_t σ)
    (u8Timeout enMode : Nat) (s : σ)
    (hty : h.enRtcType = AMx8x5Type0805 ∨ h.enRtcType = AMx8x5Type0815) :
    Amx8x5_SetSleepMode (some h) u8Timeout enMode s = (.Error, s) := by
  rcases hty with e | e <;> simp [Amx8x5_SetSleepMode, e, enums3]

/-- C29 for the type 0805 on a transport whose reads deliver 0: `Error` and an empty
call log. -/
theorem SetSleepMode_no_power_management_witness :
    Amx8x5_SetSleepMode (some (Script.zeros.handle .AMx8x5ModeI2C AMx8x5Type0805 0x69))
        3 AMx8x5nRstLowInSleep [] = (.Error, []) :=
  SetSleepMode_no_power_management (Script.zeros.handle .AMx8x5ModeI2C AMx8x5Type0805 0x69)
    3 AMx8x5nRstLowInSleep [] (Or.inl rfl)

/-- C30: for a device of type 1805 or 1815 on a transport whose calls all succeed,
`Amx8x5_SetSleepMode` routes the sleep signal, writes the sleep request to SLEEP_CTRL
(0x17) and reads it back; it returns `Ok` if bit 7 of the byte read back is 1; otherwise it
reads INT_MASK (0x12) and WDT (0x1B) and returns `ErrorInvalidMode` if (INT_MASK & 0x0F) is
0 and (WDT & 0x7C) is 0 or (WDT & 0x80) is not 0, and `OperationInProgress` if not. The
result is always one of these three. -/
theorem SetSleepMode_outcome (sc : Script) (m : en_amx8x5_communication_mode_t)
    (ty addr u8Timeout enMode : Nat) (hty : ty = AMx8x5Type1805 ∨ ty = AMx8x5Type1815)
    (hok : ∀ n, sc.status n = 0) :
    Amx8x5_SetSleepMode (some (sc.handle m ty addr)) u8Timeout enMode [] =
      (if sc.byte ((SetSleepMode_route_calls sc enMode).length + 1) &&& 0x80 ≠ 0 then
        (.Ok, SetSleepMode_route_calls sc enMode ++
          [Call.write 0x17 [SetSleepMode_request u8Timeout enMode], Call.read 0x17 1])
      else
        ((if sc.byte ((SetSleepMode_route_calls sc enMode).length + 2) &&& 0x0F = 0 ∧
              (sc.byte ((SetSleepMode_route_calls sc enMode).length + 3) &&& 0x7C = 0 ∨
               sc.byte ((SetSleepMode_route_calls sc enMode).length + 3) &&& 0x80 ≠ 0)
          then .ErrorInvalidMode else .OperationInProgress),
         SetSleepMode_route_calls sc enMode ++
          [Call.write 0x17 [SetSleepMode_request u8Timeout enMode], Call.read 0x17 1,
           Call.read 0x12 1, Call.read 0x1B 1])) ∧
    ((Amx8x5_SetSleepMode (some (sc.handle m ty addr)) u8Timeout enMode []).1 = .Ok ∨
     (Amx8x5_SetSleepMode (some (sc.handle m ty addr)) u8Timeout enMode []).1
        = .ErrorInvalidMode ∨
     (Amx8x5_SetSleepMode (some (sc.handle m ty addr)) u8Timeout enMode []).1
        = .OperationInProgress) := by
  have key : Amx8x5_SetSleepMode (some (sc.handle m ty addr)) u8Timeout enMode [] =
      (if sc.byte ((SetSleepMode_route_calls sc enMode).length + 1) &&& 0x80 ≠ 0 then
        (.Ok, SetSleepMode_route_calls sc enMode ++
          [Call.write 0x17 [SetSleepMode_request u8Timeout enMode], Call.read 0x17 1])
      else
        ((if sc.byte ((SetSleepMode_route_calls sc enMode).length + 2) &&& 0x0F = 0 ∧
              (sc.byte ((SetSleepMode_route_calls sc enMode).length + 3) &&& 0x7C = 0 ∨
               sc.byte ((SetSleepMode_route_calls sc enMode).length + 3) &&& 0x80 ≠ 0)
          then .ErrorInvalidMode else .OperationInProgress),
         SetSleepMode_route_calls sc enMode ++
          [Call.write 0x17 [SetSleepMode_request u8Timeout enMode], Call.read 0x17 1,
           Call.read 0x12 1, Call.read 0x1B 1])) := by
    have hty1 : ¬ (¬ ty = 6149 ∧ ¬ ty = 6165) := by
      rcases hty with h | h <;> simp [h, enums3]
    have hcases : enMode = 0 ∨ enMode = 1 ∨ (enMode ≠ 0 ∧ enMode ≠ 1) := by omega
    rcases hcases with rfl | rfl | ⟨h0, h1⟩
    · by_cases hb : sc.byte 1 &&& 128 = 0
      · by_cases hi : sc.byte 2 &&& 15 = 0 <;>
          by_cases hw : sc.byte 3 &&& 124 = 0 <;>
          by_cases hs : sc.byte 3 &&& 128 = 0 <;>
          simp [Amx8x5_SetSleepMode, Script_handle_enRtcType, hty1, Script_ReadByte_byte,
            Script_WriteByte, hok, consts2, consts3, enums3, masks, masks2, masks3, u8_u8,
            u8_and, u8_or, u8_Script_byte, SetSleepMode_route_calls, SetSleepMode_request,
            hb, hi, hw, hs, bit7_aux _ (Script_byte_lt _ _)]
      · simp [Amx8x5_SetSleepMode, Script_handle_enRtcType, hty1, Script_ReadByte_byte,
            Script_WriteByte, hok, consts2, consts3, enums3, masks, masks2, masks3, u8_u8,
            u8_and, u8_or, u8_Script_byte, SetSleepMode_route_calls, SetSleepMode_request, hb]
    · by_cases hb : sc.byte 3 &&& 128 = 0
      · by_cases hi : sc.byte 4 &&& 15 = 0 <;>
          by_cases hw : sc.byte 5 &&& 124 = 0 <;>
          by_cases hs : sc.byte 5 &&& 128 = 0 <;>
          simp [Amx8x5_SetSleepMode, Script_handle_enRtcType, hty1, Script_ReadByte_byte,
            Script_WriteByte, hok, consts2, consts3, enums3, masks, masks2, masks3, u8_u8,
            u8_and, u8_or, u8_Script_byte, SetSleepMode_route_calls, SetSleepMode_request,
            hb, hi, hw, hs, bit7_aux _ (Script_byte_lt _ _)]
      · simp [Amx8x5_SetSleepMode, Script_handle_enRtcType, hty1, Script_ReadByte_byte,
            Script_WriteByte, hok, consts2, consts3, enums3, masks, masks2, masks3, u8_u8,
            u8_and, u8_or, u8_Script_byte, SetSleepMode_route_calls, SetSleepMode_request, hb]
    · by_cases hb : sc.byte 3 &&& 128 = 0
      · by_cases hi : sc.byte 4 &&& 15 = 0 <;>
          by_cases hw : sc.byte 5 &&& 124 = 0 <;>
          by_cases hs : sc.byte 5 &&& 128 = 0 <;>
          simp [Amx8x5_SetSleepMode, Script_handle_enRtcType, hty1, Script_ReadByte_byte,
            Script_WriteByte, hok, consts2, consts3, enums3, masks, masks2, masks3, u8_u8,
            u8_and, u8_or, u8_Script_byte, SetSleepMode_route_calls, SetSleepMode_request,
            hb, hi, hw, hs, h0, h1, bit7_aux _ (Script_byte_lt _ _)]
      · simp [Amx8x5_SetSleepMode, Script_handle_enRtcType, hty1, Script_ReadByte_byte,
            Script_WriteByte, hok, consts2, consts3, enums3, masks, masks2, masks3, u8_u8,
            u8_and, u8_or, u8_Script_byte, SetSleepMode_route_calls, SetSleepMode_request, hb,
            h0, h1]
  refine ⟨key, ?_⟩
  rw [key]
  split_ifs <;> simp

/-- C30 on a transport whose reads deliver 0: SLP reads back as 0 and no trigger interrupt
is enabled, so the result is `ErrorInvalidMode` after the reads of INT_MASK and WDT. -/
theorem SetSleepMode_outcome_witness :
    Amx8x5_SetSleepMode (some (Script.zeros.handle .AMx8x5ModeI2C AMx8x5Type1805 0x69))
        3 AMx8x5nRstLowInSleep [] =
      (.ErrorInvalidMode,
        [Call.write 0x17 [0xC3], Call.read 0x17 1, Call.read 0x12 1, Call.read 0x1B 1]) := by
  rw [(SetSleepMode_outcome Script.zeros .AMx8x5ModeI2C AMx8x5Type1805 0x69 3
    AMx8x5nRstLowInSleep (Or.inl rfl) (fun _ => rfl)).1]
  decide

/-! ## C31 .. C35: unlock keys, trickle charger, reset, square wave, RC calibration -/

/-- C31: on any transport, whatever calls succeed or fail and whatever the arguments, in
the call traces of `Amx8x5_EnableTrickleCharger`, `Amx8x5_SetBatteryReferenceVoltage`,
`Amx8x5_SelectOscillatorMode` and `Amx8x5_SetAutocalibration` every write to TRICKLE (0x20)
or BREF_CTRL (0x21) comes directly after a write of 0x9D to the configuration-key register
0x1F and every write to OSC_CONTROL (0x1C) directly after a write of 0xA1 to 0x1F. When
every call succeeds the traces of the trickle charger, of the battery reference and of the
single-cycle autocalibration are the ones listed, with the key written before each of the
two OSC_CONTROL writes of the latter. -/
theorem key_precedes_protected_write (sc : Script) (m : en_amx8x5_communication_mode_t)
    (ty addr enDiode enResistor : Nat) (bEnable : Bool) (enBref enSelect enPeriod : Nat) :
    keyedAfter none (Amx8x5_EnableTrickleCharger (some (sc.handle m ty addr))
      enDiode enResistor bEnable []).2 = true ∧
    keyedAfter none (Amx8x5_SetBatteryReferenceVoltage (some (sc.handle m ty addr))
      enBref []).2 = true ∧
    keyedAfter none (Amx8x5_SelectOscillatorMode (some (sc.handle m ty addr))
      enSelect []).2 = true ∧
    keyedAfter none (Amx8x5_SetAutocalibration (some (sc.handle m ty addr))
      enPeriod []).2 = true ∧
    ((∀ n, sc.status n = 0) →
      Amx8x5_EnableTrickleCharger (some (sc.handle m ty addr)) enDiode enResistor bEnable []
        = (.Ok, [Call.write 0x1F [0x9D],
                 Call.write 0x20 [EnableTrickleCharger_u8Tmp enDiode enResistor bEnable]]) ∧
      Amx8x5_SetBatteryReferenceVoltage (some (sc.handle m ty addr))
          AMx8x5BatReferenceFalling25V_Rising30V []
        = (.Ok, [Call.write 0x1F [0x9D], Call.write 0x21 [0x70]]) ∧
      Amx8x5_SetAutocalibration (some (sc.handle m ty addr))
          AMx8x5AutoCalibrationPeriodSingleCycle []
        = (.Ok, [Call.read 0x1C 1, Call.write 0x1F [0xA1],
                 Call.write 0x1C [sc.byte 0 &&& 0x9F ||| 0x40],
                 Call.write 0x1F [0xA1],
                 Call.write 0x1C [(sc.byte 0 &&& 0x9F ||| 0x40) &&& 0x9F]])) := by
  refine ⟨?_, ?_, Script_SelectOscillatorMode_keyed sc m ty addr enSelect,
    Script_SetAutocalibration_keyed sc m ty addr enPeriod, fun hok => ⟨?_, ?_, ?_⟩⟩
  · by_cases h0 : sc.status 0 = 0 <;>
      simp [Amx8x5_EnableTrickleCharger, Script_WriteByte, consts3, masks3, h0]
    · split_ifs <;> simp [keyedAfter, Call.key, Call.writes]
    · simp [keyedAfter, Call.key, Call.writes]
  · have hcases : enBref = 7 ∨ enBref = 11 ∨ enBref = 13 ∨ enBref = 15 ∨
        (enBref ≠ 7 ∧ enBref ≠ 11 ∧ enBref ≠ 13 ∧ enBref ≠ 15) := by omega
    rcases hcases with rfl | rfl | rfl | rfl | ⟨e0, e1, e2, e3⟩ <;>
      by_cases h0 : sc.status 0 = 0 <;> by_cases h1 : sc.status 1 = 0 <;>
      simp [Amx8x5_SetBatteryReferenceVoltage, Script_WriteByte, consts3, enums3, masks3,
        h0, h1, keyedAfter, Call.key, Call.writes, *]
  · have hb : u8 (EnableTrickleCharger_u8Tmp enDiode enResistor bEnable) =
        EnableTrickleCharger_u8Tmp enDiode enResistor bEnable := by
      unfold EnableTrickleCharger_u8Tmp
      simp only []
      split_ifs <;> simp [u8_u8, u8_and, consts3] <;> decide
    simp [Amx8x5_EnableTrickleCharger, Script_WriteByte, consts3, masks3, hok, hb]
  · simp [Amx8x5_SetBatteryReferenceVoltage, Script_WriteByte, consts3, enums3, masks3, hok]
  · simp [Amx8x5_SetAutocalibration, Script_ReadByte_byte, Script_WriteByte, consts3,
      enums3, masks, masks3, u8_and, u8_or, u8_Script_byte, hok]

/-- C32, the code for the Schottky diode (code 1) with the resistors 3K (code 1) and 6K
(code 2), enabled: `Amx8x5_EnableTrickleCharger` computes the TRICKLE bytes 0xA4 and 0xAC,
and on a transport whose calls succeed the call with 6K writes the key 0x9D to 0x1F and
then 0xAC to TRICKLE (0x20), whose DIODE field (bits 3:2) is 3 and whose ROUT field
(bits 1:0) is 0: the resistor code is shifted to the position of the diode field. -/
theorem EnableTrickleCharger_resistor_in_diode_field :
    EnableTrickleCharger_u8Tmp AMx8x5TrickleDiodeSchottky AMx8x5TrickleResistor3K true = 0xA4 ∧
    EnableTrickleCharger_u8Tmp AMx8x5TrickleDiodeSchottky AMx8x5TrickleResistor6K true = 0xAC ∧
    (Amx8x5_EnableTrickleCharger
        (some (Script.zeros.handle .AMx8x5ModeI2C AMx8x5Type1805 0x69))
        AMx8x5TrickleDiodeSchottky AMx8x5TrickleResistor6K true [])
      = (.Ok, [Call.write 0x1F [0x9D], Call.write 0x20 [0xAC]]) ∧
    (0xAC >>> 2) &&& 3 = 3 ∧ 0xAC &&& 3 = 0 := by
  decide

/-- C33, the code on a transport whose calls succeed: `Amx8x5_Reset` returns `Ok` after one
call, the write of 0x3C to register 0xA1, not to the configuration-key register 0x1F. -/
theorem Reset_writes_register_0xA1 :
    Amx8x5_Reset (some (Script.zeros.handle .AMx8x5ModeI2C AMx8x5Type1805 0x69)) []
      = (.Ok, [Call.write 0xA1 [0x3C]]) := by
  decide

/-- C34, the code on a register file whose SQW register (0x13) holds 0x10, with a transport
that always succeeds: `Amx8x5_SetSquareWaveOutput` with `u8SQFS` = 0 and pin mask 1 returns
`Ok` and SQW ends at 0x90, whose SQFS field (bits 4:0) is 0x10 and not 0: bit 4 of the old
content is kept. -/
theorem SetSquareWaveOutput_keeps_old_bit4 :
    (Amx8x5_SetSquareWaveOutput
        (some (RegDev.handle noFault .AMx8x5ModeI2C AMx8x5Type1805 0x69)) 0 1
        { regs := sampleSqwRegs, log := [] }).1 = .Ok ∧
    (Amx8x5_SetSquareWaveOutput
        (some (RegDev.handle noFault .AMx8x5ModeI2C AMx8x5Type1805 0x69)) 0 1
        { regs := sampleSqwRegs, log := [] }).2.regs 0x13 = 0x90 ∧
    0x90 &&& 0x1F = 0x10 := by
  decide

/-- C35: for every internal adjustment unit `a` in -65536..65535, the pair (hi, lo) that
the RC branch of `Amx8x5_SetCalibrationValue` computes has CMDR = hi >> 6 equal to 0 for
-8192..8191, 1 for the rest of -16384..16383, 2 for the rest of -32768..32767 and 3
otherwise, and the 14-bit two's-complement OFFSETR taken from bits 5:0 of hi and lo,
times 2^CMDR, is `a` rounded down to a multiple of 2^CMDR. On any transport whose first two
calls succeed, a call in RC mode whose adjustment unit is `a` returns `Ok` after exactly
two calls: the write of hi to CAL_RC_HI (0x15), then the write of lo to CAL_RC_LOW
(0x16). -/
theorem SetCalibrationValue_RC_decodes (a : Int) (h1 : -65536 ≤ a) (h2 : a ≤ 65535) :
    CAL_RC_CMDR (SetCalibrationValue_RC a).1 =
      (if -8192 ≤ a ∧ a ≤ 8191 then 0 else if -16384 ≤ a ∧ a ≤ 16383 then 1
       else if -32768 ≤ a ∧ a ≤ 32767 then 2 else 3) ∧
    decodeRC (SetCalibrationValue_RC a).1 (SetCalibrationValue_RC a).2 =
      a / 2 ^ CAL_RC_CMDR (SetCalibrationValue_RC a).1 *
        2 ^ CAL_RC_CMDR (SetCalibrationValue_RC a).1 ∧
    ∀ (sc : Script) (m : en_amx8x5_communication_mode_t) (ty addr : Nat) (iAdjust : Int),
      SetCalibrationValue_iAdjint iAdjust = a → sc.status 0 = 0 → sc.status 1 = 0 →
      Amx8x5_SetCalibrationValue (some (sc.handle m ty addr)) AMx8x5ModeCalibrateRC
          iAdjust [] =
        (.Ok, [ Call.write 0x15 [(SetCalibrationValue_RC a).1],
                Call.write 0x16 [(SetCalibrationValue_RC a).2] ]) := by
  obtain ⟨c, d⟩ := SetCalibrationValue_RC_fields a h1 h2
  refine ⟨c, d, ?_⟩
  intro sc m ty addr iAdjust ha s0 s1
  obtain ⟨b1, b2⟩ := RC_bytes a
  simp [Amx8x5_SetCalibrationValue, Script_WriteByte, consts2, enums, ha, s0, s1, b1, b2]

/-- C35 at `a` = -20000 (adjust value -38140): CMDR is 2, the bytes are 0xAC and 0x78,
OFFSETR is -5000 and the decoded value is -20000. -/
theorem SetCalibrationValue_RC_decodes_witness :
    CAL_RC_CMDR (SetCalibrationValue_RC (-20000)).1 = 2 ∧
    decodeRC (SetCalibrationValue_RC (-20000)).1 (SetCalibrationValue_RC (-20000)).2 =
      -20000 ∧
    Amx8x5_SetCalibrationValue (some (Script.allOk.handle .AMx8x5ModeI2C 0x1805 0x69))
        AMx8x5ModeCalibrateRC (-38140) [] =
      (.Ok, [ Call.write 0x15 [0xAC], Call.write 0x16 [0x78] ]) := by
  have h := SetCalibrationValue_RC_decodes (-20000) (by decide) (by decide)
  refine ⟨by rw [h.1]; decide, by rw [h.2.1, h.1]; decide, ?_⟩
  rw [h.2.2 Script.allOk .AMx8x5ModeI2C 0x1805 0x69 (-38140) (by decide) rfl rfl]
  decide

/-! ## C36 .. C40: watchdog counter, shared TIMER_CTRL, CONTROL_1, RAM mapping -/

/-- C36: for every period in 65..124000 ms the counter value BMB that `Amx8x5_SetWatchdog`
computes lies in 1..31 and BMB * 4 + WRB stays below 0x80 (no carry into the WDS bit); for
every period up to 127999 ms BMB is the tick count of the selected clock (period * 16 /
1000, period * 4 / 1000, period / 1000 or period / 4000) and is at most 31; at 128000 ms
BMB is 32. -/
theorem SetWatchdog_BMB_range :
    (∀ p, 65 ≤ p → p ≤ 124000 →
      1 ≤ SetWatchdog_BMB p ∧ SetWatchdog_BMB p ≤ 31 ∧
      SetWatchdog_BMB p * 4 + SetWatchdog_WRB p < 0x80) ∧
    (∀ p, p ≤ 127999 →
      SetWatchdog_BMB p = WDT_ticks (SetWatchdog_WRB p) p ∧ SetWatchdog_BMB p ≤ 31) ∧
    SetWatchdog_BMB 128000 = 32 := by
  refine ⟨fun p h1 h2 => ?_, fun p h => ?_, by decide⟩
  · have e := SetWatchdog_BMB_eq p (by omega)
    have l := WDT_ticks_le p (by omega)
    have g := WDT_ticks_ge p h1
    have w := SetWatchdog_WRB_le p
    rw [e]
    omega
  · have e := SetWatchdog_BMB_eq p h
    have l := WDT_ticks_le p h
    rw [e]
    exact ⟨rfl, l⟩

/-- C37, the code at periods that 31 ticks of a clock still cover: at 1937 ms
`Amx8x5_SetWatchdog` selects the clock code 1 (4 Hz, counter value 7) although 16 Hz gives
floor(1937 * 16 / 1000) = 30 ticks; at 7750 ms it selects code 2 (1 Hz, counter value 7)
although 4 Hz gives exactly 31 ticks; at 31000 ms it selects code 3 (1/4 Hz, counter value
7) although 1 Hz gives exactly 31 ticks. In each case the highest frequency with at most
31 ticks is one step faster than the selected one. Over all periods in 0..127999 ms the
selected code is that of the highest frequency with at most 31 ticks except for
1937..1999, 7750..7999 and 31000..31999, where it is the next slower one. -/
theorem SetWatchdog_WRB_slower_at_fit :
    (SetWatchdog_WRB 1937 = 1 ∧ SetWatchdog_BMB 1937 = 7 ∧ WDT_ticks 0 1937 = 30 ∧
      WDT_fastest 1937 = 0) ∧
    (SetWatchdog_WRB 7750 = 2 ∧ SetWatchdog_BMB 7750 = 7 ∧ WDT_ticks 1 7750 = 31 ∧
      WDT_fastest 7750 = 1) ∧
    (SetWatchdog_WRB 31000 = 3 ∧ SetWatchdog_BMB 31000 = 7 ∧ WDT_ticks 2 31000 = 31 ∧
      WDT_fastest 31000 = 2) ∧
    ∀ p, p ≤ 127999 →
      SetWatchdog_WRB p = WDT_fastest p +
        (if (1937 ≤ p ∧ p < 2000) ∨ (7750 ≤ p ∧ p < 8000) ∨ (31000 ≤ p ∧ p < 32000)
          then 1 else 0) := by
  refine ⟨by decide, by decide, by decide, fun p _ => ?_⟩
  obtain ⟨t0, t1, t2, -⟩ := WDT_ticks_values p
  unfold WDT_fastest
  rw [t0, t1, t2]
  rcases SetWatchdog_WRB_cases p with ⟨h1, e⟩ | ⟨h1, h2, e⟩ | ⟨h1, h2, e⟩ | ⟨h1, e⟩ <;>
    rw [e] <;> split_ifs <;> omega

/-- C38: on a register-file device with a transport that always succeeds, for all
arguments and every prior register content, `Amx8x5_SetCountdown` leaves the RPT field
(bits 4:2) of TIMER_CTRL (0x18) as it was, and `Amx8x5_SetAlarm` leaves bits 7:5 (TE, TM,
TRPT) and bits 1:0 (TFS) of TIMER_CTRL as they were. -/
theorem TIMER_CTRL_fields_kept (m : en_amx8x5_communication_mode_t) (ty addr : Nat)
    (enRange : Nat) (iPeriod : Int) (enRepeat enPin : Nat)
    (pstcTime : Option stc_amx8x5_time_t) (enModeRepeat enModeIrq enModePin : Nat)
    (regs : RegFile) (l : List Call) :
    (RegFile.byte (Amx8x5_SetCountdown (some (RegDev.handle noFault m ty addr)) enRange
        iPeriod enRepeat enPin { regs := regs, log := l }).2.regs 0x18 >>> 2) &&& 7 =
      (RegFile.byte regs 0x18 >>> 2) &&& 7 ∧
    (RegFile.byte (Amx8x5_SetAlarm (some (RegDev.handle noFault m ty addr)) pstcTime
        enModeRepeat enModeIrq enModePin { regs := regs, log := l }).2.regs 0x18 >>> 5) &&& 7 =
      (RegFile.byte regs 0x18 >>> 5) &&& 7 ∧
    RegFile.byte (Amx8x5_SetAlarm (some (RegDev.handle noFault m ty addr)) pstcTime
        enModeRepeat enModeIrq enModePin { regs := regs, log := l }).2.regs 0x18 &&& 3 =
      RegFile.byte regs 0x18 &&& 3 := by
  have h1 := RegDev_SetCountdown_frame m ty addr enRange iPeriod enRepeat enPin
    { regs := regs, log := l }
  have h2 := RegDev_SetAlarm_frame m ty addr pstcTime enModeRepeat enModeIrq enModePin
    { regs := regs, log := l }
  simp only [RegFile.byte]
  obtain ⟨a1, -, -, -⟩ := timer_ctrl_fields_aux (u8 ((Amx8x5_SetCountdown
    (some (RegDev.handle noFault m ty addr)) enRange iPeriod enRepeat enPin
    { regs := regs, log := l }).2.regs 0x18)) (u8_lt _)
  obtain ⟨-, b2, b3, -⟩ := timer_ctrl_fields_aux (u8 ((Amx8x5_SetAlarm
    (some (RegDev.handle noFault m ty addr)) pstcTime enModeRepeat enModeIrq enModePin
    { regs := regs, log := l }).2.regs 0x18)) (u8_lt _)
  obtain ⟨c1, c2, c3, -⟩ := timer_ctrl_fields_aux (u8 (regs 0x18)) (u8_lt _)
  rw [a1, b2, b3, c1, c2, c3]
  exact ⟨by rw [h1], by rw [h2], by rw [h2]⟩

/-- C39: on a register-file device with a transport that always succeeds, for every time
record, protect flag and prior register content, `Amx8x5_SetTime` returns `Ok` and leaves
CONTROL_1 (0x10) with the STOP bit (bit 7) 0, bits 5..1 as they were, and bit 6 equal to 0
for the 24-hour mode and to 1 for any other mode. -/
theorem SetTime_CONTROL_1 (m : en_amx8x5_communication_mode_t) (ty addr : Nat)
    (t : stc_amx8x5_time_t) (bProtect : Bool) (regs : RegFile) (l : List Call)
    (cache : stc_amx8x5_time_t) :
    (Amx8x5_SetTime (some (RegDev.handle noFault m ty addr)) (some t) bProtect
        { dev := { regs := regs, log := l }, stcSysTime := cache }).1 = .Ok ∧
    RegFile.byte (Amx8x5_SetTime (some (RegDev.handle noFault m ty addr)) (some t) bProtect
        { dev := { regs := regs, log := l }, stcSysTime := cache }).2.dev.regs 0x10
      &&& 0x80 = 0 ∧
    RegFile.byte (Amx8x5_SetTime (some (RegDev.handle noFault m ty addr)) (some t) bProtect
        { dev := { regs := regs, log := l }, stcSysTime := cache }).2.dev.regs 0x10
      &&& 0x3E = RegFile.byte regs 0x10 &&& 0x3E ∧
    (t.u8Mode = AMX8X5_24HR_MODE →
      RegFile.byte (Amx8x5_SetTime (some (RegDev.handle noFault m ty addr)) (some t) bProtect
        { dev := { regs := regs, log := l }, stcSysTime := cache }).2.dev.regs 0x10
      &&& 0x40 = 0) ∧
    (t.u8Mode ≠ AMX8X5_24HR_MODE →
      RegFile.byte (Amx8x5_SetTime (some (RegDev.handle noFault m ty addr)) (some t) bProtect
        { dev := { regs := regs, log := l }, stcSysTime := cache }).2.dev.regs 0x10
      &&& 0x40 = 0x40) := by
  rw [SetTime_RegDev_ok]
  obtain ⟨a1, a2, a3, a4, a5, a6, a7, a8⟩ := control_1_frame_aux (u8 (regs 16)) (u8_lt _)
  obtain ⟨b1, b2, b3, b4⟩ := control_bits_aux (u8 (regs 16)) (u8_lt _)
  simp only [consts]
  by_cases hm : t.u8Mode = 2 <;> cases bProtect <;>
    simp [SetTime_calls_on, SetTime_calls, RegFile.replay, RegFile.store, RegFile.byte, hm,
      u8_and, u8_or, u8_u8, masks, a1, a2, a3, a4, a5, a6, a7, a8, b1, b2, b3, b4]

/-- C40: for 8-bit addresses `a` and `b` that differ, the pairs (selector, data register)
that `Amx8x5_RamRead` and `Amx8x5_RamWrite` use differ; the selector is 0x08 + a / 64 and
its low two bits are a >> 6; the data register is 0x40 | (a & 0x3F) and lies in
0x40..0x7F. -/
theorem RamAccess_injective (a b : Nat) (ha : a < 256) (hb : b < 256) (hab : a ≠ b) :
    (GetExtensionAddress_u8Xadd a, RamAccess_register a) ≠
      (GetExtensionAddress_u8Xadd b, RamAccess_register b) ∧
    GetExtensionAddress_u8Xadd a = 0x08 + a / 64 ∧
    RamAccess_register a = 0x40 ||| (a &&& 0x3F) ∧
    0x40 ≤ RamAccess_register a ∧ RamAccess_register a ≤ 0x7F ∧
    GetExtensionAddress_u8Xadd a &&& 3 = a >>> 6 := by
  obtain ⟨a1, a2, a3, a4⟩ := ram_map_aux a ha
  obtain ⟨b1, b2, -, -⟩ := ram_map_aux b hb
  refine ⟨?_, a1, a3, by omega, by omega, a4⟩
  intro h
  rw [Prod.mk.injEq] at h
  omega

/-- C40 at the addresses 0 and 64: same data register 0x40, selectors 0x08 and 0x09. -/
theorem RamAccess_injective_witness :
    (GetExtensionAddress_u8Xadd 0, RamAccess_register 0) ≠
      (GetExtensionAddress_u8Xadd 64, RamAccess_register 64) :=
  (RamAccess_injective 0 64 (by decide) (by decide) (by decide)).1

end Amx8x5
